import Mathlib

/-!
# LSM6DSO32 register driver and the sensor-read task

A shallow embedding of `flight_computer/src/sensors/lsm6dso32.hpp` and
`flight_computer/src/tasks/task_sensor_read.cpp`.

* Machine integers are natural numbers reduced modulo `2^w` where the C++ code
  converts to `uint8_t`, `uint16_t` or `uint32_t`; `int16_t` values are integers.
* Everything outside the two translation units (the SPI bus, the chip-select pin,
  the barometer driver, the RTOS, the globals written by other tasks) is an
  environment of an arbitrary state type `η`, reached only through the calls the
  code makes.  Every such call is appended to a chronological trace.
-/

namespace Cats

/-! ## Machine integers -/

/-- Conversion to `uint8_t`. -/
def u8 (n : Nat) : Nat := n % 256

/-- Conversion to `uint16_t`. -/
def u16 (n : Nat) : Nat := n % 65536

/-- Conversion to `uint32_t`. -/
def u32 (n : Nat) : Nat := n % 4294967296

/-- The `int16_t` object whose two bytes in memory are `lo` (lower address) and `hi`
(higher address), as `*reinterpret_cast<int16_t*>(p)` reads it on the little-endian
target: bit 7 of `hi` is the sign bit. -/
def reinterpretInt16 (lo hi : Nat) : Int :=
  let bits := (u8 hi <<< 8) ||| u8 lo
  if u8 hi &&& 0x80 = 0 then (bits : Int) else (bits : Int) - 65536

/-! ## Data types of the task (declared in `util/types.hpp`) -/

/-- Three `int16_t` axis readings. -/
structure Vec3 where
  x : Int
  y : Int
  z : Int
deriving DecidableEq, Repr

/-- Composite IMU record `imu_data_t`: accelerometer and gyroscope triples. -/
structure imu_data_t where
  acc : Vec3
  gyro : Vec3
deriving DecidableEq, Repr

/-- Barometer record `baro_data_t`. -/
structure baro_data_t where
  pressure : Int
  temperature : Int
deriving DecidableEq, Repr

/-- FIFO sample data structure (`sensor::FifoSample`). -/
structure FifoSample where
  x : Int
  y : Int
  z : Int
  tag : Nat
deriving DecidableEq, Repr

/-- Conversion requests of the barometer driver (`sensor::Ms5607::Request`). -/
inductive Request
  | kPressure
  | kTemperature
deriving DecidableEq, Repr

/-- Record families passed to `add_id_to_record_type`. -/
inductive RecordType
  | IMU
  | BARO
deriving DecidableEq, Repr

/-- Payload a record points to. -/
inductive Payload
  | imu (d : imu_data_t)
  | baro (d : baro_data_t)
deriving DecidableEq, Repr

/-- The three log lines of the task. -/
inductive LogMsg
  | fifoOverrun
  | fifoEnabled
  | fifoConfigFailed
deriving DecidableEq, Repr

/-! ## Environment and trace -/

/-- One call made by the code to something outside it, with the arguments of the call. -/
inductive Event
  | SetLow
  | SetHigh
  | Transfer (bytes : List Nat)
  | Receive (length : Nat)
  | Prepare (r : Request)
  | Read
  | GetMeasurement
  | record (tick : Nat) (type : RecordType) (id : Nat) (p : Payload)
  | osDelay (ticks : Nat)
  | osDelayUntil (tick : Nat)
  | osKernelGetTickCount
  | log_error (m : LogMsg)
  | log_info (m : LogMsg)
deriving DecidableEq, Repr

/-- Behaviour of everything the code calls or reads outside itself, over an arbitrary
outside state `η`: `after` is the outside state once a call has been made; the other
fields are what a call returns, or what a global holds, in a given outside state.
`Transfer` returns the transport status (`true` for success), `Receive` the bytes it
stored together with its status. -/
structure Env (η : Type) where
  after : η → Event → η
  Transfer : η → List Nat → Bool
  Receive : η → Nat → List Nat × Bool
  GetMeasurement : η → Int × Int
  osKernelGetTickCount : η → Nat
  simulation_started : η → Bool
  global_baro_sim : η → Nat → baro_data_t
  global_imu_sim : η → Nat → imu_data_t
  imu_initialized : η → Nat → Bool

/-- Outside state together with the chronological trace of calls made so far. -/
structure World (η : Type) where
  env : η
  trace : List Event

/-- Make one call: append it to the trace and move the outside state. -/
def World.call {η : Type} (w : World η) (e : Env η) (ev : Event) : World η :=
  { env := e.after w.env ev, trace := w.trace ++ [ev] }

/-- Contents of a `length`-byte buffer that held `data` after `Receive` stored `got`
into it: bytes the transport did not store keep their previous value. -/
def storeBytes (data : List Nat) (length : Nat) (got : List Nat) : List Nat :=
  (List.range length).map fun i => u8 (got.getD i (data.getD i 0))

/-! ## Register map and field codes (`lsm6dso32.hpp`) -/

namespace Register

def kFifoCtrl1 : Nat := 0x07
def kFifoCtrl2 : Nat := 0x08
def kFifoCtrl3 : Nat := 0x09
def kFifoCtrl4 : Nat := 0x0A
def kWhoAmI : Nat := 0x0F
def kCtrl1Xl : Nat := 0x10
def kCtrl2G : Nat := 0x11
def kOutXLG : Nat := 0x22
def kOutXLA : Nat := 0x28
def kFifoStatus1 : Nat := 0x3A
def kFifoStatus2 : Nat := 0x3B
def kFifoDataOutTag : Nat := 0x78

end Register

namespace ImuOdr

def kOdr104Hz : Nat := 0x40

end ImuOdr

namespace FifoBdr

def kBdr104Hz : Nat := 0x04

end FifoBdr

namespace FifoMode

def kBypass : Nat := 0x00
def kContinuous : Nat := 0x06

end FifoMode

namespace AccelerometerFs

def kFs32G : Nat := 0x04

end AccelerometerFs

namespace GyroscopeFs

def kFs2000Dps : Nat := 0x0C

end GyroscopeFs

namespace FifoTag

def kGyroscope : Nat := 0x01
def kAccelerometer : Nat := 0x02

end FifoTag

/-! ## The driver `sensor::Lsm6dso32` -/

namespace Lsm6dso32

/-- Sample period in microseconds at 104Hz ODR. -/
def kSamplePeriodUs : Nat := 9615

/-- Read `length` bytes from register `reg` into the buffer `data`; returns the buffer.
The statuses returned by `Transfer` and `Receive` are not looked at, as in the source. -/
def ReadRegister {η : Type} (e : Env η) (reg : Nat) (data : List Nat) (length : Nat)
    (w : World η) : World η × List Nat :=
  let read_reg := u8 (reg ||| u8 0x80)
  let w1 := w.call e Event.SetLow
  let w2 := w1.call e (Event.Transfer [read_reg])
  let r := e.Receive w2.env length
  let w3 := w2.call e (Event.Receive length)
  let w4 := w3.call e Event.SetHigh
  (w4, storeBytes data length r.1)

/-- Write the first `length` bytes of `data` to register `reg` in one framed transfer.
The status returned by `Transfer` is not looked at, as in the source. -/
def WriteRegister {η : Type} (e : Env η) (reg : Nat) (data : List Nat) (length : Nat)
    (w : World η) : World η :=
  let concatenated := [reg] ++ data.take length
  let w1 := w.call e Event.SetLow
  let w2 := w1.call e (Event.Transfer concatenated)
  w2.call e Event.SetHigh

/-- Initialize the sensor; the result is `true` on success. -/
def Init {η : Type} (e : Env η) (w : World η) : World η × Bool :=
  let temp := 0
  let r := ReadRegister e Register.kWhoAmI [temp] 1 w
  let temp := r.2.getD 0 0
  if temp ≠ u8 0x6C then (r.1, false)
  else
    let temp := u8 (ImuOdr.kOdr104Hz ||| AccelerometerFs.kFs32G)
    let w1 := WriteRegister e Register.kCtrl1Xl [temp] 1 r.1
    let temp := u8 (ImuOdr.kOdr104Hz ||| GyroscopeFs.kFs2000Dps)
    let w2 := WriteRegister e Register.kCtrl2G [temp] 1 w1
    (w2, true)

/-- The watermark after the two clamping statements of `ConfigureFifo`. -/
def clampWatermark (watermark : Nat) : Nat :=
  let watermark := if watermark = 0 then 1 else watermark
  if watermark > 511 then 511 else watermark

/-- Configure FIFO for continuous mode sampling; `watermark` is a `uint16_t`. -/
def ConfigureFifo {η : Type} (e : Env η) (watermark : Nat) (w : World η) : World η × Bool :=
  let watermark := clampWatermark (u16 watermark)
  let temp := u8 (watermark &&& 0xFF)
  let w1 := WriteRegister e Register.kFifoCtrl1 [temp] 1 w
  let temp := u8 ((watermark >>> 8) &&& 0x01)
  let w2 := WriteRegister e Register.kFifoCtrl2 [temp] 1 w1
  let temp := u8 ((FifoBdr.kBdr104Hz <<< 4) ||| FifoBdr.kBdr104Hz)
  let w3 := WriteRegister e Register.kFifoCtrl3 [temp] 1 w2
  let temp := u8 FifoMode.kContinuous
  let w4 := WriteRegister e Register.kFifoCtrl4 [temp] 1 w3
  (w4, true)

/-- Disable FIFO and return to bypass mode. -/
def DisableFifo {η : Type} (e : Env η) (w : World η) : World η :=
  let temp := u8 FifoMode.kBypass
  WriteRegister e Register.kFifoCtrl4 [temp] 1 w

/-- Number of unread 7-byte words in the FIFO, a `uint16_t`. -/
def GetFifoSampleCount {η : Type} (e : Env η) (w : World η) : World η × Nat :=
  let r := ReadRegister e Register.kFifoStatus1 [0, 0] 2 w
  let status := r.2
  (r.1, u16 ((u16 (status.getD 1 0 &&& 0x03) <<< 8) ||| u16 (status.getD 0 0)))

/-- Whether the FIFO overrun flag (bit 6 of FIFO_STATUS2) is set. -/
def IsFifoOverrun {η : Type} (e : Env η) (w : World η) : World η × Bool :=
  let r := ReadRegister e Register.kFifoStatus2 [0] 1 w
  let status2 := r.2.getD 0 0
  (r.1, decide ((status2 &&& 0x40) ≠ 0))

/-- The sample held by a 7-byte FIFO word: tag from bits 7:3 of byte 0, axes from the
byte pairs 1-2, 3-4, 5-6. -/
def decodeFifoWord (data : List Nat) : FifoSample :=
  { tag := u8 ((data.getD 0 0 >>> 3) &&& 0x1F)
    x := reinterpretInt16 (data.getD 1 0) (data.getD 2 0)
    y := reinterpretInt16 (data.getD 3 0) (data.getD 4 0)
    z := reinterpretInt16 (data.getD 5 0) (data.getD 6 0) }

/-- Read one sample from the FIFO; returns the status flag and the sample. -/
def ReadFifoSample {η : Type} (e : Env η) (w : World η) : World η × (Bool × FifoSample) :=
  let r := ReadRegister e Register.kFifoDataOutTag (List.replicate 7 0) 7 w
  (r.1, (true, decodeFifoWord r.2))

/-- The three `int16_t` objects laid over a 6-byte buffer. -/
def vec3OfBytes (data : List Nat) : Vec3 :=
  { x := reinterpretInt16 (data.getD 0 0) (data.getD 1 0)
    y := reinterpretInt16 (data.getD 2 0) (data.getD 3 0)
    z := reinterpretInt16 (data.getD 4 0) (data.getD 5 0) }

/-- The six bytes in memory of three `int16_t` objects (little-endian target). -/
def bytesOfVec3 (v : Vec3) : List Nat :=
  let b := fun (a : Int) => (a % 65536).toNat
  [b v.x % 256, b v.x / 256, b v.y % 256, b v.y / 256, b v.z % 256, b v.z / 256]

/-- Read raw gyroscope data over the triple `data`. -/
def ReadGyroRaw {η : Type} (e : Env η) (data : Vec3) (w : World η) : World η × Vec3 :=
  let r := ReadRegister e Register.kOutXLG (bytesOfVec3 data) 6 w
  (r.1, vec3OfBytes r.2)

/-- Read raw accelerometer data over the triple `data`. -/
def ReadAccelRaw {η : Type} (e : Env η) (data : Vec3) (w : World η) : World η × Vec3 :=
  let r := ReadRegister e Register.kOutXLA (bytesOfVec3 data) 6 w
  (r.1, vec3OfBytes r.2)

end Lsm6dso32

/-! ## The task `task::SensorRead` -/

/-- Build constants the task is compiled against (`NUM_IMU`, `NUM_BARO`, the RTOS tick
frequency `sysGetTickFreq()` and `CONTROL_SAMPLING_FREQ`), declared outside the two
translation units. -/
structure Config where
  NUM_IMU : Nat
  NUM_BARO : Nat
  sysGetTickFreq : Nat
  CONTROL_SAMPLING_FREQ : Nat

/-- Which barometer conversion the next readout belongs to. -/
inductive BaroReadoutType
  | kReadBaroTemperature
  | kReadBaroPressure
deriving DecidableEq, Repr

/-- Member variables of `SensorRead`; `m_imu` is `true` when the pointer is not null.
The task is modelled with a barometer attached: `m_barometer`, which `Run` dereferences
in its first statement, is not a variable of the model. -/
structure SensorRead where
  m_imu : Bool
  m_imu_data : Nat → imu_data_t
  m_baro_data : Nat → baro_data_t
  m_current_readout : BaroReadoutType
  m_fifo_enabled : Bool
  m_fifo_sample_counter : Nat

namespace SensorRead

/-- The task as its constructor leaves it (default member initialisers). -/
def new (imu : Bool) : SensorRead :=
  { m_imu := imu
    m_imu_data := fun _ => ⟨⟨0, 0, 0⟩, ⟨0, 0, 0⟩⟩
    m_baro_data := fun _ => ⟨0, 0⟩
    m_current_readout := BaroReadoutType.kReadBaroTemperature
    m_fifo_enabled := false
    m_fifo_sample_counter := 0 }

/-- Assignment to one element of an array member. -/
def setAt {α : Type} (a : Nat → α) (i : Nat) (v : α) : Nat → α :=
  fun j => if j = i then v else a j

/-- Variables live across the iterations of the drain loop of `ReadImuFifo`. -/
structure DrainState (η : Type) where
  w : World η
  t : SensorRead
  sample_count : Nat
  accel_sample_idx : Nat
  gyro_sample_idx : Nat

/-- The tick computed for an accelerometer sample popped while `sample_count` words
remain, in `uint32_t` arithmetic. -/
def derivedTick (base_tick_count sample_count : Nat) : Nat :=
  u32 (base_tick_count + 4294967296
    - u32 (u32 (sample_count * Lsm6dso32.kSamplePeriodUs) / 1000))

/-- One iteration of the `while (sample_count > 0)` loop.  The flag is `false` when the
iteration leaves the loop through `break`. -/
def drainBody {η : Type} (e : Env η) (base_tick_count : Nat) (st : DrainState η) :
    DrainState η × Bool :=
  let r := Lsm6dso32.ReadFifoSample e st.w
  let sample := r.2.2
  if !r.2.1 then ({ st with w := r.1 }, false)
  else if sample.tag = u8 FifoTag.kAccelerometer then
    let d : imu_data_t := { st.t.m_imu_data 0 with acc := ⟨sample.x, sample.y, sample.z⟩ }
    let t := { st.t with m_imu_data := setAt st.t.m_imu_data 0 d }
    let derived_tick := derivedTick base_tick_count st.sample_count
    let w := r.1.call e (Event.record derived_tick RecordType.IMU 0 (Payload.imu (t.m_imu_data 0)))
    ({ w := w, t := t, sample_count := u16 (st.sample_count - 1),
       accel_sample_idx := u32 (st.accel_sample_idx + 1),
       gyro_sample_idx := st.gyro_sample_idx }, true)
  else if sample.tag = u8 FifoTag.kGyroscope then
    let d : imu_data_t := { st.t.m_imu_data 0 with gyro := ⟨sample.x, sample.y, sample.z⟩ }
    let t := { st.t with m_imu_data := setAt st.t.m_imu_data 0 d }
    ({ w := r.1, t := t, sample_count := u16 (st.sample_count - 1),
       accel_sample_idx := st.accel_sample_idx,
       gyro_sample_idx := u32 (st.gyro_sample_idx + 1) }, true)
  else
    ({ st with w := r.1, sample_count := u16 (st.sample_count - 1) }, true)

/-- The loop `while (sample_count > 0)`, run for at most `fuel` iterations. -/
def drainLoop {η : Type} (e : Env η) (base_tick_count : Nat) :
    Nat → DrainState η → DrainState η
  | 0, st => st
  | fuel + 1, st =>
    if st.sample_count > 0 then
      let r := drainBody e base_tick_count st
      if r.2 then drainLoop e base_tick_count fuel r.1 else r.1
    else st

/-- Read all available samples from the IMU FIFO and record them.  Every iteration of
the loop decrements `sample_count`, so `sample_count` iterations are all it can make. -/
def ReadImuFifo {η : Type} (e : Env η) (base_tick_count : Nat)
    (s : World η × SensorRead) : World η × SensorRead :=
  if !s.2.m_fifo_enabled || !s.2.m_imu then s
  else
    let o := Lsm6dso32.IsFifoOverrun e s.1
    let w := if o.2 then o.1.call e (Event.log_error LogMsg.fifoOverrun) else o.1
    let c := Lsm6dso32.GetFifoSampleCount e w
    let sample_count := c.2
    let st := drainLoop e base_tick_count sample_count
      { w := c.1, t := s.2, sample_count := sample_count,
        accel_sample_idx := 0, gyro_sample_idx := 0 }
    (st.w, { st.t with
      m_fifo_sample_counter := u32 (st.t.m_fifo_sample_counter + st.accel_sample_idx) })

/-- Local variables of `Run` together with the task and the world. -/
structure RunState (η : Type) where
  w : World η
  t : SensorRead
  tick_count : Nat

/-- The constant `tick_update` of `Run`. -/
def tick_update (c : Config) : Nat :=
  u32 c.sysGetTickFreq / u32 (2 * c.CONTROL_SAMPLING_FREQ)

/-- The part of `Run` before its loop. -/
def RunStartup {η : Type} (e : Env η) (w : World η) (t : SensorRead) : RunState η :=
  let w := w.call e (Event.Prepare Request.kTemperature)
  let w := w.call e (Event.osDelay 5)
  let s : World η × SensorRead :=
    if t.m_imu && e.imu_initialized w.env 0 then
      let r := Lsm6dso32.ConfigureFifo e 1 w
      let t := { t with m_fifo_enabled := r.2 }
      if t.m_fifo_enabled then (r.1.call e (Event.log_info LogMsg.fifoEnabled), t)
      else (r.1.call e (Event.log_error LogMsg.fifoConfigFailed), t)
    else (w, t)
  let tick_count := u32 (e.osKernelGetTickCount s.1.env)
  { w := s.1.call e Event.osKernelGetTickCount, t := s.2, tick_count := tick_count }

/-- The simulator loop `m_baro_data[i].pressure = global_baro_sim[i].pressure`. -/
def simBaroLoop {η : Type} (e : Env η) (w : World η) (num : Nat) (t : SensorRead) :
    SensorRead :=
  (List.range num).foldl (fun t i =>
    let d : baro_data_t :=
      { t.m_baro_data i with pressure := (e.global_baro_sim w.env i).pressure }
    { t with m_baro_data := setAt t.m_baro_data i d }) t

/-- The loop saving barometric data: the payload is `&(m_baro_data[0])` for every `i`. -/
def recordBaroLoop {η : Type} (e : Env η) (tick_count num : Nat) (t : SensorRead)
    (w : World η) : World η :=
  (List.range num).foldl (fun w i =>
    w.call e (Event.record tick_count RecordType.BARO i (Payload.baro (t.m_baro_data 0)))) w

/-- Body of the fallback loop over the IMU instances, for index `i`.  The raw reads go
through `m_imu->` without a null test: with a null `m_imu` they have no defined
behaviour and the result is `none`. -/
def imuFallbackBody {η : Type} (e : Env η) (tick_count : Nat)
    (s : World η × SensorRead) (i : Nat) : Option (World η × SensorRead) :=
  let s1 : Option (World η × SensorRead) :=
    if e.simulation_started s.1.env then
      let d : imu_data_t :=
        { s.2.m_imu_data i with acc := (e.global_imu_sim s.1.env i).acc }
      some (s.1, { s.2 with m_imu_data := setAt s.2.m_imu_data i d })
    else if e.imu_initialized s.1.env i then
      if s.2.m_imu then
        let g := Lsm6dso32.ReadGyroRaw e (s.2.m_imu_data i).gyro s.1
        let a := Lsm6dso32.ReadAccelRaw e (s.2.m_imu_data i).acc g.1
        some (a.1,
          { s.2 with m_imu_data := setAt s.2.m_imu_data i { acc := a.2, gyro := g.2 } })
      else none
    else some s
  s1.map fun s1 =>
    (s1.1.call e (Event.record tick_count RecordType.IMU i (Payload.imu (s1.2.m_imu_data i))),
     s1.2)

/-- The fallback loop `for (int i = 0; i < NUM_IMU; i++)`; `none` once an iteration has
no defined behaviour. -/
def imuFallbackLoop {η : Type} (e : Env η) (tick_count num : Nat)
    (s : World η × SensorRead) : Option (World η × SensorRead) :=
  (List.range num).foldl (fun o i => o.bind fun s => imuFallbackBody e tick_count s i)
    (some s)

/-- The measurement step of the readout branch: under simulation the simulated
pressures are substituted, otherwise the barometer measurement is fetched into
`m_baro_data[0]`. -/
def fetchBaro {η : Type} (c : Config) (e : Env η) (s : World η × SensorRead) :
    World η × SensorRead :=
  if e.simulation_started s.1.env then (s.1, simBaroLoop e s.1 c.NUM_BARO s.2)
  else
    let m := e.GetMeasurement s.1.env
    (s.1.call e Event.GetMeasurement,
     { s.2 with m_baro_data := setAt s.2.m_baro_data 0 ⟨m.1, m.2⟩ })

/-- The readout branch of the loop of `Run` after the temperature request: fetch the
measurement, save the barometric data and, when FIFO mode is not active, read and save
the IMU data. -/
def saveReadout {η : Type} (c : Config) (e : Env η) (tick_count : Nat)
    (s : World η × SensorRead) : Option (World η × SensorRead) :=
  let s3 := fetchBaro c e s
  let w := recordBaroLoop e tick_count c.NUM_BARO s3.2 s3.1
  if !s3.2.m_fifo_enabled then imuFallbackLoop e tick_count c.NUM_IMU (w, s3.2)
  else some (w, s3.2)

/-- One iteration of the `while (true)` loop of `Run`; `none` when the fallback reads
of the iteration have no defined behaviour. -/
def RunIter {η : Type} (c : Config) (e : Env η) (s : RunState η) : Option (RunState η) :=
  let w := s.w.call e Event.Read
  let s1 : World η × SensorRead :=
    if s.t.m_fifo_enabled then ReadImuFifo e s.tick_count (w, s.t) else (w, s.t)
  let s2 : Option (World η × SensorRead) :=
    if s1.2.m_current_readout = BaroReadoutType.kReadBaroPressure then
      some (s1.1.call e (Event.Prepare Request.kPressure),
       { s1.2 with m_current_readout := BaroReadoutType.kReadBaroTemperature })
    else
      saveReadout c e s.tick_count
        (s1.1.call e (Event.Prepare Request.kTemperature),
         { s1.2 with m_current_readout := BaroReadoutType.kReadBaroPressure })
  let tick_count := u32 (s.tick_count + tick_update c)
  s2.map fun s2 =>
    { w := s2.1.call e (Event.osDelayUntil tick_count), t := s2.2, tick_count := tick_count }

/-- The state of `Run` after its startup and `n` iterations of its loop; `none` when one
of these iterations has no defined behaviour. -/
def Run {η : Type} (c : Config) (e : Env η) (w : World η) (t : SensorRead) :
    Nat → Option (RunState η)
  | 0 => some (RunStartup e w t)
  | n + 1 => (Run c e w t n).bind (RunIter c e)

end SensorRead

/-! ## Views of a trace -/

/-- The records handed to the recording sink, in order. -/
def recordsOf : List Event → List (Nat × RecordType × Nat × Payload)
  | [] => []
  | Event.record tick ty id p :: rest => (tick, ty, id, p) :: recordsOf rest
  | _ :: rest => recordsOf rest

/-- The byte strings passed to `Transfer`, in order. -/
def transfersOf : List Event → List (List Nat)
  | [] => []
  | Event.Transfer bytes :: rest => bytes :: transfersOf rest
  | _ :: rest => transfersOf rest

/-- The register writes on a trace: the transfers whose address byte has bit 7 clear,
as pairs of address and payload. -/
def writesOf (tr : List Event) : List (Nat × List Nat) :=
  (transfersOf tr).filterMap fun bytes =>
    match bytes with
    | [] => none
    | reg :: payload => if reg &&& 0x80 = 0 then some (reg, payload) else none

/-! ## A scripted environment

A test double for the outside world: `Receive` and `Transfer` answer from scripts, the
globals and the barometer measurement are fixed values. -/

/-- State of the scripted environment. -/
structure Script where
  rx : List (List Nat × Bool)
  tx : List Bool
  measurement : Int × Int
  now : Nat
  sim : Bool
  baro_sim : List baro_data_t
  imu_sim : List imu_data_t
  initialized : List Bool
deriving DecidableEq, Repr

/-- A script with the given `Receive` answers, every `Transfer` succeeding. -/
def Script.ofRx (rx : List (List Nat × Bool)) : Script :=
  { rx := rx, tx := [], measurement := (0, 0), now := 0, sim := false,
    baro_sim := [], imu_sim := [], initialized := [] }

/-- The scripted environment: each `Receive` consumes the next scripted answer (a failed
transfer storing nothing once the script is exhausted), each `Transfer` the next
scripted status (success once exhausted). -/
def scripted : Env Script :=
  { after := fun s ev =>
      match ev with
      | Event.Receive _ => { s with rx := s.rx.tail }
      | Event.Transfer _ => { s with tx := s.tx.tail }
      | _ => s
    Transfer := fun s _ => s.tx.headD true
    Receive := fun s _ => s.rx.headD ([], false)
    GetMeasurement := fun s => s.measurement
    osKernelGetTickCount := fun s => s.now
    simulation_started := fun s => s.sim
    global_baro_sim := fun s i => s.baro_sim.getD i ⟨0, 0⟩
    global_imu_sim := fun s i => s.imu_sim.getD i ⟨⟨0, 0, 0⟩, ⟨0, 0, 0⟩⟩
    imu_initialized := fun s i => s.initialized.getD i false }

/-- The world at power-up: nothing has been called yet. -/
def World.start {η : Type} (env : η) : World η :=
  { env := env, trace := [] }

/-! ## Definitions used to state the properties

Expected values written in the words of the specification, views of traces, the
constructor of the driver, and a register-file device to run the driver against. -/

/-- The effective watermark in the words of the specification: 0 becomes 1, a value
above 511 becomes 511, any other value is unchanged. -/
def effectiveWatermark (w : Nat) : Nat :=
  if w = 0 then 1 else if w > 511 then 511 else w

/-- The two's-complement signed 16-bit value of a word `v` in [0, 65535]. -/
def twosComplement16 (v : Nat) : Int :=
  if v < 32768 then (v : Int) else (v : Int) - 65536

/-- The axis triple of a FIFO sample. -/
def FifoSample.xyz (s : FifoSample) : Vec3 := ⟨s.x, s.y, s.z⟩

/-- The task after its composite record 0 has been replaced by `d`. -/
def SensorRead.withImu0 (t : SensorRead) (d : imu_data_t) : SensorRead :=
  { t with m_imu_data := SensorRead.setAt t.m_imu_data 0 d }

/-- The gyroscope triple of the most recent gyroscope-tagged sample among `pre`, or `g0`
when there is none. -/
def lastGyro (g0 : Vec3) (pre : List FifoSample) : Vec3 :=
  match (pre.filter fun s => s.tag = FifoTag.kGyroscope).getLast? with
  | some s => s.xyz
  | none => g0

/-- The composite records the specification expects from a batch `ws` drained while the
task holds the gyroscope triple `g0`: one for each accelerometer-tagged sample, in FIFO
order, with that sample as accelerometer triple and, as gyroscope triple, the most
recent gyroscope-tagged sample before it in the batch (`g0` when there is none). -/
def expectedRecords (g0 : Vec3) (ws : List FifoSample) : List imu_data_t :=
  (List.range ws.length).filterMap fun i =>
    match ws[i]? with
    | some s =>
      if s.tag = FifoTag.kAccelerometer then some ⟨s.xyz, lastGyro g0 (ws.take i)⟩
      else none
    | none => none

/-- The records of a drain of the samples `ws` with anchor `base_tick`, sample by sample:
`g` is the gyroscope triple held when the first of them is popped. -/
def drainSpec (base_tick : Nat) (g : Vec3) :
    List FifoSample → List (Nat × RecordType × Nat × Payload)
  | [] => []
  | s :: rest =>
    if s.tag = FifoTag.kAccelerometer then
      (SensorRead.derivedTick base_tick (rest.length + 1), RecordType.IMU, 0,
        Payload.imu ⟨s.xyz, g⟩) :: drainSpec base_tick g rest
    else if s.tag = FifoTag.kGyroscope then drainSpec base_tick s.xyz rest
    else drainSpec base_tick g rest

/-- What a device whose FIFO holds `words` answers to the reads of one drain: the status
byte for the overrun test, the two status bytes carrying the count `words.length` in
their low ten bits, then the words themselves.  `flags` are bits 7:2 of FIFO_STATUS2
(the overrun flag among them). -/
def fifoRx (flags : Nat) (words : List (List Nat)) : List (List Nat × Bool) :=
  ([words.length / 256 + 4 * flags], true) ::
  ([words.length % 256, words.length / 256 + 4 * flags], true) ::
  words.map fun d => (d, true)

/-- The records handed to the sink during iteration `n + 1` of the loop of `Run`: those
on the trace after `n + 1` iterations beyond those on the trace after `n` (none when
the run is not defined that far). -/
def iterRecords {η : Type} (c : Config) (e : Env η) (w : World η) (t : SensorRead)
    (n : Nat) : List (Nat × RecordType × Nat × Payload) :=
  match SensorRead.Run c e w t n, SensorRead.Run c e w t (n + 1) with
  | some s, some s' => (recordsOf s'.w.trace).drop (recordsOf s.w.trace).length
  | _, _ => []

/-- The composite IMU records among `rs`. -/
def imuRecords (rs : List (Nat × RecordType × Nat × Payload)) :
    List (Nat × RecordType × Nat × Payload) :=
  rs.filter fun r => r.2.1 = RecordType.IMU

/-- The environment `e` with the statuses of `Transfer` and `Receive` replaced by `ts`
and `rs`; everything else, the bytes `Receive` stores included, is as in `e`. -/
def Env.withStatus {η : Type} (e : Env η) (ts : η → List Nat → Bool) (rs : η → Nat → Bool) :
    Env η :=
  { e with
    Transfer := ts
    Receive := fun s n => ((e.Receive s n).1, rs s n) }

/-- Calls the IMU side of the task makes: bus traffic, IMU records and error log lines. -/
def Event.isImuSide : Event → Bool
  | Event.SetLow => true
  | Event.SetHigh => true
  | Event.Transfer _ => true
  | Event.Receive _ => true
  | Event.record _ RecordType.IMU _ _ => true
  | Event.log_error _ => true
  | _ => false

/-- Calls to the barometer driver and barometer records handed to the sink. -/
def Event.isBaro : Event → Bool
  | Event.Prepare _ => true
  | Event.Read => true
  | Event.GetMeasurement => true
  | Event.record _ RecordType.BARO _ _ => true
  | _ => false

/-- Calls to the RTOS time services. -/
def Event.isRtos : Event → Bool
  | Event.osDelay _ => true
  | Event.osDelayUntil _ => true
  | Event.osKernelGetTickCount => true
  | _ => false

/-- The task `t2` agrees with `t1` on everything but the composite IMU records and the
FIFO sample counter. -/
def SensorRead.sameBaroSide (t1 t2 : SensorRead) : Prop :=
  t2.m_imu = t1.m_imu ∧ t2.m_baro_data = t1.m_baro_data ∧
  t2.m_current_readout = t1.m_current_readout ∧ t2.m_fifo_enabled = t1.m_fifo_enabled

/-- The world and the task in one iteration of the loop of `Run` once the barometer has
been read and the FIFO, when enabled, drained. -/
def SensorRead.afterDrain {η : Type} (e : Env η) (s : SensorRead.RunState η) :
    World η × SensorRead :=
  if s.t.m_fifo_enabled then
    SensorRead.ReadImuFifo e s.tick_count (s.w.call e Event.Read, s.t)
  else (s.w.call e Event.Read, s.t)

/-- The value of `simulation_started` when the readout branch of an iteration tests it. -/
def SensorRead.simAtReadout {η : Type} (e : Env η) (s : SensorRead.RunState η) : Bool :=
  e.simulation_started
    ((SensorRead.afterDrain e s).1.call e (Event.Prepare Request.kTemperature)).env

/-- The other readout phase. -/
def BaroReadoutType.other : BaroReadoutType → BaroReadoutType
  | BaroReadoutType.kReadBaroTemperature => BaroReadoutType.kReadBaroPressure
  | BaroReadoutType.kReadBaroPressure => BaroReadoutType.kReadBaroTemperature

/-- The barometer records among `rs`. -/
def baroRecords (rs : List (Nat × RecordType × Nat × Payload)) :
    List (Nat × RecordType × Nat × Payload) :=
  rs.filter fun r => r.2.1 = RecordType.BARO

/-- The outside state in which the readout branch of an iteration tests
`simulation_started` and reads the simulated pressures or the measurement. -/
def SensorRead.readoutEnv {η : Type} (e : Env η) (s : SensorRead.RunState η) : η :=
  ((SensorRead.afterDrain e s).1.call e (Event.Prepare Request.kTemperature)).env

/-- The world `w` with the calls `p` placed before its trace. -/
def World.prefixed {η : Type} (p : List Event) (w : World η) : World η :=
  { env := w.env, trace := p ++ w.trace }

/-- The loop variables `st` with the calls `p` placed before the trace of the world. -/
def SensorRead.DrainState.prefixed {η : Type} (p : List Event)
    (st : SensorRead.DrainState η) : SensorRead.DrainState η :=
  { st with w := st.w.prefixed p }

/-- The number of FIFO words popped on a trace: the transfers of the read address of
the FIFO data-out register (0x78 with the read flag). -/
def fifoPops (tr : List Event) : Nat :=
  (transfersOf tr).count [0xF8]

/-- The sample count the device reports to a call of `ReadImuFifo` started in the world
`w`: what `GetFifoSampleCount` returns after the overrun test. -/
def SensorRead.reportedCount {η : Type} (e : Env η) (w : World η) : Nat :=
  (Lsm6dso32.GetFifoSampleCount e
    (if (Lsm6dso32.IsFifoOverrun e w).2 then
      (Lsm6dso32.IsFifoOverrun e w).1.call e (Event.log_error LogMsg.fifoOverrun)
     else (Lsm6dso32.IsFifoOverrun e w).1)).2

/-- The constructor of `Lsm6dso32`: it drives chip-select high. -/
def Lsm6dso32.new {η : Type} (e : Env η) (w : World η) : World η :=
  w.call e Event.SetHigh

/-- A trace made of chip-select windows only: each window is select low, the transfer
of one register access (the address with its payload, followed for a read by one
receive), select high. -/
def wellFramed : List Event → Bool
  | [] => true
  | Event.SetLow :: Event.Transfer _ :: Event.SetHigh :: rest => wellFramed rest
  | Event.SetLow :: Event.Transfer _ :: Event.Receive _ :: Event.SetHigh :: rest =>
    wellFramed rest
  | _ => false

/-- The level of chip-select (`true` for high) after the calls of a trace, from the
level `level` before them. -/
def csLevel (level : Bool) : List Event → Bool
  | [] => level
  | Event.SetLow :: rest => csLevel false rest
  | Event.SetHigh :: rest => csLevel true rest
  | _ :: rest => csLevel level rest

/-- No `Transfer` or `Receive` of the trace happens while chip-select is high, from the
level `level` before the trace. -/
def transfersWhileLow (level : Bool) : List Event → Bool
  | [] => true
  | Event.SetLow :: rest => transfersWhileLow false rest
  | Event.SetHigh :: rest => transfersWhileLow true rest
  | Event.Transfer _ :: rest => !level && transfersWhileLow level rest
  | Event.Receive _ :: rest => !level && transfersWhileLow level rest
  | _ :: rest => transfersWhileLow level rest

/-- The calls an operation added to the trace `before`, giving the trace `after`, keep
the chip-select framing from a high chip-select: they are well-framed windows, no
transfer happens while chip-select is high, and chip-select is high at the end. -/
def framedFrom (before after : List Event) : Prop :=
  ∃ new : List Event, after = before ++ new ∧ wellFramed new = true ∧
    transfersWhileLow true new = true ∧ csLevel true new = true

/-- A register-file device: the register contents by address, and the address latched
by the last read command. -/
structure RegFile where
  regs : Nat → Nat
  pointer : Nat

/-- The registers after a write of `payload` starting at address `reg`, the address
advancing by one per byte. -/
def RegFile.write (regs : Nat → Nat) : Nat → List Nat → Nat → Nat
  | _, [] => regs
  | reg, b :: rest => RegFile.write (SensorRead.setAt regs reg b) (reg + 1) rest

/-- The register-file device as an environment: a transfer whose address byte has bit 7
clear stores its payload, a transfer with bit 7 set latches the read address, a receive
returns the registers from the latched address on.  The transport never fails. -/
def regDevice : Env RegFile :=
  { after := fun s ev =>
      match ev with
      | Event.Transfer (reg :: payload) =>
        if reg &&& 0x80 = 0 then { s with regs := RegFile.write s.regs reg payload }
        else { s with pointer := reg &&& 0x7F }
      | _ => s
    Transfer := fun _ _ => true
    Receive := fun s n => ((List.range n).map fun i => s.regs (s.pointer + i), true)
    GetMeasurement := fun _ => (0, 0)
    osKernelGetTickCount := fun _ => 0
    simulation_started := fun _ => false
    global_baro_sim := fun _ _ => ⟨0, 0⟩
    global_imu_sim := fun _ _ => ⟨⟨0, 0, 0⟩, ⟨0, 0, 0⟩⟩
    imu_initialized := fun _ _ => true }

/-- The outside state after the calls `evs` have been made from the outside state
`env`. -/
def replay {η : Type} (e : Env η) (env : η) (evs : List Event) : η :=
  evs.foldl e.after env

/-- The triple a raw read leaves in a buffer that held the triple `prev` when the
transport stores the bytes `got`: three little-endian two's-complement 16-bit values,
the bytes 0-1, 2-3 and 4-5; a byte the transport did not store keeps the value it had
in the bytes of `prev`. -/
def rawTriple (prev : Vec3) (got : List Nat) : Vec3 :=
  let b := fun (i : Nat) => got.getD i ((Lsm6dso32.bytesOfVec3 prev).getD i 0) % 256
  { x := twosComplement16 (b 0 + 256 * b 1)
    y := twosComplement16 (b 2 + 256 * b 3)
    z := twosComplement16 (b 4 + 256 * b 5) }

/-- The calls the fallback makes for IMU instance `i`, whose composite record is `d`,
when it reaches the instance in the outside state `env`.  Under simulation it records
`d` with the accelerometer triple replaced by the simulated one.  Otherwise, for an
initialized instance, it reads six bytes from the gyroscope output registers (0x22,
0xA2 on the wire), then six bytes from the accelerometer output registers (0x28, 0xA8
on the wire), and records the two triples decoded from what the device answered.
Otherwise it records `d` as it is. -/
def instanceEvents {η : Type} (e : Env η) (tick : Nat) (d : imu_data_t) (i : Nat)
    (env : η) : List Event :=
  if e.simulation_started env then
    [Event.record tick RecordType.IMU i
      (Payload.imu ⟨(e.global_imu_sim env i).acc, d.gyro⟩)]
  else if e.imu_initialized env i then
    [Event.SetLow, Event.Transfer [0xA2], Event.Receive 6, Event.SetHigh,
     Event.SetLow, Event.Transfer [0xA8], Event.Receive 6, Event.SetHigh,
     Event.record tick RecordType.IMU i
      (Payload.imu
        ⟨rawTriple d.acc
          (e.Receive
            (replay e env
              [Event.SetLow, Event.Transfer [0xA2], Event.Receive 6, Event.SetHigh,
               Event.SetLow, Event.Transfer [0xA8]]) 6).1,
         rawTriple d.gyro
          (e.Receive (replay e env [Event.SetLow, Event.Transfer [0xA2]]) 6).1⟩)]
  else [Event.record tick RecordType.IMU i (Payload.imu d)]

/-- The calls the fallback makes for the instances `0 .. num - 1` in this order, from
the outside state `env`, the composite records before it being `data`. -/
def fallbackEvents {η : Type} (e : Env η) (tick : Nat) (data : Nat → imu_data_t)
    (env : η) : Nat → List Event
  | 0 => []
  | n + 1 =>
    fallbackEvents e tick data env n ++
      instanceEvents e tick (data n) n (replay e env (fallbackEvents e tick data env n))

/-- The fallback reaches instance `i` in an outside state where simulation is off and
the instance is initialized: the state in which it reads the sensor through `m_imu`. -/
def readsSensorAt {η : Type} (e : Env η) (tick : Nat) (data : Nat → imu_data_t)
    (env : η) (i : Nat) : Prop :=
  e.simulation_started (replay e env (fallbackEvents e tick data env i)) = false ∧
  e.imu_initialized (replay e env (fallbackEvents e tick data env i)) i = true

/-- The calls of an iteration of the loop entered in the temperature phase with FIFO
mode not active, up to the fallback: the barometer read, the temperature request, the
measurement (skipped when `sim` is set) and `NUM_BARO` barometer records with the
payload `b`. -/
def readoutEvents (c : Config) (tick : Nat) (sim : Bool) (b : baro_data_t) : List Event :=
  [Event.Read, Event.Prepare Request.kTemperature] ++
    (if sim then [] else [Event.GetMeasurement]) ++
    (List.range c.NUM_BARO).map
      (fun i => Event.record tick RecordType.BARO i (Payload.baro b))

/-- The record of barometer instance 0 once an iteration of the loop entered in `s`
with FIFO mode not active has fetched the measurement: under simulation the record the
task held with the simulated pressure of instance 0 (untouched when there is no
barometer instance), otherwise the pressure and the temperature the barometer driver
returned. -/
def SensorRead.baroFetched {η : Type} (c : Config) (e : Env η) (s : SensorRead.RunState η) :
    baro_data_t :=
  if e.simulation_started
      (replay e s.w.env [Event.Read, Event.Prepare Request.kTemperature]) then
    if 0 < c.NUM_BARO then
      { s.t.m_baro_data 0 with
        pressure := (e.global_baro_sim
          (replay e s.w.env [Event.Read, Event.Prepare Request.kTemperature]) 0).pressure }
    else s.t.m_baro_data 0
  else
    ⟨(e.GetMeasurement
        (replay e s.w.env [Event.Read, Event.Prepare Request.kTemperature])).1,
     (e.GetMeasurement
        (replay e s.w.env [Event.Read, Event.Prepare Request.kTemperature])).2⟩

/-- The calls an iteration of the loop entered in `s` in the temperature phase with FIFO
mode not active makes before the fallback. -/
def SensorRead.readoutCalls {η : Type} (c : Config) (e : Env η) (s : SensorRead.RunState η) :
    List Event :=
  readoutEvents c s.tick_count
    (e.simulation_started (replay e s.w.env [Event.Read, Event.Prepare Request.kTemperature]))
    (SensorRead.baroFetched c e s)

/-- The calls the fallback of an iteration of the loop entered in `s` in the temperature
phase with FIFO mode not active makes: those for the instances `0 .. NUM_IMU - 1`, at
the tick count of the iteration. -/
def SensorRead.fallbackCalls {η : Type} (c : Config) (e : Env η) (s : SensorRead.RunState η) :
    List Event :=
  fallbackEvents e s.tick_count s.t.m_imu_data
    (replay e s.w.env (SensorRead.readoutCalls c e s)) c.NUM_IMU

/-- The calls of `Run` before it samples the tick count: the temperature request, the
startup delay and, when the IMU is attached and instance 0 is initialized after the
delay, the four FIFO configuration writes for the watermark 1 and the log line. -/
def SensorRead.startupEvents {η : Type} (e : Env η) (w : World η) (t : SensorRead) :
    List Event :=
  [Event.Prepare Request.kTemperature, Event.osDelay 5] ++
    (if t.m_imu && e.imu_initialized
        (replay e w.env [Event.Prepare Request.kTemperature, Event.osDelay 5]) 0 then
      [Event.SetLow, Event.Transfer [0x07, 0x01], Event.SetHigh,
       Event.SetLow, Event.Transfer [0x08, 0x00], Event.SetHigh,
       Event.SetLow, Event.Transfer [0x09, 0x44], Event.SetHigh,
       Event.SetLow, Event.Transfer [0x0A, 0x06], Event.SetHigh,
       Event.log_info LogMsg.fifoEnabled]
     else [])

/-- The value `osKernelGetTickCount` returns to `Run` before the loop, as a `uint32_t`:
what the RTOS reports in the outside state reached by the calls made before it. -/
def SensorRead.sampledTick {η : Type} (e : Env η) (w : World η) (t : SensorRead) : Nat :=
  u32 (e.osKernelGetTickCount (replay e w.env (SensorRead.startupEvents e w t)))

/-- A condition under which no fallback read goes through a null `m_imu`: the IMU is
attached, or no outside state has an instance initialized while simulation is off. -/
def SensorRead.readsDefined {η : Type} (e : Env η) (t : SensorRead) : Prop :=
  t.m_imu = true ∨
  ∀ (env : η) (i : Nat), e.simulation_started env = false → e.imu_initialized env i = false
/-! ## Arithmetic of the bit operations -/

theorem and_255 (n : Nat) : n &&& 0xFF = n % 256 := Nat.and_pow_two_sub_one_eq_mod n 8

theorem and_1 (n : Nat) : n &&& 0x01 = n % 2 := Nat.and_pow_two_sub_one_eq_mod n 1

theorem and_3 (n : Nat) : n &&& 0x03 = n % 4 := Nat.and_pow_two_sub_one_eq_mod n 2

theorem and_31 (n : Nat) : n &&& 0x1F = n % 32 := Nat.and_pow_two_sub_one_eq_mod n 5

theorem shr_3 (n : Nat) : n >>> 3 = n / 8 := Nat.shiftRight_eq_div_pow n 3

theorem shr_8 (n : Nat) : n >>> 8 = n / 256 := Nat.shiftRight_eq_div_pow n 8

theorem shl_8_or (a b : Nat) (hb : b < 256) : (a <<< 8) ||| b = 256 * a + b := by
  rw [Nat.shiftLeft_eq, Nat.mul_comm]
  exact (Nat.mul_add_lt_is_or (i := 8) hb a).symm

set_option maxRecDepth 100000 in
theorem and_128 : ∀ n, n < 256 → ((n &&& 0x80 = 0) ↔ n < 128) := by decide

set_option maxRecDepth 100000 in
theorem and_64 : ∀ n, n < 256 → ((n &&& 0x40 = 0) ↔ (n / 64) % 2 = 0) := by decide

/-! ## Buffers -/

theorem storeBytes_length (data : List Nat) (length : Nat) (got : List Nat) :
    (storeBytes data length got).length = length := by
  simp [storeBytes]

theorem storeBytes_lt (data : List Nat) (length : Nat) (got : List Nat) :
    ∀ b ∈ storeBytes data length got, b < 256 := by
  intro b hb
  simp only [storeBytes, List.mem_map] at hb
  obtain ⟨i, _, rfl⟩ := hb
  exact Nat.mod_lt _ (by decide)

theorem ReadRegister_lt {η : Type} (e : Env η) (reg : Nat) (data : List Nat) (length : Nat)
    (w : World η) : ∀ b ∈ (Lsm6dso32.ReadRegister e reg data length w).2, b < 256 :=
  storeBytes_lt _ _ _

theorem ReadRegister_trace {η : Type} (e : Env η) (reg : Nat) (data : List Nat)
    (length : Nat) (w : World η) :
    (Lsm6dso32.ReadRegister e reg data length w).1.trace =
      w.trace ++ [Event.SetLow, Event.Transfer [u8 (reg ||| u8 0x80)],
        Event.Receive length, Event.SetHigh] := by
  simp [Lsm6dso32.ReadRegister, World.call]

theorem WriteRegister_trace {η : Type} (e : Env η) (reg : Nat) (data : List Nat)
    (length : Nat) (w : World η) :
    (Lsm6dso32.WriteRegister e reg data length w).trace =
      w.trace ++ [Event.SetLow, Event.Transfer ([reg] ++ data.take length),
        Event.SetHigh] := by
  simp [Lsm6dso32.WriteRegister, World.call]

theorem clampWatermark_eq (w : Nat) : Lsm6dso32.clampWatermark w = effectiveWatermark w := by
  unfold Lsm6dso32.clampWatermark effectiveWatermark
  by_cases h : w = 0
  · simp [h]
  · simp [h]

theorem effectiveWatermark_range (w : Nat) :
    1 ≤ effectiveWatermark w ∧ effectiveWatermark w ≤ 511 := by
  unfold effectiveWatermark
  split_ifs <;> omega

/-- C1: for every requested watermark `w` in [0, 65535], `ConfigureFifo w` writes to
FIFO_CTRL1 (0x07) the byte `b1 = e(w) mod 256` and to FIFO_CTRL2 (0x08) the byte
`b2 = e(w) div 256`, where `e(w)` is the effective watermark (0 becomes 1, above 511
becomes 511, otherwise unchanged); `b2` is 0 or 1, `b1 + 256 * b2 = e(w)` and `e(w)`
lies in [1, 511].  The calls made are exactly the four framed register writes. -/
theorem ConfigureFifo_effective_watermark {η : Type} (e : Env η) (w : World η)
    (watermark : Nat) (h : watermark ≤ 65535) :
    ∃ b1 b2 : Nat,
      (Lsm6dso32.ConfigureFifo e watermark w).1.trace =
        w.trace ++
          [Event.SetLow, Event.Transfer [0x07, b1], Event.SetHigh,
           Event.SetLow, Event.Transfer [0x08, b2], Event.SetHigh,
           Event.SetLow, Event.Transfer [0x09, 0x44], Event.SetHigh,
           Event.SetLow, Event.Transfer [0x0A, 0x06], Event.SetHigh] ∧
      (b2 = 0 ∨ b2 = 1) ∧ b1 < 256 ∧
      b1 + 256 * b2 = effectiveWatermark watermark ∧
      1 ≤ effectiveWatermark watermark ∧ effectiveWatermark watermark ≤ 511 := by
  obtain ⟨h1, h2⟩ := effectiveWatermark_range watermark
  have hu : u16 watermark = watermark := Nat.mod_eq_of_lt (by omega)
  refine ⟨effectiveWatermark watermark % 256, effectiveWatermark watermark / 256, ?_, ?_, ?_, ?_, h1, h2⟩
  · simp only [Lsm6dso32.ConfigureFifo, WriteRegister_trace, hu, clampWatermark_eq,
      and_255, and_1, shr_8, u8, Register.kFifoCtrl1, Register.kFifoCtrl2,
      Register.kFifoCtrl3, Register.kFifoCtrl4, FifoBdr.kBdr104Hz, FifoMode.kContinuous]
    have e1 : effectiveWatermark watermark / 256 % 2 % 256 = effectiveWatermark watermark / 256 := by
      omega
    simp [e1]
  · omega
  · omega
  · omega

/-- Witness for C1: a requested watermark of 600 on the scripted environment. -/
theorem ConfigureFifo_effective_watermark_witness :
    (600 : Nat) ≤ 65535 ∧
    ∃ b1 b2 : Nat,
      (Lsm6dso32.ConfigureFifo scripted 600 (World.start (Script.ofRx []))).1.trace =
        (World.start (Script.ofRx [])).trace ++
          [Event.SetLow, Event.Transfer [0x07, b1], Event.SetHigh,
           Event.SetLow, Event.Transfer [0x08, b2], Event.SetHigh,
           Event.SetLow, Event.Transfer [0x09, 0x44], Event.SetHigh,
           Event.SetLow, Event.Transfer [0x0A, 0x06], Event.SetHigh] ∧
      (b2 = 0 ∨ b2 = 1) ∧ b1 < 256 ∧
      b1 + 256 * b2 = effectiveWatermark 600 ∧
      1 ≤ effectiveWatermark 600 ∧ effectiveWatermark 600 ≤ 511 :=
  ⟨by decide, ConfigureFifo_effective_watermark scripted _ 600 (by decide)⟩
theorem transfersOf_append (a b : List Event) :
    transfersOf (a ++ b) = transfersOf a ++ transfersOf b := by
  induction a with
  | nil => rfl
  | cons ev rest ih => cases ev <;> simp [transfersOf, ih]

theorem writesOf_append (a b : List Event) :
    writesOf (a ++ b) = writesOf a ++ writesOf b := by
  simp [writesOf, transfersOf_append, List.filterMap_append]

theorem recordsOf_append (a b : List Event) :
    recordsOf (a ++ b) = recordsOf a ++ recordsOf b := by
  induction a with
  | nil => rfl
  | cons ev rest ih => cases ev <;> simp [recordsOf, ih]

/-- C2: for every identity byte `b` other than 0x6C returned by the read of the identity
register, `Init` returns failure and the only transaction it performs is the one-byte
read of register 0x0F (address byte 0x8F on the wire): no register is written. -/
theorem Init_identity_mismatch {η : Type} (e : Env η) (w : World η) (b : Nat)
    (hread : (Lsm6dso32.ReadRegister e Register.kWhoAmI [0] 1 w).2 = [b])
    (hb : b ≠ 0x6C) :
    (Lsm6dso32.Init e w).2 = false ∧
    (Lsm6dso32.Init e w).1.trace =
      w.trace ++ [Event.SetLow, Event.Transfer [0x8F], Event.Receive 1, Event.SetHigh] ∧
    writesOf (Lsm6dso32.Init e w).1.trace = writesOf w.trace := by
  have hne : ((Lsm6dso32.ReadRegister e Register.kWhoAmI [0] 1 w).2.getD 0 0 ≠ u8 0x6C) := by
    rw [hread]; simpa [u8] using hb
  have hInit : Lsm6dso32.Init e w =
      ((Lsm6dso32.ReadRegister e Register.kWhoAmI [0] 1 w).1, false) := by
    simp only [Lsm6dso32.Init]
    rw [if_pos hne]
  have htr : (Lsm6dso32.Init e w).1.trace =
      w.trace ++ [Event.SetLow, Event.Transfer [0x8F], Event.Receive 1, Event.SetHigh] := by
    rw [hInit, ReadRegister_trace]
    rfl
  refine ⟨by rw [hInit], htr, ?_⟩
  rw [htr, writesOf_append]
  simp [writesOf, transfersOf]

/-- Witness for C2: the scripted device answers the identity read with 0x6D. -/
theorem Init_identity_mismatch_witness :
    (Lsm6dso32.Init scripted (World.start (Script.ofRx [([0x6D], true)]))).2 = false ∧
    (Lsm6dso32.Init scripted (World.start (Script.ofRx [([0x6D], true)]))).1.trace =
      (World.start (Script.ofRx [([0x6D], true)])).trace ++
        [Event.SetLow, Event.Transfer [0x8F], Event.Receive 1, Event.SetHigh] ∧
    writesOf (Lsm6dso32.Init scripted (World.start (Script.ofRx [([0x6D], true)]))).1.trace =
      writesOf (World.start (Script.ofRx [([0x6D], true)])).trace :=
  Init_identity_mismatch scripted (World.start (Script.ofRx [([0x6D], true)])) 0x6D
    (by decide) (by decide)

/-- C3: when the read of the identity register returns 0x6C, `Init` returns success
after exactly two register writes following that read, in this order: 0x10 receives
0x44 (ODR code 0x40 or-ed with the full-scale code 0x04) and 0x11 receives 0x4C (ODR
code 0x40 or-ed with the full-scale code 0x0C); in both bytes bits 7:4 are the ODR
code, bits 3:2 the full-scale code, bits 1:0 zero. -/
theorem Init_success_writes {η : Type} (e : Env η) (w : World η)
    (hread : (Lsm6dso32.ReadRegister e Register.kWhoAmI [0] 1 w).2 = [0x6C]) :
    (Lsm6dso32.Init e w).2 = true ∧
    (Lsm6dso32.Init e w).1.trace =
      w.trace ++ [Event.SetLow, Event.Transfer [0x8F], Event.Receive 1, Event.SetHigh,
        Event.SetLow, Event.Transfer [0x10, 0x44], Event.SetHigh,
        Event.SetLow, Event.Transfer [0x11, 0x4C], Event.SetHigh] ∧
    writesOf (Lsm6dso32.Init e w).1.trace =
      writesOf w.trace ++ [(0x10, [0x44]), (0x11, [0x4C])] ∧
    (0x44 = ImuOdr.kOdr104Hz ||| AccelerometerFs.kFs32G ∧
      0x44 &&& 0xF0 = ImuOdr.kOdr104Hz ∧ 0x44 &&& 0x0C = AccelerometerFs.kFs32G ∧
      0x44 &&& 0x03 = 0) ∧
    (0x4C = ImuOdr.kOdr104Hz ||| GyroscopeFs.kFs2000Dps ∧
      0x4C &&& 0xF0 = ImuOdr.kOdr104Hz ∧ 0x4C &&& 0x0C = GyroscopeFs.kFs2000Dps ∧
      0x4C &&& 0x03 = 0) ∧
    ImuOdr.kOdr104Hz = 0x40 ∧ AccelerometerFs.kFs32G = 0x04 ∧
    GyroscopeFs.kFs2000Dps = 0x0C := by
  have heq : ¬ ((Lsm6dso32.ReadRegister e Register.kWhoAmI [0] 1 w).2.getD 0 0 ≠ u8 0x6C) := by
    rw [hread]; decide
  have hInit : Lsm6dso32.Init e w =
      (Lsm6dso32.WriteRegister e Register.kCtrl2G
        [u8 (ImuOdr.kOdr104Hz ||| GyroscopeFs.kFs2000Dps)] 1
        (Lsm6dso32.WriteRegister e Register.kCtrl1Xl
          [u8 (ImuOdr.kOdr104Hz ||| AccelerometerFs.kFs32G)] 1
          (Lsm6dso32.ReadRegister e Register.kWhoAmI [0] 1 w).1), true) := by
    simp only [Lsm6dso32.Init]
    rw [if_neg heq]
  have htr : (Lsm6dso32.Init e w).1.trace =
      w.trace ++ [Event.SetLow, Event.Transfer [0x8F], Event.Receive 1, Event.SetHigh,
        Event.SetLow, Event.Transfer [0x10, 0x44], Event.SetHigh,
        Event.SetLow, Event.Transfer [0x11, 0x4C], Event.SetHigh] := by
    rw [hInit]
    simp only [WriteRegister_trace, ReadRegister_trace, List.append_assoc]
    rfl
  refine ⟨by rw [hInit], htr, ?_, by decide, by decide, rfl, rfl, rfl⟩
  rw [htr, writesOf_append]
  rfl

/-- Witness for C3: the scripted device answers the identity read with 0x6C. -/
theorem Init_success_writes_witness :
    (Lsm6dso32.Init scripted (World.start (Script.ofRx [([0x6C], true)]))).2 = true ∧
    writesOf (Lsm6dso32.Init scripted (World.start (Script.ofRx [([0x6C], true)]))).1.trace =
      [(0x10, [0x44]), (0x11, [0x4C])] :=
  have h := Init_success_writes scripted (World.start (Script.ofRx [([0x6C], true)]))
    (by decide)
  ⟨h.1, h.2.2.1⟩

theorem sampleCount_arith (s0 s1 : Nat) (h0 : s0 < 256) :
    u16 ((u16 (s1 &&& 0x03) <<< 8) ||| u16 s0) = s0 + 256 * (s1 % 4) := by
  have h4 : s1 % 4 < 4 := Nat.mod_lt _ (by decide)
  have e0 : u16 s0 = s0 := Nat.mod_eq_of_lt (by omega)
  have e1 : u16 (s1 % 4) = s1 % 4 := Nat.mod_eq_of_lt (by omega)
  rw [and_3, e0, e1, shl_8_or _ _ h0]
  unfold u16
  omega

/-- C4: for every pair of status bytes `(s0, s1)` returned by the two-byte read at 0x3A,
`GetFifoSampleCount` returns `s0 + 256 * (s1 mod 4)`, a value in [0, 1023]; any other
read whose first byte is `s0` and whose second byte agrees with `s1` in bits 1:0 gives
the same count, so no bit of `s1` above bit 1 (the overrun bit 6 included) matters. -/
theorem GetFifoSampleCount_value {η : Type} (e : Env η) (w : World η) (s0 s1 : Nat)
    (hread : (Lsm6dso32.ReadRegister e Register.kFifoStatus1 [0, 0] 2 w).2 = [s0, s1]) :
    (Lsm6dso32.GetFifoSampleCount e w).2 = s0 + 256 * (s1 % 4) ∧
    (Lsm6dso32.GetFifoSampleCount e w).2 ≤ 1023 ∧
    ∀ {η' : Type} (e' : Env η') (w' : World η') (s1' : Nat),
      (Lsm6dso32.ReadRegister e' Register.kFifoStatus1 [0, 0] 2 w').2 = [s0, s1'] →
      s1' % 4 = s1 % 4 →
      (Lsm6dso32.GetFifoSampleCount e' w').2 = (Lsm6dso32.GetFifoSampleCount e w).2 := by
  have key : ∀ {κ : Type} (f : Env κ) (v : World κ) (a b : Nat),
      (Lsm6dso32.ReadRegister f Register.kFifoStatus1 [0, 0] 2 v).2 = [a, b] →
      (Lsm6dso32.GetFifoSampleCount f v).2 = a + 256 * (b % 4) := by
    intro κ f v a b hr
    have hlt := ReadRegister_lt f Register.kFifoStatus1 [0, 0] 2 v
    rw [hr] at hlt
    have ha : a < 256 := hlt a (by simp)
    simp only [Lsm6dso32.GetFifoSampleCount, hr]
    exact sampleCount_arith a b ha
  have h4 : s1 % 4 < 4 := Nat.mod_lt _ (by decide)
  have hlt := ReadRegister_lt e Register.kFifoStatus1 [0, 0] 2 w
  rw [hread] at hlt
  have h0 : s0 < 256 := hlt s0 (by simp)
  refine ⟨key e w s0 s1 hread, ?_, ?_⟩
  · rw [key e w s0 s1 hread]; omega
  · intro η' e' w' s1' hr' hmod
    rw [key e w s0 s1 hread, key e' w' s0 s1' hr', hmod]

/-- Witness for C4: the status bytes (0xFF, 0b01) give 511, (0x00, 0x00) give 0,
(0x10, 0x02) give 528, and (0x10, 0x42), with the overrun bit set, give 528 too. -/
theorem GetFifoSampleCount_value_witness :
    (Lsm6dso32.GetFifoSampleCount scripted
      (World.start (Script.ofRx [([0xFF, 0x01], true)]))).2 = 511 ∧
    (Lsm6dso32.GetFifoSampleCount scripted
      (World.start (Script.ofRx [([0x00, 0x00], true)]))).2 = 0 ∧
    (Lsm6dso32.GetFifoSampleCount scripted
      (World.start (Script.ofRx [([0x10, 0x02], true)]))).2 = 528 ∧
    (Lsm6dso32.GetFifoSampleCount scripted
      (World.start (Script.ofRx [([0x10, 0x42], true)]))).2 = 528 :=
  ⟨(GetFifoSampleCount_value scripted
      (World.start (Script.ofRx [([0xFF, 0x01], true)])) 0xFF 0x01 (by decide)).1,
   (GetFifoSampleCount_value scripted
      (World.start (Script.ofRx [([0x00, 0x00], true)])) 0x00 0x00 (by decide)).1,
   (GetFifoSampleCount_value scripted
      (World.start (Script.ofRx [([0x10, 0x02], true)])) 0x10 0x02 (by decide)).1,
   ((GetFifoSampleCount_value scripted
      (World.start (Script.ofRx [([0x10, 0x02], true)])) 0x10 0x02 (by decide)).2.2
      scripted (World.start (Script.ofRx [([0x10, 0x42], true)])) 0x42
      (by decide) (by decide)).trans
    (GetFifoSampleCount_value scripted
      (World.start (Script.ofRx [([0x10, 0x02], true)])) 0x10 0x02 (by decide)).1⟩

theorem reinterpretInt16_eq (lo hi : Nat) (hlo : lo < 256) (hhi : hi < 256) :
    reinterpretInt16 lo hi = twosComplement16 (lo + 256 * hi) := by
  have e1 : u8 lo = lo := Nat.mod_eq_of_lt hlo
  have e2 : u8 hi = hi := Nat.mod_eq_of_lt hhi
  unfold reinterpretInt16 twosComplement16
  simp only [e1, e2, shl_8_or _ _ hlo]
  have h128 := and_128 hi hhi
  by_cases h : hi < 128
  · have hz : hi &&& 0x80 = 0 := h128.mpr h
    have hs : lo + 256 * hi < 32768 := by omega
    rw [if_pos hz, if_pos hs]
    push_cast; ring
  · have hz : ¬ (hi &&& 0x80 = 0) := fun hc => h (h128.mp hc)
    have hs : ¬ (lo + 256 * hi < 32768) := by omega
    rw [if_neg hz, if_neg hs]
    push_cast; ring

theorem twosComplement16_range (v : Nat) (hv : v < 65536) :
    -32768 ≤ twosComplement16 v ∧ twosComplement16 v ≤ 32767 := by
  unfold twosComplement16
  split_ifs with h <;> constructor <;> omega

theorem fifoTag_arith (d0 : Nat) (h : d0 < 256) : u8 ((d0 >>> 3) &&& 0x1F) = d0 / 8 := by
  rw [shr_3, and_31]
  unfold u8
  omega

/-- C5: for every 7-byte FIFO word `d0 .. d6` returned by the burst read at 0x78,
`ReadFifoSample` reports success and yields `tag = d0 div 8` (bits 7:3, in [0, 31],
the same whatever bits 2:0 of `d0` are) and `x`, `y`, `z` equal to the
two's-complement signed 16-bit values of `d1 + 256 * d2`, `d3 + 256 * d4`,
`d5 + 256 * d6`, each in [-32768, 32767]. -/
theorem ReadFifoSample_decode {η : Type} (e : Env η) (w : World η)
    (d0 d1 d2 d3 d4 d5 d6 : Nat)
    (hread : (Lsm6dso32.ReadRegister e Register.kFifoDataOutTag (List.replicate 7 0) 7 w).2
      = [d0, d1, d2, d3, d4, d5, d6]) :
    (Lsm6dso32.ReadFifoSample e w).2.1 = true ∧
    (Lsm6dso32.ReadFifoSample e w).2.2.tag = d0 / 8 ∧
    (Lsm6dso32.ReadFifoSample e w).2.2.tag ≤ 31 ∧
    (∀ k, k < 8 →
      (Lsm6dso32.decodeFifoWord [8 * (d0 / 8) + k, d1, d2, d3, d4, d5, d6]).tag =
        (Lsm6dso32.ReadFifoSample e w).2.2.tag) ∧
    (Lsm6dso32.ReadFifoSample e w).2.2.x = twosComplement16 (d1 + 256 * d2) ∧
    (Lsm6dso32.ReadFifoSample e w).2.2.y = twosComplement16 (d3 + 256 * d4) ∧
    (Lsm6dso32.ReadFifoSample e w).2.2.z = twosComplement16 (d5 + 256 * d6) ∧
    (-32768 ≤ (Lsm6dso32.ReadFifoSample e w).2.2.x ∧
      (Lsm6dso32.ReadFifoSample e w).2.2.x ≤ 32767) ∧
    (-32768 ≤ (Lsm6dso32.ReadFifoSample e w).2.2.y ∧
      (Lsm6dso32.ReadFifoSample e w).2.2.y ≤ 32767) ∧
    (-32768 ≤ (Lsm6dso32.ReadFifoSample e w).2.2.z ∧
      (Lsm6dso32.ReadFifoSample e w).2.2.z ≤ 32767) := by
  have hlt := ReadRegister_lt e Register.kFifoDataOutTag (List.replicate 7 0) 7 w
  rw [hread] at hlt
  have h0 : d0 < 256 := hlt d0 (by simp)
  have h1 : d1 < 256 := hlt d1 (by simp)
  have h2 : d2 < 256 := hlt d2 (by simp)
  have h3 : d3 < 256 := hlt d3 (by simp)
  have h4 : d4 < 256 := hlt d4 (by simp)
  have h5 : d5 < 256 := hlt d5 (by simp)
  have h6 : d6 < 256 := hlt d6 (by simp)
  have hs : (Lsm6dso32.ReadFifoSample e w).2 =
      (true, Lsm6dso32.decodeFifoWord [d0, d1, d2, d3, d4, d5, d6]) := by
    simp only [Lsm6dso32.ReadFifoSample, hread]
  have htag : (Lsm6dso32.decodeFifoWord [d0, d1, d2, d3, d4, d5, d6]).tag = d0 / 8 := by
    simp only [Lsm6dso32.decodeFifoWord, List.getD_cons_zero]
    exact fifoTag_arith d0 h0
  have hx : (Lsm6dso32.decodeFifoWord [d0, d1, d2, d3, d4, d5, d6]).x =
      twosComplement16 (d1 + 256 * d2) := by
    simp only [Lsm6dso32.decodeFifoWord, List.getD_cons_zero, List.getD_cons_succ]
    exact reinterpretInt16_eq d1 d2 h1 h2
  have hy : (Lsm6dso32.decodeFifoWord [d0, d1, d2, d3, d4, d5, d6]).y =
      twosComplement16 (d3 + 256 * d4) := by
    simp only [Lsm6dso32.decodeFifoWord, List.getD_cons_zero, List.getD_cons_succ]
    exact reinterpretInt16_eq d3 d4 h3 h4
  have hz : (Lsm6dso32.decodeFifoWord [d0, d1, d2, d3, d4, d5, d6]).z =
      twosComplement16 (d5 + 256 * d6) := by
    simp only [Lsm6dso32.decodeFifoWord, List.getD_cons_zero, List.getD_cons_succ]
    exact reinterpretInt16_eq d5 d6 h5 h6
  rw [hs]
  refine ⟨rfl, htag, ?_, ?_, hx, hy, hz, ?_, ?_, ?_⟩
  · show (Lsm6dso32.decodeFifoWord [d0, d1, d2, d3, d4, d5, d6]).tag ≤ 31
    rw [htag]; omega
  · intro k hk
    show (Lsm6dso32.decodeFifoWord [8 * (d0 / 8) + k, d1, d2, d3, d4, d5, d6]).tag =
      (Lsm6dso32.decodeFifoWord [d0, d1, d2, d3, d4, d5, d6]).tag
    rw [htag]
    simp only [Lsm6dso32.decodeFifoWord, List.getD_cons_zero]
    rw [fifoTag_arith _ (by omega)]
    omega
  · show _ ≤ (Lsm6dso32.decodeFifoWord [d0, d1, d2, d3, d4, d5, d6]).x ∧ _
    rw [hx]; exact twosComplement16_range _ (by omega)
  · show _ ≤ (Lsm6dso32.decodeFifoWord [d0, d1, d2, d3, d4, d5, d6]).y ∧ _
    rw [hy]; exact twosComplement16_range _ (by omega)
  · show _ ≤ (Lsm6dso32.decodeFifoWord [d0, d1, d2, d3, d4, d5, d6]).z ∧ _
    rw [hz]; exact twosComplement16_range _ (by omega)

/-- Witness for C5: the word 0x17 0x02 0xFF 0x00 0x80 0x01 0x00 decodes to tag 2,
x = -254, y = -32768, z = 1. -/
theorem ReadFifoSample_decode_witness :
    (Lsm6dso32.ReadFifoSample scripted
      (World.start (Script.ofRx [([0x17, 0x02, 0xFF, 0x00, 0x80, 0x01, 0x00], true)]))).2.2.tag
      = 2 ∧
    (Lsm6dso32.ReadFifoSample scripted
      (World.start (Script.ofRx [([0x17, 0x02, 0xFF, 0x00, 0x80, 0x01, 0x00], true)]))).2.2.x
      = -254 ∧
    (Lsm6dso32.ReadFifoSample scripted
      (World.start (Script.ofRx [([0x17, 0x02, 0xFF, 0x00, 0x80, 0x01, 0x00], true)]))).2.2.y
      = -32768 ∧
    (Lsm6dso32.ReadFifoSample scripted
      (World.start (Script.ofRx [([0x17, 0x02, 0xFF, 0x00, 0x80, 0x01, 0x00], true)]))).2.2.z
      = 1 :=
  have h := ReadFifoSample_decode scripted
    (World.start (Script.ofRx [([0x17, 0x02, 0xFF, 0x00, 0x80, 0x01, 0x00], true)]))
    0x17 0x02 0xFF 0x00 0x80 0x01 0x00 (by decide)
  ⟨h.2.1.trans (by decide), h.2.2.2.2.1.trans (by decide),
   h.2.2.2.2.2.1.trans (by decide), h.2.2.2.2.2.2.1.trans (by decide)⟩

/-! ## The drain loop -/

theorem ReadFifoSample_records {η : Type} (e : Env η) (w : World η) :
    recordsOf (Lsm6dso32.ReadFifoSample e w).1.trace = recordsOf w.trace := by
  simp only [Lsm6dso32.ReadFifoSample, ReadRegister_trace, recordsOf_append]
  simp [recordsOf]

theorem call_records {η : Type} (e : Env η) (w : World η) (ev : Event) :
    recordsOf (w.call e ev).trace = recordsOf w.trace ++ recordsOf [ev] := by
  simp [World.call, recordsOf_append]

theorem drainBody_accel {η : Type} (e : Env η) (base : Nat) (st : SensorRead.DrainState η)
    (htag : (Lsm6dso32.ReadFifoSample e st.w).2.2.tag = 2) :
    SensorRead.drainBody e base st =
      ({ w := (Lsm6dso32.ReadFifoSample e st.w).1.call e
            (Event.record (SensorRead.derivedTick base st.sample_count) RecordType.IMU 0
              (Payload.imu ⟨(Lsm6dso32.ReadFifoSample e st.w).2.2.xyz,
                (st.t.m_imu_data 0).gyro⟩))
         t := st.t.withImu0 ⟨(Lsm6dso32.ReadFifoSample e st.w).2.2.xyz,
                (st.t.m_imu_data 0).gyro⟩
         sample_count := u16 (st.sample_count - 1)
         accel_sample_idx := u32 (st.accel_sample_idx + 1)
         gyro_sample_idx := st.gyro_sample_idx }, true) := by
  have h1 : (Lsm6dso32.ReadFifoSample e st.w).2.1 = true := rfl
  have h2 : (Lsm6dso32.ReadFifoSample e st.w).2.2.tag = u8 FifoTag.kAccelerometer := by
    rw [htag]; rfl
  simp only [SensorRead.drainBody, h1, h2, SensorRead.setAt, SensorRead.withImu0,
    FifoSample.xyz]
  simp

theorem drainBody_gyro {η : Type} (e : Env η) (base : Nat) (st : SensorRead.DrainState η)
    (htag : (Lsm6dso32.ReadFifoSample e st.w).2.2.tag = 1) :
    SensorRead.drainBody e base st =
      ({ w := (Lsm6dso32.ReadFifoSample e st.w).1
         t := st.t.withImu0 ⟨(st.t.m_imu_data 0).acc,
                (Lsm6dso32.ReadFifoSample e st.w).2.2.xyz⟩
         sample_count := u16 (st.sample_count - 1)
         accel_sample_idx := st.accel_sample_idx
         gyro_sample_idx := u32 (st.gyro_sample_idx + 1) }, true) := by
  have h1 : (Lsm6dso32.ReadFifoSample e st.w).2.1 = true := rfl
  have h2 : ¬ ((Lsm6dso32.ReadFifoSample e st.w).2.2.tag = u8 FifoTag.kAccelerometer) := by
    rw [htag]; decide
  have h3 : (Lsm6dso32.ReadFifoSample e st.w).2.2.tag = u8 FifoTag.kGyroscope := by
    rw [htag]; rfl
  simp only [SensorRead.drainBody, h1, Bool.not_true, Bool.false_eq_true, if_false,
    if_neg h2, if_pos h3, SensorRead.withImu0, FifoSample.xyz]

theorem drainBody_other {η : Type} (e : Env η) (base : Nat) (st : SensorRead.DrainState η)
    (h1 : (Lsm6dso32.ReadFifoSample e st.w).2.2.tag ≠ 1)
    (h2 : (Lsm6dso32.ReadFifoSample e st.w).2.2.tag ≠ 2) :
    SensorRead.drainBody e base st =
      ({ st with w := (Lsm6dso32.ReadFifoSample e st.w).1
                 sample_count := u16 (st.sample_count - 1) }, true) := by
  have h0 : (Lsm6dso32.ReadFifoSample e st.w).2.1 = true := rfl
  have ha : ¬ ((Lsm6dso32.ReadFifoSample e st.w).2.2.tag = u8 FifoTag.kAccelerometer) := h2
  have hg : ¬ ((Lsm6dso32.ReadFifoSample e st.w).2.2.tag = u8 FifoTag.kGyroscope) := h1
  simp only [SensorRead.drainBody, h0]
  simp [ha, hg]

theorem drainBody_continue {η : Type} (e : Env η) (base : Nat)
    (st : SensorRead.DrainState η) :
    (SensorRead.drainBody e base st).2 = true ∧
    (SensorRead.drainBody e base st).1.sample_count = u16 (st.sample_count - 1) := by
  by_cases h2 : (Lsm6dso32.ReadFifoSample e st.w).2.2.tag = 2
  · rw [drainBody_accel e base st h2]; exact ⟨rfl, rfl⟩
  · by_cases h1 : (Lsm6dso32.ReadFifoSample e st.w).2.2.tag = 1
    · rw [drainBody_gyro e base st h1]; exact ⟨rfl, rfl⟩
    · rw [drainBody_other e base st h1 h2]; exact ⟨rfl, rfl⟩

/-- The fuel `ReadImuFifo` gives the drain loop is enough: started with a `uint16_t`
count not above the fuel, the loop ends with its condition `sample_count > 0` false. -/
theorem drainLoop_exhausts {η : Type} (e : Env η) (base : Nat) :
    ∀ (fuel : Nat) (st : SensorRead.DrainState η),
      st.sample_count ≤ fuel → st.sample_count < 65536 →
      (SensorRead.drainLoop e base fuel st).sample_count = 0 := by
  intro fuel
  induction fuel with
  | zero =>
    intro st h _
    simp only [SensorRead.drainLoop]
    omega
  | succ k ih =>
    intro st h hlt
    obtain ⟨b1, b2⟩ := drainBody_continue e base st
    by_cases hpos : st.sample_count > 0
    · have hdec : u16 (st.sample_count - 1) = st.sample_count - 1 :=
        Nat.mod_eq_of_lt (by omega)
      simp only [SensorRead.drainLoop, if_pos hpos, b1, if_true]
      exact ih _ (by rw [b2, hdec]; omega) (by rw [b2, hdec]; omega)
    · simp only [SensorRead.drainLoop, if_neg hpos]
      omega

theorem derivedTick_eq (base r : Nat) (hr : r ≤ 1023) :
    SensorRead.derivedTick base r = (base + 4294967296 - r * 9615 / 1000) % 4294967296 := by
  have h1 : r * 9615 < 4294967296 := by omega
  have h2 : r * 9615 / 1000 < 4294967296 := by omega
  unfold SensorRead.derivedTick u32 Lsm6dso32.kSamplePeriodUs
  rw [Nat.mod_eq_of_lt h1, Nat.mod_eq_of_lt h2]

/-- C6: for every 32-bit `base_tick` and every remaining count `r` in [1, 1023] at the
moment an accelerometer-tagged sample is popped, the drain loop hands exactly one record
to the sink and its tick is `base_tick - floor(r * 9615 / 1000)` modulo 2^32; the
product `r * 9615` fits in 32 bits, and the tick is the exact difference whenever
`base_tick ≥ floor(r * 9615 / 1000)`. -/
theorem drainBody_accel_tick {η : Type} (e : Env η) (base_tick r : Nat)
    (st : SensorRead.DrainState η)
    (hbase : base_tick < 4294967296) (hr1 : 1 ≤ r) (hr2 : r ≤ 1023)
    (hcount : st.sample_count = r)
    (htag : (Lsm6dso32.ReadFifoSample e st.w).2.2.tag = FifoTag.kAccelerometer) :
    ∃ (tick : Nat) (p : Payload),
      recordsOf (SensorRead.drainBody e base_tick st).1.w.trace =
        recordsOf st.w.trace ++ [(tick, RecordType.IMU, 0, p)] ∧
      r * Lsm6dso32.kSamplePeriodUs < 4294967296 ∧
      (tick : Int) =
        ((base_tick : Int) - ((r * 9615 / 1000 : Nat) : Int)) % 4294967296 ∧
      (r * 9615 / 1000 ≤ base_tick → tick = base_tick - r * 9615 / 1000) := by
  have hacc := drainBody_accel e base_tick st htag
  refine ⟨SensorRead.derivedTick base_tick r,
    Payload.imu ⟨(Lsm6dso32.ReadFifoSample e st.w).2.2.xyz, (st.t.m_imu_data 0).gyro⟩,
    ?_, ?_, ?_, ?_⟩
  · rw [hacc]
    simp only [call_records, ReadFifoSample_records, hcount]
    rfl
  · unfold Lsm6dso32.kSamplePeriodUs; omega
  · rw [derivedTick_eq base_tick r hr2]
    have h2 : r * 9615 / 1000 < 4294967296 := by omega
    omega
  · intro hle
    rw [derivedTick_eq base_tick r hr2]
    omega

/-- Witness for C6: `base_tick = 1000` and `r = 5` give the tick 952. -/
theorem drainBody_accel_tick_witness :
    ∃ (tick : Nat) (p : Payload),
      recordsOf (SensorRead.drainBody scripted 1000
        { w := World.start (Script.ofRx [([0x10, 1, 0, 2, 0, 3, 0], true)])
          t := SensorRead.new true
          sample_count := 5, accel_sample_idx := 0, gyro_sample_idx := 0 }).1.w.trace =
        [(tick, RecordType.IMU, 0, p)] ∧ tick = 952 :=
  have h := drainBody_accel_tick scripted 1000 5
    { w := World.start (Script.ofRx [([0x10, 1, 0, 2, 0, 3, 0], true)])
      t := SensorRead.new true
      sample_count := 5, accel_sample_idx := 0, gyro_sample_idx := 0 }
    (by decide) (by decide) (by decide) rfl (by decide)
  h.elim fun tick h1 => h1.elim fun p h2 =>
    ⟨tick, p, h2.1, (h2.2.2.2 (by decide)).trans (by decide)⟩

/-- C8: one iteration of the drain loop, entered with a remaining count in [1, 65535],
continues the loop and decreases the remaining count by exactly one; if the tag of the
popped word (bits 7:3 of its tag byte) is 1, only the gyroscope triple of composite
record 0 changes and nothing is emitted; if it is 2, only the accelerometer triple
changes and exactly one record, carrying the updated composite record, is emitted;
for any other tag the task is left unchanged and nothing is emitted. -/
theorem drainBody_frame {η : Type} (e : Env η) (base_tick : Nat)
    (st : SensorRead.DrainState η)
    (hpos : 0 < st.sample_count) (hlt : st.sample_count < 65536) :
    (SensorRead.drainBody e base_tick st).2 = true ∧
    (SensorRead.drainBody e base_tick st).1.sample_count + 1 = st.sample_count ∧
    ((Lsm6dso32.ReadFifoSample e st.w).2.2.tag = FifoTag.kGyroscope →
      (SensorRead.drainBody e base_tick st).1.t =
        st.t.withImu0 ⟨(st.t.m_imu_data 0).acc, (Lsm6dso32.ReadFifoSample e st.w).2.2.xyz⟩ ∧
      recordsOf (SensorRead.drainBody e base_tick st).1.w.trace = recordsOf st.w.trace) ∧
    ((Lsm6dso32.ReadFifoSample e st.w).2.2.tag = FifoTag.kAccelerometer →
      (SensorRead.drainBody e base_tick st).1.t =
        st.t.withImu0 ⟨(Lsm6dso32.ReadFifoSample e st.w).2.2.xyz, (st.t.m_imu_data 0).gyro⟩ ∧
      ∃ tick, recordsOf (SensorRead.drainBody e base_tick st).1.w.trace =
        recordsOf st.w.trace ++ [(tick, RecordType.IMU, 0,
          Payload.imu ⟨(Lsm6dso32.ReadFifoSample e st.w).2.2.xyz,
            (st.t.m_imu_data 0).gyro⟩)]) ∧
    ((Lsm6dso32.ReadFifoSample e st.w).2.2.tag ≠ FifoTag.kGyroscope →
      (Lsm6dso32.ReadFifoSample e st.w).2.2.tag ≠ FifoTag.kAccelerometer →
      (SensorRead.drainBody e base_tick st).1.t = st.t ∧
      recordsOf (SensorRead.drainBody e base_tick st).1.w.trace = recordsOf st.w.trace) := by
  have hdec : u16 (st.sample_count - 1) + 1 = st.sample_count := by
    unfold u16; omega
  have hg := drainBody_gyro e base_tick st
  have ha := drainBody_accel e base_tick st
  have ho := drainBody_other e base_tick st
  refine ⟨?_, ?_, ?_, ?_, ?_⟩
  · by_cases h2 : (Lsm6dso32.ReadFifoSample e st.w).2.2.tag = 2
    · rw [ha h2]
    · by_cases h1 : (Lsm6dso32.ReadFifoSample e st.w).2.2.tag = 1
      · rw [hg h1]
      · rw [ho h1 h2]
  · by_cases h2 : (Lsm6dso32.ReadFifoSample e st.w).2.2.tag = 2
    · rw [ha h2]; exact hdec
    · by_cases h1 : (Lsm6dso32.ReadFifoSample e st.w).2.2.tag = 1
      · rw [hg h1]; exact hdec
      · rw [ho h1 h2]; exact hdec
  · intro h1
    rw [hg h1]
    exact ⟨rfl, ReadFifoSample_records e st.w⟩
  · intro h2
    rw [ha h2]
    refine ⟨rfl, SensorRead.derivedTick base_tick st.sample_count, ?_⟩
    simp only [call_records, ReadFifoSample_records]
    rfl
  · intro h1 h2
    rw [ho h1 h2]
    exact ⟨rfl, ReadFifoSample_records e st.w⟩

/-- Witness for C8: with 5 samples remaining, the tag byte 0x08 only replaces the
gyroscope triple, the tag byte 0x10 only replaces the accelerometer triple and emits
one record, the tag byte 0x00 changes nothing; each leaves 4 samples remaining. -/
theorem drainBody_frame_witness :
    ((SensorRead.drainBody scripted 1000
        { w := World.start (Script.ofRx [([0x08, 1, 0, 2, 0, 3, 0], true)])
          t := SensorRead.new true
          sample_count := 5, accel_sample_idx := 0, gyro_sample_idx := 0 }).1.sample_count + 1
        = 5 ∧
      (SensorRead.drainBody scripted 1000
        { w := World.start (Script.ofRx [([0x08, 1, 0, 2, 0, 3, 0], true)])
          t := SensorRead.new true
          sample_count := 5, accel_sample_idx := 0, gyro_sample_idx := 0 }).1.t.m_imu_data 0
        = ⟨⟨0, 0, 0⟩, ⟨1, 2, 3⟩⟩ ∧
      recordsOf (SensorRead.drainBody scripted 1000
        { w := World.start (Script.ofRx [([0x08, 1, 0, 2, 0, 3, 0], true)])
          t := SensorRead.new true
          sample_count := 5, accel_sample_idx := 0, gyro_sample_idx := 0 }).1.w.trace
        = []) ∧
    ((SensorRead.drainBody scripted 1000
        { w := World.start (Script.ofRx [([0x10, 1, 0, 2, 0, 3, 0], true)])
          t := SensorRead.new true
          sample_count := 5, accel_sample_idx := 0, gyro_sample_idx := 0 }).1.sample_count + 1
        = 5 ∧
      (SensorRead.drainBody scripted 1000
        { w := World.start (Script.ofRx [([0x10, 1, 0, 2, 0, 3, 0], true)])
          t := SensorRead.new true
          sample_count := 5, accel_sample_idx := 0, gyro_sample_idx := 0 }).1.t.m_imu_data 0
        = ⟨⟨1, 2, 3⟩, ⟨0, 0, 0⟩⟩) ∧
    ((SensorRead.drainBody scripted 1000
        { w := World.start (Script.ofRx [([0x00, 1, 0, 2, 0, 3, 0], true)])
          t := SensorRead.new true
          sample_count := 5, accel_sample_idx := 0, gyro_sample_idx := 0 }).1.sample_count + 1
        = 5 ∧
      (SensorRead.drainBody scripted 1000
        { w := World.start (Script.ofRx [([0x00, 1, 0, 2, 0, 3, 0], true)])
          t := SensorRead.new true
          sample_count := 5, accel_sample_idx := 0, gyro_sample_idx := 0 }).1.t.m_imu_data 0
        = ⟨⟨0, 0, 0⟩, ⟨0, 0, 0⟩⟩ ∧
      recordsOf (SensorRead.drainBody scripted 1000
        { w := World.start (Script.ofRx [([0x00, 1, 0, 2, 0, 3, 0], true)])
          t := SensorRead.new true
          sample_count := 5, accel_sample_idx := 0, gyro_sample_idx := 0 }).1.w.trace
        = []) :=
  have hg := drainBody_frame scripted 1000
    { w := World.start (Script.ofRx [([0x08, 1, 0, 2, 0, 3, 0], true)])
      t := SensorRead.new true
      sample_count := 5, accel_sample_idx := 0, gyro_sample_idx := 0 } (by decide) (by decide)
  have ha := drainBody_frame scripted 1000
    { w := World.start (Script.ofRx [([0x10, 1, 0, 2, 0, 3, 0], true)])
      t := SensorRead.new true
      sample_count := 5, accel_sample_idx := 0, gyro_sample_idx := 0 } (by decide) (by decide)
  have ho := drainBody_frame scripted 1000
    { w := World.start (Script.ofRx [([0x00, 1, 0, 2, 0, 3, 0], true)])
      t := SensorRead.new true
      sample_count := 5, accel_sample_idx := 0, gyro_sample_idx := 0 } (by decide) (by decide)
  ⟨⟨hg.2.1,
    (congrArg (fun t => t.m_imu_data 0) (hg.2.2.1 (by decide)).1).trans (by decide),
    (hg.2.2.1 (by decide)).2⟩,
   ⟨ha.2.1,
    (congrArg (fun t => t.m_imu_data 0) (ha.2.2.2.1 (by decide)).1).trans (by decide)⟩,
   ⟨ho.2.1,
    (congrArg (fun t => t.m_imu_data 0)
      (ho.2.2.2.2 (by decide) (by decide)).1).trans (by decide),
    (ho.2.2.2.2 (by decide) (by decide)).2⟩⟩

/-! ## The drain against a scripted FIFO -/

theorem storeBytes_self (d : List Nat) (hlen : d.length = 7) (hb : ∀ b ∈ d, b < 256) :
    storeBytes (List.replicate 7 0) 7 d = d := by
  match d, hlen with
  | [d0, d1, d2, d3, d4, d5, d6], _ =>
    have h0 : d0 % 256 = d0 := Nat.mod_eq_of_lt (hb d0 (by simp))
    have h1 : d1 % 256 = d1 := Nat.mod_eq_of_lt (hb d1 (by simp))
    have h2 : d2 % 256 = d2 := Nat.mod_eq_of_lt (hb d2 (by simp))
    have h3 : d3 % 256 = d3 := Nat.mod_eq_of_lt (hb d3 (by simp))
    have h4 : d4 % 256 = d4 := Nat.mod_eq_of_lt (hb d4 (by simp))
    have h5 : d5 % 256 = d5 := Nat.mod_eq_of_lt (hb d5 (by simp))
    have h6 : d6 % 256 = d6 := Nat.mod_eq_of_lt (hb d6 (by simp))
    simp [storeBytes, List.range, List.range.loop, u8, h0, h1, h2, h3, h4, h5, h6]

theorem scripted_ReadRegister (reg : Nat) (data : List Nat) (length : Nat)
    (w : World Script) (d : List Nat) (ok : Bool) (rest : List (List Nat × Bool))
    (hrx : w.env.rx = (d, ok) :: rest) :
    (Lsm6dso32.ReadRegister scripted reg data length w).2 = storeBytes data length d ∧
    (Lsm6dso32.ReadRegister scripted reg data length w).1.env.rx = rest := by
  simp [Lsm6dso32.ReadRegister, World.call, scripted, hrx]

theorem scripted_ReadFifoSample (w : World Script) (d : List Nat)
    (rest : List (List Nat × Bool)) (hrx : w.env.rx = (d, true) :: rest)
    (hlen : d.length = 7) (hb : ∀ b ∈ d, b < 256) :
    (Lsm6dso32.ReadFifoSample scripted w).2.2 = Lsm6dso32.decodeFifoWord d ∧
    (Lsm6dso32.ReadFifoSample scripted w).1.env.rx = rest := by
  have h := scripted_ReadRegister Register.kFifoDataOutTag (List.replicate 7 0) 7 w d true
    rest hrx
  refine ⟨?_, h.2⟩
  simp only [Lsm6dso32.ReadFifoSample, h.1, storeBytes_self d hlen hb]

theorem scripted_call_record_rx (w : World Script) (tick : Nat) (ty : RecordType) (id : Nat)
    (p : Payload) : ((w.call scripted (Event.record tick ty id p)).env.rx) = w.env.rx := rfl

theorem drainSpec_cons (base_tick : Nat) (g : Vec3) (s : FifoSample)
    (rest : List FifoSample) :
    drainSpec base_tick g (s :: rest) =
      (if s.tag = FifoTag.kAccelerometer then
        [(SensorRead.derivedTick base_tick (rest.length + 1), RecordType.IMU, 0,
          Payload.imu ⟨s.xyz, g⟩)]
       else []) ++
      drainSpec base_tick
        (if s.tag = FifoTag.kAccelerometer then g
         else if s.tag = FifoTag.kGyroscope then s.xyz else g) rest := by
  by_cases h2 : s.tag = FifoTag.kAccelerometer
  · simp only [drainSpec, if_pos h2, List.singleton_append]
  · by_cases h1 : s.tag = FifoTag.kGyroscope
    · simp only [drainSpec, if_neg h2, if_pos h1, List.nil_append]
    · simp only [drainSpec, if_neg h2, if_neg h1, List.nil_append]

theorem drainBody_scripted (base_tick : Nat) (st : SensorRead.DrainState Script)
    (d : List Nat) (rest : List (List Nat × Bool))
    (hrx : st.w.env.rx = (d, true) :: rest)
    (hlen : d.length = 7) (hb : ∀ b ∈ d, b < 256)
    (hpos : 0 < st.sample_count) (hlt : st.sample_count < 65536) :
    (SensorRead.drainBody scripted base_tick st).2 = true ∧
    (SensorRead.drainBody scripted base_tick st).1.w.env.rx = rest ∧
    (SensorRead.drainBody scripted base_tick st).1.sample_count = st.sample_count - 1 ∧
    recordsOf (SensorRead.drainBody scripted base_tick st).1.w.trace =
      recordsOf st.w.trace ++
        (if (Lsm6dso32.decodeFifoWord d).tag = FifoTag.kAccelerometer then
          [(SensorRead.derivedTick base_tick st.sample_count, RecordType.IMU, 0,
            Payload.imu ⟨(Lsm6dso32.decodeFifoWord d).xyz, (st.t.m_imu_data 0).gyro⟩)]
         else []) ∧
    ((SensorRead.drainBody scripted base_tick st).1.t.m_imu_data 0).gyro =
      (if (Lsm6dso32.decodeFifoWord d).tag = FifoTag.kAccelerometer then
        (st.t.m_imu_data 0).gyro
       else if (Lsm6dso32.decodeFifoWord d).tag = FifoTag.kGyroscope then
        (Lsm6dso32.decodeFifoWord d).xyz
       else (st.t.m_imu_data 0).gyro) := by
  obtain ⟨hs, hrxs⟩ := scripted_ReadFifoSample st.w d rest hrx hlen hb
  have hdec : u16 (st.sample_count - 1) = st.sample_count - 1 :=
    Nat.mod_eq_of_lt (by omega)
  by_cases h2 : (Lsm6dso32.ReadFifoSample scripted st.w).2.2.tag = 2
  · have h2' : (Lsm6dso32.decodeFifoWord d).tag = FifoTag.kAccelerometer := by
      rw [← hs]; exact h2
    rw [drainBody_accel scripted base_tick st h2, if_pos h2', if_pos h2']
    refine ⟨rfl, hrxs, hdec, ?_, ?_⟩
    · simp only [call_records, ReadFifoSample_records, hs]
      rfl
    · simp [SensorRead.withImu0, SensorRead.setAt]
  · have h2' : ¬ (Lsm6dso32.decodeFifoWord d).tag = FifoTag.kAccelerometer := by
      rw [← hs]; exact h2
    by_cases h1 : (Lsm6dso32.ReadFifoSample scripted st.w).2.2.tag = 1
    · have h1' : (Lsm6dso32.decodeFifoWord d).tag = FifoTag.kGyroscope := by
        rw [← hs]; exact h1
      rw [drainBody_gyro scripted base_tick st h1, if_neg h2', if_neg h2', if_pos h1']
      refine ⟨rfl, hrxs, hdec, ?_, ?_⟩
      · simp only [ReadFifoSample_records, List.append_nil]
      · simp [SensorRead.withImu0, SensorRead.setAt, hs]
    · have h1' : ¬ (Lsm6dso32.decodeFifoWord d).tag = FifoTag.kGyroscope := by
        rw [← hs]; exact h1
      rw [drainBody_other scripted base_tick st h1 h2, if_neg h2', if_neg h2', if_neg h1']
      refine ⟨rfl, hrxs, hdec, ?_, rfl⟩
      simp only [ReadFifoSample_records, List.append_nil]

theorem drainLoop_scripted (base_tick : Nat) :
    ∀ (words : List (List Nat)) (st : SensorRead.DrainState Script),
      (∀ d ∈ words, d.length = 7 ∧ ∀ b ∈ d, b < 256) →
      st.w.env.rx = words.map (fun d => (d, true)) →
      st.sample_count = words.length → words.length < 65536 →
      recordsOf (SensorRead.drainLoop scripted base_tick words.length st).w.trace =
        recordsOf st.w.trace ++
          drainSpec base_tick (st.t.m_imu_data 0).gyro (words.map Lsm6dso32.decodeFifoWord) ∧
      (SensorRead.drainLoop scripted base_tick words.length st).w.env.rx = [] ∧
      (SensorRead.drainLoop scripted base_tick words.length st).sample_count = 0 := by
  intro words
  induction words with
  | nil =>
    intro st _ hrx hcount _
    simp [SensorRead.drainLoop, drainSpec, hrx, hcount]
  | cons d rest ih =>
    intro st hwf hrx hcount hlen
    have hd := hwf d (by simp)
    have hrest : ∀ d' ∈ rest, d'.length = 7 ∧ ∀ b ∈ d', b < 256 :=
      fun d' hd' => hwf d' (by simp [hd'])
    have hrx' : st.w.env.rx = (d, true) :: rest.map (fun d => (d, true)) := by
      simpa using hrx
    have hlen' : rest.length < 65536 := by simp at hlen; omega
    have hcnt : st.sample_count = rest.length + 1 := by simpa using hcount
    have hpos : st.sample_count > 0 := by omega
    obtain ⟨b1, b2, b3, b4, b5⟩ :=
      drainBody_scripted base_tick st d _ hrx' hd.1 hd.2 hpos (by omega)
    have hloop : SensorRead.drainLoop scripted base_tick (d :: rest).length st =
        SensorRead.drainLoop scripted base_tick rest.length
          (SensorRead.drainBody scripted base_tick st).1 := by
      simp only [List.length_cons, SensorRead.drainLoop, if_pos hpos, b1, if_true]
    obtain ⟨i1, i2, i3⟩ :=
      ih (SensorRead.drainBody scripted base_tick st).1 hrest b2 (by rw [b3]; omega) hlen'
    rw [hloop]
    refine ⟨?_, i2, i3⟩
    rw [i1, b4, b5, List.map_cons, drainSpec_cons, List.length_map, hcnt, List.append_assoc]

theorem lastGyro_cons (g0 : Vec3) (s : FifoSample) (pre : List FifoSample) :
    lastGyro g0 (s :: pre) =
      lastGyro (if s.tag = FifoTag.kGyroscope then s.xyz else g0) pre := by
  unfold lastGyro
  by_cases h : s.tag = FifoTag.kGyroscope
  · simp only [List.filter_cons, h, decide_True, if_true, List.getLast?_cons]
    cases (List.filter (fun s => decide (s.tag = FifoTag.kGyroscope)) pre).getLast? <;> rfl
  · simp only [List.filter_cons, h, decide_False, if_false]
    simp

theorem expectedRecords_cons (g0 : Vec3) (s : FifoSample) (ws : List FifoSample) :
    expectedRecords g0 (s :: ws) =
      (if s.tag = FifoTag.kAccelerometer then [⟨s.xyz, g0⟩] else []) ++
      expectedRecords
        (if s.tag = FifoTag.kAccelerometer then g0
         else if s.tag = FifoTag.kGyroscope then s.xyz else g0) ws := by
  have hne : FifoTag.kAccelerometer ≠ FifoTag.kGyroscope := by decide
  have hg : (if s.tag = FifoTag.kAccelerometer then g0
         else if s.tag = FifoTag.kGyroscope then s.xyz else g0) =
         (if s.tag = FifoTag.kGyroscope then s.xyz else g0) := by
    by_cases h2 : s.tag = FifoTag.kAccelerometer
    · have h1 : ¬ s.tag = FifoTag.kGyroscope := by rw [h2]; exact hne
      rw [if_pos h2, if_neg h1]
    · rw [if_neg h2]
  rw [hg]
  unfold expectedRecords
  rw [List.length_cons, List.range_succ_eq_map, List.filterMap_cons, List.filterMap_map]
  have hfun : ((fun i =>
      match (s :: ws)[i]? with
      | some s' =>
        if s'.tag = FifoTag.kAccelerometer then
          some (⟨s'.xyz, lastGyro g0 ((s :: ws).take i)⟩ : imu_data_t)
        else none
      | none => none) ∘ Nat.succ) =
      (fun i =>
      match ws[i]? with
      | some s' =>
        if s'.tag = FifoTag.kAccelerometer then
          some (⟨s'.xyz, lastGyro (if s.tag = FifoTag.kGyroscope then s.xyz else g0)
            (ws.take i)⟩ : imu_data_t)
        else none
      | none => none) := by
    funext i
    simp only [Function.comp, Nat.succ_eq_add_one, List.getElem?_cons_succ, List.take_succ_cons,
      lastGyro_cons]
  rw [hfun]
  by_cases h2 : s.tag = FifoTag.kAccelerometer
  · simp [h2, lastGyro]
  · simp [h2]

theorem drainSpec_payloads (base_tick : Nat) :
    ∀ (ws : List FifoSample) (g : Vec3),
      (drainSpec base_tick g ws).map (fun r => r.2) =
        (expectedRecords g ws).map (fun d => (RecordType.IMU, 0, Payload.imu d)) := by
  intro ws
  induction ws with
  | nil => intro g; rfl
  | cons s rest ih =>
    intro g
    rw [drainSpec_cons, expectedRecords_cons, List.map_append, List.map_append, ih]
    by_cases h2 : s.tag = FifoTag.kAccelerometer
    · simp [h2]
    · simp [h2]

theorem expectedRecords_length (ws : List FifoSample) :
    ∀ g : Vec3, (expectedRecords g ws).length =
      (ws.filter fun s => s.tag = FifoTag.kAccelerometer).length := by
  induction ws with
  | nil => intro g; rfl
  | cons s rest ih =>
    intro g
    rw [expectedRecords_cons, List.length_append, ih]
    by_cases h2 : s.tag = FifoTag.kAccelerometer
    · simp [h2, Nat.add_comm]
    · simp [h2]

theorem scripted_GetFifoSampleCount (w : World Script) (n flags : Nat) (ok : Bool)
    (rest : List (List Nat × Bool)) (hn : n ≤ 1023)
    (hrx : w.env.rx = ([n % 256, n / 256 + 4 * flags], ok) :: rest) :
    (Lsm6dso32.GetFifoSampleCount scripted w).2 = n ∧
    (Lsm6dso32.GetFifoSampleCount scripted w).1.env.rx = rest ∧
    recordsOf (Lsm6dso32.GetFifoSampleCount scripted w).1.trace = recordsOf w.trace := by
  have h := scripted_ReadRegister Register.kFifoStatus1 [0, 0] 2 w _ ok rest hrx
  refine ⟨?_, h.2, ?_⟩
  · have hst : storeBytes [0, 0] 2 [n % 256, n / 256 + 4 * flags] =
        [n % 256, (n / 256 + 4 * flags) % 256] := by
      simp [storeBytes, List.range, List.range.loop, u8]
    simp only [Lsm6dso32.GetFifoSampleCount, h.1, hst, List.getD_cons_zero,
      List.getD_cons_succ]
    rw [sampleCount_arith _ _ (Nat.mod_lt _ (by decide))]
    omega
  · simp only [Lsm6dso32.GetFifoSampleCount, ReadRegister_trace, recordsOf_append]
    simp [recordsOf]

theorem scripted_IsFifoOverrun (w : World Script) (d : List Nat) (ok : Bool)
    (rest : List (List Nat × Bool)) (hrx : w.env.rx = (d, ok) :: rest) :
    (Lsm6dso32.IsFifoOverrun scripted w).1.env.rx = rest ∧
    recordsOf (Lsm6dso32.IsFifoOverrun scripted w).1.trace = recordsOf w.trace := by
  have h := scripted_ReadRegister Register.kFifoStatus2 [0] 1 w d ok rest hrx
  refine ⟨h.2, ?_⟩
  simp only [Lsm6dso32.IsFifoOverrun, ReadRegister_trace, recordsOf_append]
  simp [recordsOf]

theorem ReadImuFifo_scripted (base_tick flags : Nat) (words : List (List Nat))
    (w : World Script) (t : SensorRead)
    (hen : t.m_fifo_enabled = true) (himu : t.m_imu = true)
    (hwf : ∀ d ∈ words, d.length = 7 ∧ ∀ b ∈ d, b < 256)
    (hn : words.length ≤ 1023) (hrx : w.env.rx = fifoRx flags words) :
    recordsOf (SensorRead.ReadImuFifo scripted base_tick (w, t)).1.trace =
      recordsOf w.trace ++
        drainSpec base_tick (t.m_imu_data 0).gyro (words.map Lsm6dso32.decodeFifoWord) ∧
    (SensorRead.ReadImuFifo scripted base_tick (w, t)).1.env.rx = [] := by
  obtain ⟨o1, o2⟩ := scripted_IsFifoOverrun w _ true _ hrx
  have hw : ∀ b : Bool,
      (if b then (Lsm6dso32.IsFifoOverrun scripted w).1.call scripted
          (Event.log_error LogMsg.fifoOverrun)
        else (Lsm6dso32.IsFifoOverrun scripted w).1).env.rx =
        ([words.length % 256, words.length / 256 + 4 * flags], true) ::
          words.map (fun d => (d, true)) ∧
      recordsOf (if b then (Lsm6dso32.IsFifoOverrun scripted w).1.call scripted
          (Event.log_error LogMsg.fifoOverrun)
        else (Lsm6dso32.IsFifoOverrun scripted w).1).trace = recordsOf w.trace := by
    intro b
    cases b
    · exact ⟨o1, o2⟩
    · refine ⟨o1, ?_⟩
      simp only [if_true, call_records, o2]
      simp [recordsOf]
  obtain ⟨l1, l2⟩ := hw (Lsm6dso32.IsFifoOverrun scripted w).2
  obtain ⟨c1, c2, c3⟩ := scripted_GetFifoSampleCount _ words.length flags true _ hn l1
  have hloop := drainLoop_scripted base_tick words
    { w := (Lsm6dso32.GetFifoSampleCount scripted
        (if (Lsm6dso32.IsFifoOverrun scripted w).2 then
          (Lsm6dso32.IsFifoOverrun scripted w).1.call scripted
            (Event.log_error LogMsg.fifoOverrun)
         else (Lsm6dso32.IsFifoOverrun scripted w).1)).1
      t := t, sample_count := words.length, accel_sample_idx := 0, gyro_sample_idx := 0 }
    hwf c2 rfl (by omega)
  simp only [SensorRead.ReadImuFifo, hen, himu, Bool.not_true, Bool.or_self,
    Bool.false_eq_true, if_false, c1]
  refine ⟨?_, hloop.2.1⟩
  rw [hloop.1, c3, l2]

/-- C7: for every FIFO content of `n ≤ 1023` well-formed 7-byte words, with the device
reporting the sample count `n`, one call of `ReadImuFifo` with FIFO mode active pops all
`n` words and emits exactly one composite record (channel IMU, index 0) per
accelerometer-tagged word, in FIFO order; each record carries that word's x/y/z as its
accelerometer triple and, as its gyroscope triple, the x/y/z of the most recent
gyroscope-tagged word before it in the batch, or the gyroscope triple held before the
call when there is none. -/
theorem ReadImuFifo_batch (base_tick flags : Nat) (words : List (List Nat))
    (w : World Script) (t : SensorRead)
    (hen : t.m_fifo_enabled = true) (himu : t.m_imu = true)
    (hwf : ∀ d ∈ words, d.length = 7 ∧ ∀ b ∈ d, b < 256)
    (hn : words.length ≤ 1023) (hrx : w.env.rx = fifoRx flags words) :
    ∃ new : List (Nat × RecordType × Nat × Payload),
      recordsOf (SensorRead.ReadImuFifo scripted base_tick (w, t)).1.trace =
        recordsOf w.trace ++ new ∧
      new.map (fun r => r.2) =
        (expectedRecords (t.m_imu_data 0).gyro (words.map Lsm6dso32.decodeFifoWord)).map
          (fun d => (RecordType.IMU, 0, Payload.imu d)) ∧
      new.length =
        ((words.map Lsm6dso32.decodeFifoWord).filter
          fun s => s.tag = FifoTag.kAccelerometer).length ∧
      (SensorRead.ReadImuFifo scripted base_tick (w, t)).1.env.rx = [] := by
  obtain ⟨h1, h2⟩ := ReadImuFifo_scripted base_tick flags words w t hen himu hwf hn hrx
  have hp := drainSpec_payloads base_tick (words.map Lsm6dso32.decodeFifoWord)
    (t.m_imu_data 0).gyro
  refine ⟨_, h1, hp, ?_, h2⟩
  have hl := congrArg List.length hp
  rw [List.length_map, List.length_map, expectedRecords_length] at hl
  exact hl

/-- Witness for C7: a FIFO holding accelerometer, gyroscope, accelerometer, gyroscope,
accelerometer words (three accelerometer-tagged, two gyroscope-tagged), with the overrun
flag set, gives exactly three records; the first carries the gyroscope triple held
before the call, the others the gyroscope word just before them. -/
theorem ReadImuFifo_batch_witness :
    ∃ new : List (Nat × RecordType × Nat × Payload),
      recordsOf (SensorRead.ReadImuFifo scripted 1000
        (World.start (Script.ofRx (fifoRx 16
          [[0x10, 1, 0, 2, 0, 3, 0], [0x08, 4, 0, 5, 0, 6, 0], [0x10, 7, 0, 8, 0, 9, 0],
           [0x08, 10, 0, 11, 0, 12, 0], [0x10, 13, 0, 14, 0, 15, 0]])),
         { SensorRead.new true with m_fifo_enabled := true })).1.trace = [] ++ new ∧
      new.map (fun r => r.2) =
        [(RecordType.IMU, 0, Payload.imu ⟨⟨1, 2, 3⟩, ⟨0, 0, 0⟩⟩),
         (RecordType.IMU, 0, Payload.imu ⟨⟨7, 8, 9⟩, ⟨4, 5, 6⟩⟩),
         (RecordType.IMU, 0, Payload.imu ⟨⟨13, 14, 15⟩, ⟨10, 11, 12⟩⟩)] ∧
      new.length = 3 :=
  (ReadImuFifo_batch 1000 16
    [[0x10, 1, 0, 2, 0, 3, 0], [0x08, 4, 0, 5, 0, 6, 0], [0x10, 7, 0, 8, 0, 9, 0],
     [0x08, 10, 0, 11, 0, 12, 0], [0x10, 13, 0, 14, 0, 15, 0]]
    (World.start (Script.ofRx (fifoRx 16
      [[0x10, 1, 0, 2, 0, 3, 0], [0x08, 4, 0, 5, 0, 6, 0], [0x10, 7, 0, 8, 0, 9, 0],
       [0x08, 10, 0, 11, 0, 12, 0], [0x10, 13, 0, 14, 0, 15, 0]])))
    { SensorRead.new true with m_fifo_enabled := true }
    rfl rfl (by decide) (by decide) rfl).elim
    fun new h => ⟨new, h.1, h.2.1.trans (by decide), h.2.2.1.trans (by decide)⟩

/-! ## Events of one loop iteration, for every environment -/

theorem isImuSide_not_baro (ev : Event) (h : ev.isImuSide = true) : ev.isBaro = false := by
  cases ev with
  | record tick ty id p => cases ty <;> simp_all [Event.isImuSide, Event.isBaro]
  | _ => simp_all [Event.isImuSide, Event.isBaro]

theorem isImuSide_not_rtos (ev : Event) (h : ev.isImuSide = true) : ev.isRtos = false := by
  cases ev <;> simp_all [Event.isImuSide, Event.isRtos]

theorem filter_imuSide_baro (l : List Event) (h : ∀ ev ∈ l, ev.isImuSide = true) :
    l.filter Event.isBaro = [] := by
  rw [List.filter_eq_nil_iff]
  intro ev hev
  rw [isImuSide_not_baro ev (h ev hev)]
  decide

theorem filter_imuSide_rtos (l : List Event) (h : ∀ ev ∈ l, ev.isImuSide = true) :
    l.filter Event.isRtos = [] := by
  rw [List.filter_eq_nil_iff]
  intro ev hev
  rw [isImuSide_not_rtos ev (h ev hev)]
  decide

theorem sameBaroSide_refl (t : SensorRead) : t.sameBaroSide t := ⟨rfl, rfl, rfl, rfl⟩

theorem sameBaroSide_trans {t1 t2 t3 : SensorRead} (h12 : t1.sameBaroSide t2)
    (h23 : t2.sameBaroSide t3) : t1.sameBaroSide t3 :=
  ⟨h23.1.trans h12.1, h23.2.1.trans h12.2.1, h23.2.2.1.trans h12.2.2.1,
   h23.2.2.2.trans h12.2.2.2⟩

theorem ReadFifoSample_trace {η : Type} (e : Env η) (w : World η) :
    (Lsm6dso32.ReadFifoSample e w).1.trace =
      w.trace ++ [Event.SetLow, Event.Transfer [0xF8], Event.Receive 7, Event.SetHigh] := by
  simp only [Lsm6dso32.ReadFifoSample, ReadRegister_trace]
  rfl

theorem drainBody_events {η : Type} (e : Env η) (base : Nat) (st : SensorRead.DrainState η) :
    (∃ new : List Event,
      (SensorRead.drainBody e base st).1.w.trace = st.w.trace ++ new ∧
      ∀ ev ∈ new, ev.isImuSide = true) ∧
    st.t.sameBaroSide (SensorRead.drainBody e base st).1.t := by
  by_cases h2 : (Lsm6dso32.ReadFifoSample e st.w).2.2.tag = 2
  · rw [drainBody_accel e base st h2]
    refine ⟨⟨[Event.SetLow, Event.Transfer [0xF8], Event.Receive 7, Event.SetHigh,
      Event.record (SensorRead.derivedTick base st.sample_count) RecordType.IMU 0
        (Payload.imu ⟨(Lsm6dso32.ReadFifoSample e st.w).2.2.xyz, (st.t.m_imu_data 0).gyro⟩)],
      ?_, ?_⟩, ⟨rfl, rfl, rfl, rfl⟩⟩
    · simp only [World.call, ReadFifoSample_trace, List.append_assoc]
      rfl
    · intro ev hev
      simp only [List.mem_cons, List.mem_singleton, List.not_mem_nil, or_false] at hev
      rcases hev with h | h | h | h | h <;> rw [h] <;> rfl
  · by_cases h1 : (Lsm6dso32.ReadFifoSample e st.w).2.2.tag = 1
    · rw [drainBody_gyro e base st h1]
      refine ⟨⟨_, ReadFifoSample_trace e st.w, ?_⟩, ⟨rfl, rfl, rfl, rfl⟩⟩
      intro ev hev
      simp only [List.mem_cons, List.mem_singleton, List.not_mem_nil, or_false] at hev
      rcases hev with h | h | h | h <;> rw [h] <;> rfl
    · rw [drainBody_other e base st h1 h2]
      refine ⟨⟨_, ReadFifoSample_trace e st.w, ?_⟩, ⟨rfl, rfl, rfl, rfl⟩⟩
      intro ev hev
      simp only [List.mem_cons, List.mem_singleton, List.not_mem_nil, or_false] at hev
      rcases hev with h | h | h | h <;> rw [h] <;> rfl

theorem drainLoop_events {η : Type} (e : Env η) (base : Nat) :
    ∀ (fuel : Nat) (st : SensorRead.DrainState η),
      (∃ new : List Event,
        (SensorRead.drainLoop e base fuel st).w.trace = st.w.trace ++ new ∧
        ∀ ev ∈ new, ev.isImuSide = true) ∧
      st.t.sameBaroSide (SensorRead.drainLoop e base fuel st).t := by
  intro fuel
  induction fuel with
  | zero =>
    intro st
    exact ⟨⟨[], by simp [SensorRead.drainLoop], by simp⟩, sameBaroSide_refl _⟩
  | succ k ih =>
    intro st
    by_cases hpos : st.sample_count > 0
    · obtain ⟨b1, _⟩ := drainBody_continue e base st
      obtain ⟨⟨n1, t1, c1⟩, s1⟩ := drainBody_events e base st
      obtain ⟨⟨n2, t2, c2⟩, s2⟩ := ih (SensorRead.drainBody e base st).1
      simp only [SensorRead.drainLoop, if_pos hpos, b1, if_true]
      refine ⟨⟨n1 ++ n2, ?_, ?_⟩, sameBaroSide_trans s1 s2⟩
      · rw [t2, t1, List.append_assoc]
      · intro ev hev
        rcases List.mem_append.mp hev with h | h
        · exact c1 ev h
        · exact c2 ev h
    · simp only [SensorRead.drainLoop, if_neg hpos]
      exact ⟨⟨[], by simp, by simp⟩, sameBaroSide_refl _⟩

theorem ReadImuFifo_events {η : Type} (e : Env η) (base : Nat) (s : World η × SensorRead) :
    (∃ new : List Event,
      (SensorRead.ReadImuFifo e base s).1.trace = s.1.trace ++ new ∧
      ∀ ev ∈ new, ev.isImuSide = true) ∧
    s.2.sameBaroSide (SensorRead.ReadImuFifo e base s).2 := by
  by_cases hgo : (!s.2.m_fifo_enabled || !s.2.m_imu) = true
  · simp only [SensorRead.ReadImuFifo, hgo, if_true]
    exact ⟨⟨[], by simp, by simp⟩, sameBaroSide_refl _⟩
  · simp only [SensorRead.ReadImuFifo, hgo, Bool.false_eq_true, if_false]
    obtain ⟨⟨n, tn, cn⟩, sn⟩ := drainLoop_events e base
      (Lsm6dso32.GetFifoSampleCount e
        (if (Lsm6dso32.IsFifoOverrun e s.1).2 then
          (Lsm6dso32.IsFifoOverrun e s.1).1.call e (Event.log_error LogMsg.fifoOverrun)
         else (Lsm6dso32.IsFifoOverrun e s.1).1)).2
      { w := (Lsm6dso32.GetFifoSampleCount e
          (if (Lsm6dso32.IsFifoOverrun e s.1).2 then
            (Lsm6dso32.IsFifoOverrun e s.1).1.call e (Event.log_error LogMsg.fifoOverrun)
           else (Lsm6dso32.IsFifoOverrun e s.1).1)).1
        t := s.2
        sample_count := (Lsm6dso32.GetFifoSampleCount e
          (if (Lsm6dso32.IsFifoOverrun e s.1).2 then
            (Lsm6dso32.IsFifoOverrun e s.1).1.call e (Event.log_error LogMsg.fifoOverrun)
           else (Lsm6dso32.IsFifoOverrun e s.1).1)).2
        accel_sample_idx := 0, gyro_sample_idx := 0 }
    refine ⟨?_, ⟨sn.1, sn.2.1, sn.2.2.1, sn.2.2.2⟩⟩
    cases hov : (Lsm6dso32.IsFifoOverrun e s.1).2
    · rw [hov] at tn
      simp only [Bool.false_eq_true, if_false] at tn ⊢
      refine ⟨[Event.SetLow, Event.Transfer [0xBB], Event.Receive 1, Event.SetHigh,
        Event.SetLow, Event.Transfer [0xBA], Event.Receive 2, Event.SetHigh] ++ n, ?_, ?_⟩
      · rw [tn]
        simp only [Lsm6dso32.GetFifoSampleCount, Lsm6dso32.IsFifoOverrun, ReadRegister_trace,
          List.append_assoc]
        rfl
      · intro ev hev
        rcases List.mem_append.mp hev with h | h
        · simp only [List.mem_cons, List.mem_singleton, List.not_mem_nil, or_false] at h
          rcases h with h | h | h | h | h | h | h | h <;> rw [h] <;> rfl
        · exact cn ev h
    · rw [hov] at tn
      simp only [if_true] at tn ⊢
      refine ⟨[Event.SetLow, Event.Transfer [0xBB], Event.Receive 1, Event.SetHigh,
        Event.log_error LogMsg.fifoOverrun,
        Event.SetLow, Event.Transfer [0xBA], Event.Receive 2, Event.SetHigh] ++ n, ?_, ?_⟩
      · rw [tn]
        simp only [Lsm6dso32.GetFifoSampleCount, Lsm6dso32.IsFifoOverrun, ReadRegister_trace,
          World.call, List.append_assoc]
        rfl
      · intro ev hev
        rcases List.mem_append.mp hev with h | h
        · simp only [List.mem_cons, List.mem_singleton, List.not_mem_nil, or_false] at h
          rcases h with h | h | h | h | h | h | h | h | h <;> rw [h] <;> rfl
        · exact cn ev h

theorem afterDrain_events {η : Type} (e : Env η) (s : SensorRead.RunState η) :
    (∃ d : List Event,
      (SensorRead.afterDrain e s).1.trace = s.w.trace ++ [Event.Read] ++ d ∧
      ∀ ev ∈ d, ev.isImuSide = true) ∧
    s.t.sameBaroSide (SensorRead.afterDrain e s).2 := by
  cases hf : s.t.m_fifo_enabled
  · simp only [SensorRead.afterDrain, hf, Bool.false_eq_true, if_false]
    exact ⟨⟨[], by simp [World.call], by simp⟩, sameBaroSide_refl _⟩
  · simp only [SensorRead.afterDrain, hf, if_true]
    obtain ⟨⟨n, tn, cn⟩, sn⟩ := ReadImuFifo_events e s.tick_count (s.w.call e Event.Read, s.t)
    exact ⟨⟨n, tn, cn⟩, sn⟩

theorem ReadGyroRaw_trace {η : Type} (e : Env η) (data : Vec3) (w : World η) :
    (Lsm6dso32.ReadGyroRaw e data w).1.trace =
      w.trace ++ [Event.SetLow, Event.Transfer [0xA2], Event.Receive 6, Event.SetHigh] := by
  simp only [Lsm6dso32.ReadGyroRaw, ReadRegister_trace]
  rfl

theorem ReadAccelRaw_trace {η : Type} (e : Env η) (data : Vec3) (w : World η) :
    (Lsm6dso32.ReadAccelRaw e data w).1.trace =
      w.trace ++ [Event.SetLow, Event.Transfer [0xA8], Event.Receive 6, Event.SetHigh] := by
  simp only [Lsm6dso32.ReadAccelRaw, ReadRegister_trace]
  rfl

theorem recordBaroLoop_trace {η : Type} (e : Env η) (tick : Nat) (t : SensorRead)
    (w : World η) :
    ∀ num : Nat,
      (SensorRead.recordBaroLoop e tick num t w).trace =
        w.trace ++
          (List.range num).map
            (fun i => Event.record tick RecordType.BARO i (Payload.baro (t.m_baro_data 0))) := by
  intro num
  induction num with
  | zero => simp [SensorRead.recordBaroLoop]
  | succ n ih =>
    have hstep : SensorRead.recordBaroLoop e tick (n + 1) t w =
        (SensorRead.recordBaroLoop e tick n t w).call e
          (Event.record tick RecordType.BARO n (Payload.baro (t.m_baro_data 0))) := by
      simp [SensorRead.recordBaroLoop, List.range_succ, List.foldl_append]
    rw [hstep, List.range_succ, List.map_append, ← List.append_assoc, ← ih]
    rfl

/-! ## Traces of the FIFO configuration and of the startup of `Run` -/

theorem ConfigureFifo_trace {η : Type} (e : Env η) (watermark : Nat) (w : World η) :
    (Lsm6dso32.ConfigureFifo e watermark w).1.trace =
      w.trace ++
        [Event.SetLow,
         Event.Transfer [0x07, u8 (Lsm6dso32.clampWatermark (u16 watermark) &&& 0xFF)],
         Event.SetHigh,
         Event.SetLow,
         Event.Transfer [0x08, u8 ((Lsm6dso32.clampWatermark (u16 watermark) >>> 8) &&& 0x01)],
         Event.SetHigh,
         Event.SetLow, Event.Transfer [0x09, 0x44], Event.SetHigh,
         Event.SetLow, Event.Transfer [0x0A, 0x06], Event.SetHigh] := by
  simp only [Lsm6dso32.ConfigureFifo, WriteRegister_trace, List.append_assoc]
  rfl

theorem RunStartup_trace {η : Type} (e : Env η) (w : World η) (t : SensorRead) :
    (∃ cfg : List Event,
      (SensorRead.RunStartup e w t).w.trace =
        w.trace ++ [Event.Prepare Request.kTemperature, Event.osDelay 5] ++ cfg ++
          [Event.osKernelGetTickCount] ∧
      ∀ ev ∈ cfg, ev.isRtos = false ∧ ev.isBaro = false) ∧
    (SensorRead.RunStartup e w t).t.m_current_readout = t.m_current_readout := by
  cases hc : (t.m_imu && e.imu_initialized
      ((w.call e (Event.Prepare Request.kTemperature)).call e (Event.osDelay 5)).env 0)
  · have hs : SensorRead.RunStartup e w t =
        { w := ((w.call e (Event.Prepare Request.kTemperature)).call e
            (Event.osDelay 5)).call e Event.osKernelGetTickCount
          t := t
          tick_count := u32 (e.osKernelGetTickCount
            ((w.call e (Event.Prepare Request.kTemperature)).call e (Event.osDelay 5)).env) } := by
      simp only [SensorRead.RunStartup, hc, Bool.false_eq_true, if_false]
    rw [hs]
    exact ⟨⟨[], by simp [World.call], by simp⟩, rfl⟩
  · have hr : (Lsm6dso32.ConfigureFifo e 1
        ((w.call e (Event.Prepare Request.kTemperature)).call e (Event.osDelay 5))).2
        = true := rfl
    have hs : SensorRead.RunStartup e w t =
        { w := ((Lsm6dso32.ConfigureFifo e 1
            ((w.call e (Event.Prepare Request.kTemperature)).call e (Event.osDelay 5))).1.call e
              (Event.log_info LogMsg.fifoEnabled)).call e Event.osKernelGetTickCount
          t := { t with m_fifo_enabled := true }
          tick_count := u32 (e.osKernelGetTickCount
            ((Lsm6dso32.ConfigureFifo e 1
              ((w.call e (Event.Prepare Request.kTemperature)).call e
                (Event.osDelay 5))).1.call e (Event.log_info LogMsg.fifoEnabled)).env) } := by
      simp only [SensorRead.RunStartup, hc, if_true, hr]
    rw [hs]
    refine ⟨⟨[Event.SetLow,
         Event.Transfer [0x07, u8 (Lsm6dso32.clampWatermark (u16 1) &&& 0xFF)],
         Event.SetHigh,
         Event.SetLow,
         Event.Transfer [0x08, u8 ((Lsm6dso32.clampWatermark (u16 1) >>> 8) &&& 0x01)],
         Event.SetHigh,
         Event.SetLow, Event.Transfer [0x09, 0x44], Event.SetHigh,
         Event.SetLow, Event.Transfer [0x0A, 0x06], Event.SetHigh,
         Event.log_info LogMsg.fifoEnabled], ?_, ?_⟩, rfl⟩
    · show ((Lsm6dso32.ConfigureFifo e 1
            ((w.call e (Event.Prepare Request.kTemperature)).call e (Event.osDelay 5))).1.trace
            ++ [Event.log_info LogMsg.fifoEnabled]) ++ [Event.osKernelGetTickCount] = _
      rw [ConfigureFifo_trace]
      simp [World.call]
    · intro ev hev
      simp only [List.mem_cons, List.mem_singleton, List.not_mem_nil, or_false] at hev
      rcases hev with h | h | h | h | h | h | h | h | h | h | h | h | h <;> rw [h] <;>
        exact ⟨rfl, rfl⟩


/-! ## The drain does not depend on the trace or on the overrun flag -/

theorem ReadRegister_prefixed {η : Type} (e : Env η) (reg : Nat) (data : List Nat)
    (length : Nat) (p : List Event) (w : World η) :
    Lsm6dso32.ReadRegister e reg data length (w.prefixed p) =
      ((Lsm6dso32.ReadRegister e reg data length w).1.prefixed p,
       (Lsm6dso32.ReadRegister e reg data length w).2) := by
  simp [Lsm6dso32.ReadRegister, World.call, World.prefixed]

theorem ReadFifoSample_prefixed {η : Type} (e : Env η) (p : List Event) (w : World η) :
    Lsm6dso32.ReadFifoSample e (w.prefixed p) =
      ((Lsm6dso32.ReadFifoSample e w).1.prefixed p, (Lsm6dso32.ReadFifoSample e w).2) := by
  simp only [Lsm6dso32.ReadFifoSample, ReadRegister_prefixed]

theorem GetFifoSampleCount_prefixed {η : Type} (e : Env η) (p : List Event) (w : World η) :
    Lsm6dso32.GetFifoSampleCount e (w.prefixed p) =
      ((Lsm6dso32.GetFifoSampleCount e w).1.prefixed p,
       (Lsm6dso32.GetFifoSampleCount e w).2) := by
  simp only [Lsm6dso32.GetFifoSampleCount, ReadRegister_prefixed]

theorem call_prefixed {η : Type} (e : Env η) (p : List Event) (w : World η) (ev : Event) :
    (w.prefixed p).call e ev = (w.call e ev).prefixed p := by
  simp [World.call, World.prefixed]

theorem drainBody_prefixed {η : Type} (e : Env η) (base : Nat) (p : List Event)
    (st : SensorRead.DrainState η) :
    SensorRead.drainBody e base (st.prefixed p) =
      ((SensorRead.drainBody e base st).1.prefixed p, (SensorRead.drainBody e base st).2) := by
  have hs : (st.prefixed p).w = st.w.prefixed p := rfl
  by_cases h2 : (Lsm6dso32.ReadFifoSample e st.w).2.2.tag = 2
  · have h2' : (Lsm6dso32.ReadFifoSample e (st.prefixed p).w).2.2.tag = 2 := by
      rw [hs, ReadFifoSample_prefixed]; exact h2
    rw [drainBody_accel e base st h2, drainBody_accel e base (st.prefixed p) h2']
    simp only [hs, ReadFifoSample_prefixed, call_prefixed]
    rfl
  · by_cases h1 : (Lsm6dso32.ReadFifoSample e st.w).2.2.tag = 1
    · have h1' : (Lsm6dso32.ReadFifoSample e (st.prefixed p).w).2.2.tag = 1 := by
        rw [hs, ReadFifoSample_prefixed]; exact h1
      rw [drainBody_gyro e base st h1, drainBody_gyro e base (st.prefixed p) h1']
      simp only [hs, ReadFifoSample_prefixed]
      rfl
    · have h1' : (Lsm6dso32.ReadFifoSample e (st.prefixed p).w).2.2.tag ≠ 1 := by
        rw [hs, ReadFifoSample_prefixed]; exact h1
      have h2' : (Lsm6dso32.ReadFifoSample e (st.prefixed p).w).2.2.tag ≠ 2 := by
        rw [hs, ReadFifoSample_prefixed]; exact h2
      rw [drainBody_other e base st h1 h2, drainBody_other e base (st.prefixed p) h1' h2']
      simp only [hs, ReadFifoSample_prefixed]
      rfl

theorem drainLoop_prefixed {η : Type} (e : Env η) (base : Nat) (p : List Event) :
    ∀ (fuel : Nat) (st : SensorRead.DrainState η),
      SensorRead.drainLoop e base fuel (st.prefixed p) =
        (SensorRead.drainLoop e base fuel st).prefixed p := by
  intro fuel
  induction fuel with
  | zero => intro st; rfl
  | succ k ih =>
    intro st
    have hc : (st.prefixed p).sample_count = st.sample_count := rfl
    obtain ⟨b1, _⟩ := drainBody_continue e base st
    by_cases hpos : st.sample_count > 0
    · simp only [SensorRead.drainLoop, hc, if_pos hpos, drainBody_prefixed, b1, if_true, ih]
    · simp only [SensorRead.drainLoop, hc, if_neg hpos]

theorem drainLoop_prefixed_mk {η : Type} (e : Env η) (base : Nat) (p : List Event)
    (fuel : Nat) (w : World η) (t : SensorRead) (sc a g : Nat) :
    SensorRead.drainLoop e base fuel
        { w := w.prefixed p, t := t, sample_count := sc, accel_sample_idx := a,
          gyro_sample_idx := g } =
      (SensorRead.drainLoop e base fuel
        { w := w, t := t, sample_count := sc, accel_sample_idx := a,
          gyro_sample_idx := g }).prefixed p :=
  drainLoop_prefixed e base p fuel
    { w := w, t := t, sample_count := sc, accel_sample_idx := a, gyro_sample_idx := g }

theorem scripted_IsFifoOverrun_eq (s : Script) (tr : List Event) (d : List Nat) (ok : Bool)
    (rest : List (List Nat × Bool)) :
    Lsm6dso32.IsFifoOverrun scripted
        ({ env := { s with rx := (d, ok) :: rest }, trace := tr } : World Script) =
      (({ env := { s with rx := rest, tx := s.tx.tail }, trace := [] } :
          World Script).prefixed
        (tr ++ [Event.SetLow, Event.Transfer [0xBB], Event.Receive 1, Event.SetHigh]),
       decide (((storeBytes [0] 1 d).getD 0 0 &&& 0x40) ≠ 0)) := by
  simp only [Lsm6dso32.IsFifoOverrun, Lsm6dso32.ReadRegister, World.call, World.prefixed,
    scripted, List.tail_cons, List.headD_cons, List.append_nil, List.append_assoc]
  rfl

theorem ReadImuFifo_scripted_overrun_eq (base : Nat) (s : Script) (tr : List Event)
    (t : SensorRead) (d : List Nat) (ok : Bool) (rest : List (List Nat × Bool))
    (hen : t.m_fifo_enabled = true) (himu : t.m_imu = true) :
    SensorRead.ReadImuFifo scripted base
        (({ env := { s with rx := (d, ok) :: rest }, trace := tr } : World Script), t) =
      (((SensorRead.drainLoop scripted base
          (Lsm6dso32.GetFifoSampleCount scripted
            ({ env := { s with rx := rest, tx := s.tx.tail }, trace := [] } : World Script)).2
          { w := (Lsm6dso32.GetFifoSampleCount scripted
              ({ env := { s with rx := rest, tx := s.tx.tail }, trace := [] } :
                World Script)).1
            t := t
            sample_count := (Lsm6dso32.GetFifoSampleCount scripted
              ({ env := { s with rx := rest, tx := s.tx.tail }, trace := [] } :
                World Script)).2
            accel_sample_idx := 0, gyro_sample_idx := 0 }).w).prefixed
          (tr ++ [Event.SetLow, Event.Transfer [0xBB], Event.Receive 1, Event.SetHigh] ++
            (if ((storeBytes [0] 1 d).getD 0 0 &&& 0x40) ≠ 0 then
              [Event.log_error LogMsg.fifoOverrun] else [])),
       { (SensorRead.drainLoop scripted base
          (Lsm6dso32.GetFifoSampleCount scripted
            ({ env := { s with rx := rest, tx := s.tx.tail }, trace := [] } : World Script)).2
          { w := (Lsm6dso32.GetFifoSampleCount scripted
              ({ env := { s with rx := rest, tx := s.tx.tail }, trace := [] } :
                World Script)).1
            t := t
            sample_count := (Lsm6dso32.GetFifoSampleCount scripted
              ({ env := { s with rx := rest, tx := s.tx.tail }, trace := [] } :
                World Script)).2
            accel_sample_idx := 0, gyro_sample_idx := 0 }).t with
         m_fifo_sample_counter := u32
          ((SensorRead.drainLoop scripted base
            (Lsm6dso32.GetFifoSampleCount scripted
              ({ env := { s with rx := rest, tx := s.tx.tail }, trace := [] } :
                World Script)).2
            { w := (Lsm6dso32.GetFifoSampleCount scripted
                ({ env := { s with rx := rest, tx := s.tx.tail }, trace := [] } :
                  World Script)).1
              t := t
              sample_count := (Lsm6dso32.GetFifoSampleCount scripted
                ({ env := { s with rx := rest, tx := s.tx.tail }, trace := [] } :
                  World Script)).2
              accel_sample_idx := 0, gyro_sample_idx := 0 }).t.m_fifo_sample_counter +
           (SensorRead.drainLoop scripted base
            (Lsm6dso32.GetFifoSampleCount scripted
              ({ env := { s with rx := rest, tx := s.tx.tail }, trace := [] } :
                World Script)).2
            { w := (Lsm6dso32.GetFifoSampleCount scripted
                ({ env := { s with rx := rest, tx := s.tx.tail }, trace := [] } :
                  World Script)).1
              t := t
              sample_count := (Lsm6dso32.GetFifoSampleCount scripted
                ({ env := { s with rx := rest, tx := s.tx.tail }, trace := [] } :
                  World Script)).2
              accel_sample_idx := 0, gyro_sample_idx := 0 }).accel_sample_idx) }) := by
  have hw : (if (decide (((storeBytes [0] 1 d).getD 0 0 &&& 0x40) ≠ 0)) = true then
        ((({ env := { s with rx := rest, tx := s.tx.tail }, trace := [] } :
          World Script).prefixed
          (tr ++ [Event.SetLow, Event.Transfer [0xBB], Event.Receive 1,
            Event.SetHigh])).call scripted (Event.log_error LogMsg.fifoOverrun))
      else
        (({ env := { s with rx := rest, tx := s.tx.tail }, trace := [] } :
          World Script).prefixed
          (tr ++ [Event.SetLow, Event.Transfer [0xBB], Event.Receive 1, Event.SetHigh]))) =
      ({ env := { s with rx := rest, tx := s.tx.tail }, trace := [] } :
          World Script).prefixed
        (tr ++ [Event.SetLow, Event.Transfer [0xBB], Event.Receive 1, Event.SetHigh] ++
          (if ((storeBytes [0] 1 d).getD 0 0 &&& 0x40) ≠ 0 then
            [Event.log_error LogMsg.fifoOverrun] else [])) := by
    by_cases hb : ((storeBytes [0] 1 d).getD 0 0 &&& 0x40) ≠ 0
    · simp only [hb, decide_True, if_true, ne_eq, not_false_eq_true]
      simp [World.call, World.prefixed, scripted]
    · simp only [hb, decide_False, Bool.false_eq_true, if_false, List.append_nil]
  simp only [SensorRead.ReadImuFifo, hen, himu, Bool.not_true, Bool.or_self,
    Bool.false_eq_true, if_false, scripted_IsFifoOverrun_eq, hw,
    GetFifoSampleCount_prefixed]
  simp only [drainLoop_prefixed_mk]
  rfl

theorem ReadImuFifo_scripted_overrun (base : Nat) (s : Script) (t : SensorRead)
    (rest : List (List Nat × Bool))
    (hen : t.m_fifo_enabled = true) (himu : t.m_imu = true) :
    ∃ r0 : World Script × SensorRead,
      ∀ (tr : List Event) (d : List Nat) (ok : Bool),
        SensorRead.ReadImuFifo scripted base
            (({ env := { s with rx := (d, ok) :: rest }, trace := tr } : World Script), t) =
          (r0.1.prefixed
            (tr ++ [Event.SetLow, Event.Transfer [0xBB], Event.Receive 1, Event.SetHigh] ++
              (if ((storeBytes [0] 1 d).getD 0 0 &&& 0x40) ≠ 0 then
                [Event.log_error LogMsg.fifoOverrun] else [])), r0.2) :=
  ⟨(_, _), fun tr d ok => ReadImuFifo_scripted_overrun_eq base s tr t d ok rest hen himu⟩

theorem recordsOf_overrun_log (b : Prop) [Decidable b] :
    recordsOf (if b then [Event.log_error LogMsg.fifoOverrun] else []) = [] := by
  by_cases hb : b <;> simp [hb, recordsOf]

theorem transfersOf_overrun_log (b : Prop) [Decidable b] :
    transfersOf (if b then [Event.log_error LogMsg.fifoOverrun] else []) = [] := by
  by_cases hb : b <;> simp [hb, transfersOf]

theorem overrun_bit_arith (n flags : Nat) (hn : n ≤ 1023) (hf : (flags / 16) % 2 = 1) :
    ((storeBytes [0] 1 [n / 256 + 4 * flags]).getD 0 0 &&& 0x40) ≠ 0 := by
  have hst : (storeBytes [0] 1 [n / 256 + 4 * flags]).getD 0 0 =
      (n / 256 + 4 * flags) % 256 := by
    simp [storeBytes, List.range, List.range.loop, u8]
  rw [hst]
  intro h
  have h64 := (and_64 ((n / 256 + 4 * flags) % 256) (Nat.mod_lt _ (by decide))).mp h
  omega

/-- C11: the drain does not depend on the overrun flag.  Two executions of
`ReadImuFifo` with FIFO mode active that start from the same task state, base tick and
trace, against devices that answer alike except for the status byte returned to
`IsFifoOverrun` (in particular when the two bytes differ only in bit 6), end in the
same task state and the same device state, emit the same records (ticks, channel ids,
payloads), make the same bus transfers and pop the same number of FIFO words.  With
the overrun flag set, a FIFO reporting `n ≤ 1023` well-formed words is still drained
completely, with the records of the drain without the flag. -/
theorem ReadImuFifo_overrun_independent (base_tick : Nat) (s : Script) (tr : List Event)
    (t : SensorRead) (d d' : List Nat) (ok ok' : Bool) (rest : List (List Nat × Bool))
    (hen : t.m_fifo_enabled = true) (himu : t.m_imu = true) :
    ((SensorRead.ReadImuFifo scripted base_tick
        (({ env := { s with rx := (d, ok) :: rest }, trace := tr } : World Script), t)).2 =
      (SensorRead.ReadImuFifo scripted base_tick
        (({ env := { s with rx := (d', ok') :: rest }, trace := tr } : World Script), t)).2 ∧
     (SensorRead.ReadImuFifo scripted base_tick
        (({ env := { s with rx := (d, ok) :: rest }, trace := tr } : World Script), t)).1.env =
      (SensorRead.ReadImuFifo scripted base_tick
        (({ env := { s with rx := (d', ok') :: rest }, trace := tr } : World Script), t)).1.env ∧
     recordsOf (SensorRead.ReadImuFifo scripted base_tick
        (({ env := { s with rx := (d, ok) :: rest }, trace := tr } : World Script), t)).1.trace =
      recordsOf (SensorRead.ReadImuFifo scripted base_tick
        (({ env := { s with rx := (d', ok') :: rest }, trace := tr } : World Script),
          t)).1.trace ∧
     transfersOf (SensorRead.ReadImuFifo scripted base_tick
        (({ env := { s with rx := (d, ok) :: rest }, trace := tr } : World Script), t)).1.trace =
      transfersOf (SensorRead.ReadImuFifo scripted base_tick
        (({ env := { s with rx := (d', ok') :: rest }, trace := tr } : World Script),
          t)).1.trace ∧
     fifoPops (SensorRead.ReadImuFifo scripted base_tick
        (({ env := { s with rx := (d, ok) :: rest }, trace := tr } : World Script), t)).1.trace =
      fifoPops (SensorRead.ReadImuFifo scripted base_tick
        (({ env := { s with rx := (d', ok') :: rest }, trace := tr } : World Script),
          t)).1.trace) ∧
    (∀ (flags : Nat) (words : List (List Nat)) (w : World Script),
      (flags / 16) % 2 = 1 →
      (∀ x ∈ words, x.length = 7 ∧ ∀ b ∈ x, b < 256) →
      words.length ≤ 1023 → w.env.rx = fifoRx flags words →
      (Lsm6dso32.IsFifoOverrun scripted w).2 = true ∧
      (SensorRead.ReadImuFifo scripted base_tick (w, t)).1.env.rx = [] ∧
      recordsOf (SensorRead.ReadImuFifo scripted base_tick (w, t)).1.trace =
        recordsOf w.trace ++
          drainSpec base_tick (t.m_imu_data 0).gyro
            (words.map Lsm6dso32.decodeFifoWord)) := by
  constructor
  · obtain ⟨r0, hr0⟩ := ReadImuFifo_scripted_overrun base_tick s t rest hen himu
    have h1 := hr0 tr d ok
    have h2 := hr0 tr d' ok'
    have hr : recordsOf (SensorRead.ReadImuFifo scripted base_tick
          (({ env := { s with rx := (d, ok) :: rest }, trace := tr } : World Script),
            t)).1.trace =
        recordsOf (SensorRead.ReadImuFifo scripted base_tick
          (({ env := { s with rx := (d', ok') :: rest }, trace := tr } : World Script),
            t)).1.trace := by
      rw [h1, h2]
      simp only [World.prefixed, recordsOf_append, recordsOf_overrun_log]
    have ht : transfersOf (SensorRead.ReadImuFifo scripted base_tick
          (({ env := { s with rx := (d, ok) :: rest }, trace := tr } : World Script),
            t)).1.trace =
        transfersOf (SensorRead.ReadImuFifo scripted base_tick
          (({ env := { s with rx := (d', ok') :: rest }, trace := tr } : World Script),
            t)).1.trace := by
      rw [h1, h2]
      simp only [World.prefixed, transfersOf_append, transfersOf_overrun_log]
    refine ⟨?_, ?_, hr, ht, ?_⟩
    · rw [h1, h2]
    · rw [h1, h2]; rfl
    · unfold fifoPops
      rw [ht]
  · intro flags words w hf hwf hn hrx
    obtain ⟨r1, r2⟩ := ReadImuFifo_scripted base_tick flags words w t hen himu hwf hn hrx
    refine ⟨?_, r2, r1⟩
    have hread := (scripted_ReadRegister Register.kFifoStatus2 [0] 1 w
      [words.length / 256 + 4 * flags] true _ hrx).1
    simp only [Lsm6dso32.IsFifoOverrun, hread]
    exact decide_eq_true (overrun_bit_arith words.length flags hn hf)

/-- Witness for C11: the same FIFO of three words drained once with the status byte
0x00 and once with 0x40 (overrun) gives the same records; with the overrun flag set
the overrun test is true and the FIFO is empty after the call. -/
theorem ReadImuFifo_overrun_independent_witness :
    recordsOf (SensorRead.ReadImuFifo scripted 1000
        (({ env := { Script.ofRx [] with rx := ([0x00], true) ::
              [([3, 0], true), ([0x10, 1, 0, 2, 0, 3, 0], true),
               ([0x08, 4, 0, 5, 0, 6, 0], true), ([0x10, 7, 0, 8, 0, 9, 0], true)] }
            trace := [] } : World Script),
         { SensorRead.new true with m_fifo_enabled := true })).1.trace =
      recordsOf (SensorRead.ReadImuFifo scripted 1000
        (({ env := { Script.ofRx [] with rx := ([0x40], true) ::
              [([3, 0], true), ([0x10, 1, 0, 2, 0, 3, 0], true),
               ([0x08, 4, 0, 5, 0, 6, 0], true), ([0x10, 7, 0, 8, 0, 9, 0], true)] }
            trace := [] } : World Script),
         { SensorRead.new true with m_fifo_enabled := true })).1.trace ∧
    (Lsm6dso32.IsFifoOverrun scripted (World.start (Script.ofRx (fifoRx 16
      [[0x10, 1, 0, 2, 0, 3, 0], [0x08, 4, 0, 5, 0, 6, 0], [0x10, 7, 0, 8, 0, 9, 0]])))).2
      = true ∧
    (SensorRead.ReadImuFifo scripted 1000
      (World.start (Script.ofRx (fifoRx 16
        [[0x10, 1, 0, 2, 0, 3, 0], [0x08, 4, 0, 5, 0, 6, 0], [0x10, 7, 0, 8, 0, 9, 0]])),
       { SensorRead.new true with m_fifo_enabled := true })).1.env.rx = [] :=
  have h := ReadImuFifo_overrun_independent 1000 (Script.ofRx []) []
    { SensorRead.new true with m_fifo_enabled := true } [0x00] [0x40] true true
    [([3, 0], true), ([0x10, 1, 0, 2, 0, 3, 0], true),
     ([0x08, 4, 0, 5, 0, 6, 0], true), ([0x10, 7, 0, 8, 0, 9, 0], true)] rfl rfl
  have h2 := h.2 16
    [[0x10, 1, 0, 2, 0, 3, 0], [0x08, 4, 0, 5, 0, 6, 0], [0x10, 7, 0, 8, 0, 9, 0]]
    (World.start (Script.ofRx (fifoRx 16
      [[0x10, 1, 0, 2, 0, 3, 0], [0x08, 4, 0, 5, 0, 6, 0], [0x10, 7, 0, 8, 0, 9, 0]])))
    (by decide) (by decide) (by decide) rfl
  ⟨h.1.2.2.1, h2.1, h2.2.1⟩

/-! ## Ticks of the records of one drain -/

theorem drainBody_records {η : Type} (e : Env η) (base : Nat) (st : SensorRead.DrainState η) :
    recordsOf (SensorRead.drainBody e base st).1.w.trace =
      recordsOf st.w.trace ++
        (if (Lsm6dso32.ReadFifoSample e st.w).2.2.tag = 2 then
          [(SensorRead.derivedTick base st.sample_count, RecordType.IMU, 0,
            Payload.imu ⟨(Lsm6dso32.ReadFifoSample e st.w).2.2.xyz,
              (st.t.m_imu_data 0).gyro⟩)]
         else []) := by
  by_cases h2 : (Lsm6dso32.ReadFifoSample e st.w).2.2.tag = 2
  · rw [drainBody_accel e base st h2, if_pos h2]
    simp only [call_records, ReadFifoSample_records]
    rfl
  · rw [if_neg h2, List.append_nil]
    by_cases h1 : (Lsm6dso32.ReadFifoSample e st.w).2.2.tag = 1
    · rw [drainBody_gyro e base st h1]
      exact ReadFifoSample_records e st.w
    · rw [drainBody_other e base st h1 h2]
      exact ReadFifoSample_records e st.w

theorem drainLoop_ticks {η : Type} (e : Env η) (base : Nat) (hbase : base < 4294967296) :
    ∀ (fuel : Nat) (st : SensorRead.DrainState η),
      st.sample_count ≤ 1023 → st.sample_count * 9615 / 1000 ≤ base →
      ∃ new : List (Nat × RecordType × Nat × Payload),
        recordsOf (SensorRead.drainLoop e base fuel st).w.trace =
          recordsOf st.w.trace ++ new ∧
        List.Pairwise (fun a b => a.1 + 9 ≤ b.1) new ∧
        ∀ r ∈ new, base ≤ r.1 + st.sample_count * 9615 / 1000 ∧ r.1 + 9 ≤ base := by
  intro fuel
  induction fuel with
  | zero =>
    intro st _ _
    exact ⟨[], by simp [SensorRead.drainLoop], List.Pairwise.nil, by simp⟩
  | succ k ih =>
    intro st hn hq
    by_cases hpos : st.sample_count > 0
    · obtain ⟨b1, b2⟩ := drainBody_continue e base st
      have hdec : (SensorRead.drainBody e base st).1.sample_count = st.sample_count - 1 := by
        rw [b2]; exact Nat.mod_eq_of_lt (by omega)
      obtain ⟨new, r1, r2, r3⟩ := ih (SensorRead.drainBody e base st).1
        (by rw [hdec]; omega) (by rw [hdec]; omega)
      have hrec := drainBody_records e base st
      have htick : SensorRead.derivedTick base st.sample_count =
          base - st.sample_count * 9615 / 1000 := by
        rw [derivedTick_eq base st.sample_count hn]
        omega
      simp only [SensorRead.drainLoop, if_pos hpos, b1, if_true]
      by_cases h2 : (Lsm6dso32.ReadFifoSample e st.w).2.2.tag = 2
      · rw [if_pos h2] at hrec
        refine ⟨(SensorRead.derivedTick base st.sample_count, RecordType.IMU, 0,
            Payload.imu ⟨(Lsm6dso32.ReadFifoSample e st.w).2.2.xyz,
              (st.t.m_imu_data 0).gyro⟩) :: new, ?_, ?_, ?_⟩
        · rw [r1, hrec, List.append_assoc]
          rfl
        · refine List.Pairwise.cons ?_ r2
          intro r hr
          have h := (r3 r hr).1
          rw [hdec] at h
          show SensorRead.derivedTick base st.sample_count + 9 ≤ r.1
          rw [htick]
          omega
        · intro r hr
          rcases List.mem_cons.mp hr with h | h
          · rw [h]
            show base ≤ SensorRead.derivedTick base st.sample_count + _ ∧
              SensorRead.derivedTick base st.sample_count + 9 ≤ base
            rw [htick]
            omega
          · have h' := r3 r h
            rw [hdec] at h'
            omega
      · rw [if_neg h2, List.append_nil] at hrec
        refine ⟨new, ?_, r2, ?_⟩
        · rw [r1, hrec]
        · intro r hr
          have h' := r3 r hr
          rw [hdec] at h'
          omega
    · simp only [SensorRead.drainLoop, if_neg hpos]
      exact ⟨[], by simp, List.Pairwise.nil, by simp⟩

theorem IsFifoOverrun_records {η : Type} (e : Env η) (w : World η) :
    recordsOf (Lsm6dso32.IsFifoOverrun e w).1.trace = recordsOf w.trace := by
  simp only [Lsm6dso32.IsFifoOverrun, ReadRegister_trace, recordsOf_append]
  simp [recordsOf]

theorem GetFifoSampleCount_records {η : Type} (e : Env η) (w : World η) :
    recordsOf (Lsm6dso32.GetFifoSampleCount e w).1.trace = recordsOf w.trace := by
  simp only [Lsm6dso32.GetFifoSampleCount, ReadRegister_trace, recordsOf_append]
  simp [recordsOf]

/-- C19: within one call of `ReadImuFifo` with FIFO mode active, a 32-bit base tick, a
reported count `n ≤ 1023` and `base_tick ≥ floor(n * 9615 / 1000)`, the derived ticks of
the emitted records, in emission order, are such that each later one exceeds each
earlier one by at least 9 ticks (so they are strictly increasing), and every one of
them is at most `base_tick - 9`. -/
theorem ReadImuFifo_ticks_spaced {η : Type} (e : Env η) (base_tick : Nat) (w : World η)
    (t : SensorRead)
    (hen : t.m_fifo_enabled = true) (himu : t.m_imu = true)
    (hbase : base_tick < 4294967296)
    (hn : SensorRead.reportedCount e w ≤ 1023)
    (hq : SensorRead.reportedCount e w * 9615 / 1000 ≤ base_tick) :
    ∃ new : List (Nat × RecordType × Nat × Payload),
      recordsOf (SensorRead.ReadImuFifo e base_tick (w, t)).1.trace =
        recordsOf w.trace ++ new ∧
      List.Pairwise (fun a b => a + 9 ≤ b) (new.map fun r => r.1) ∧
      List.Pairwise (fun a b => a < b) (new.map fun r => r.1) ∧
      ∀ tick ∈ new.map (fun r => r.1), tick + 9 ≤ base_tick ∧ tick ≤ base_tick - 9 := by
  obtain ⟨new, r1, r2, r3⟩ := drainLoop_ticks e base_tick hbase
    (SensorRead.reportedCount e w)
    { w := (Lsm6dso32.GetFifoSampleCount e
        (if (Lsm6dso32.IsFifoOverrun e w).2 then
          (Lsm6dso32.IsFifoOverrun e w).1.call e (Event.log_error LogMsg.fifoOverrun)
         else (Lsm6dso32.IsFifoOverrun e w).1)).1
      t := t
      sample_count := SensorRead.reportedCount e w
      accel_sample_idx := 0, gyro_sample_idx := 0 } hn hq
  have hpair : List.Pairwise (fun a b => a + 9 ≤ b) (new.map fun r => r.1) := by
    rw [List.pairwise_map]
    exact r2
  refine ⟨new, ?_, hpair, hpair.imp (fun h => by omega), ?_⟩
  · simp only [SensorRead.ReadImuFifo, hen, himu, Bool.not_true, Bool.or_self,
      Bool.false_eq_true, if_false]
    have hrc : SensorRead.reportedCount e w = (Lsm6dso32.GetFifoSampleCount e
        (if (Lsm6dso32.IsFifoOverrun e w).2 then
          (Lsm6dso32.IsFifoOverrun e w).1.call e (Event.log_error LogMsg.fifoOverrun)
         else (Lsm6dso32.IsFifoOverrun e w).1)).2 := rfl
    rw [← hrc, r1, GetFifoSampleCount_records]
    cases (Lsm6dso32.IsFifoOverrun e w).2
    · simp only [Bool.false_eq_true, if_false, IsFifoOverrun_records]
    · simp only [if_true, call_records, IsFifoOverrun_records]
      simp [recordsOf]
  · intro tick htick
    obtain ⟨r, hr, rfl⟩ := List.mem_map.mp htick
    have h := (r3 r hr).2
    omega

/-- Witness for C19: three accelerometer-tagged words drained at base tick 1000 give
the ticks 972, 981, 991. -/
theorem ReadImuFifo_ticks_spaced_witness :
    ∃ new : List (Nat × RecordType × Nat × Payload),
      recordsOf (SensorRead.ReadImuFifo scripted 1000
        (World.start (Script.ofRx (fifoRx 0
          [[0x10, 1, 0, 2, 0, 3, 0], [0x10, 4, 0, 5, 0, 6, 0], [0x10, 7, 0, 8, 0, 9, 0]])),
         { SensorRead.new true with m_fifo_enabled := true })).1.trace = [] ++ new ∧
      (new.map fun r => r.1) = [972, 981, 991] ∧
      List.Pairwise (fun a b => a + 9 ≤ b) (new.map fun r => r.1) :=
  (ReadImuFifo_ticks_spaced scripted 1000
    (World.start (Script.ofRx (fifoRx 0
      [[0x10, 1, 0, 2, 0, 3, 0], [0x10, 4, 0, 5, 0, 6, 0], [0x10, 7, 0, 8, 0, 9, 0]])))
    { SensorRead.new true with m_fifo_enabled := true }
    rfl rfl (by decide) (by decide) (by decide)).elim
    fun new h => ⟨new, h.1, by
      have h1 := h.1
      have hrec : recordsOf (SensorRead.ReadImuFifo scripted 1000
        (World.start (Script.ofRx (fifoRx 0
          [[0x10, 1, 0, 2, 0, 3, 0], [0x10, 4, 0, 5, 0, 6, 0], [0x10, 7, 0, 8, 0, 9, 0]])),
         { SensorRead.new true with m_fifo_enabled := true })).1.trace =
        [(972, RecordType.IMU, 0, Payload.imu ⟨⟨1, 2, 3⟩, ⟨0, 0, 0⟩⟩),
         (981, RecordType.IMU, 0, Payload.imu ⟨⟨4, 5, 6⟩, ⟨0, 0, 0⟩⟩),
         (991, RecordType.IMU, 0, Payload.imu ⟨⟨7, 8, 9⟩, ⟨0, 0, 0⟩⟩)] := by decide
      rw [hrec] at h1
      have hnew : new = _ := (List.nil_append new ▸ h1).symm
      rw [hnew]
      rfl, h.2.1⟩

/-! ## Register writes of the FIFO configuration -/

theorem ConfigureFifo_bytes (watermark : Nat) (h : watermark ≤ 65535) :
    u8 (Lsm6dso32.clampWatermark (u16 watermark) &&& 0xFF) = effectiveWatermark watermark % 256 ∧
    u8 ((Lsm6dso32.clampWatermark (u16 watermark) >>> 8) &&& 0x01) =
      effectiveWatermark watermark / 256 := by
  obtain ⟨h1, h2⟩ := effectiveWatermark_range watermark
  have hu : u16 watermark = watermark := Nat.mod_eq_of_lt (by omega)
  rw [hu, clampWatermark_eq, and_255, shr_8, and_1]
  unfold u8
  constructor <;> omega

/-- C16: for every `uint16_t` watermark, `ConfigureFifo` performs exactly four one-byte
register writes, in this order: 0x07 receives the low byte of the effective watermark,
0x08 its bit 8, 0x09 receives 0x44 (the 104 Hz batch-rate code 0x04 in both nibbles),
0x0A receives 0x06 (continuous mode), the mode byte being written last.  `DisableFifo`
performs the single write of 0x00 (bypass) to 0x0A. -/
theorem ConfigureFifo_four_writes {η : Type} (e : Env η) (w : World η) (watermark : Nat)
    (h : watermark ≤ 65535) :
    transfersOf (Lsm6dso32.ConfigureFifo e watermark w).1.trace =
      transfersOf w.trace ++
        [[0x07, effectiveWatermark watermark % 256],
         [0x08, effectiveWatermark watermark / 256 % 2],
         [0x09, 0x44], [0x0A, 0x06]] ∧
    writesOf (Lsm6dso32.ConfigureFifo e watermark w).1.trace =
      writesOf w.trace ++
        [(0x07, [effectiveWatermark watermark % 256]),
         (0x08, [effectiveWatermark watermark / 256 % 2]),
         (0x09, [0x44]), (0x0A, [0x06])] ∧
    (0x44 = (FifoBdr.kBdr104Hz <<< 4) ||| FifoBdr.kBdr104Hz ∧
      0x44 / 16 = FifoBdr.kBdr104Hz ∧ 0x44 % 16 = FifoBdr.kBdr104Hz ∧
      FifoBdr.kBdr104Hz = 0x04 ∧ FifoMode.kContinuous = 0x06) ∧
    transfersOf (Lsm6dso32.DisableFifo e w).trace = transfersOf w.trace ++ [[0x0A, 0x00]] ∧
    writesOf (Lsm6dso32.DisableFifo e w).trace = writesOf w.trace ++ [(0x0A, [0x00])] ∧
    FifoMode.kBypass = 0x00 := by
  obtain ⟨b1, b2⟩ := ConfigureFifo_bytes watermark h
  obtain ⟨h1, h2⟩ := effectiveWatermark_range watermark
  have hbit : effectiveWatermark watermark / 256 % 2 = effectiveWatermark watermark / 256 := by
    omega
  have htr : transfersOf (Lsm6dso32.ConfigureFifo e watermark w).1.trace =
      transfersOf w.trace ++
        [[0x07, effectiveWatermark watermark % 256],
         [0x08, effectiveWatermark watermark / 256 % 2],
         [0x09, 0x44], [0x0A, 0x06]] := by
    rw [ConfigureFifo_trace, transfersOf_append, b1, b2, hbit]
    rfl
  have hdis : (Lsm6dso32.DisableFifo e w).trace =
      w.trace ++ [Event.SetLow, Event.Transfer [0x0A, 0x00], Event.SetHigh] := by
    simp only [Lsm6dso32.DisableFifo, WriteRegister_trace]
    rfl
  refine ⟨htr, ?_, by decide, ?_, ?_, rfl⟩
  · unfold writesOf
    rw [htr, List.filterMap_append]
    rfl
  · rw [hdis, transfersOf_append]
    rfl
  · rw [hdis, writesOf_append]
    rfl

/-- Witness for C16: the requested watermark 300 gives the writes 0x07 <- 0x2C,
0x08 <- 0x01, 0x09 <- 0x44, 0x0A <- 0x06. -/
theorem ConfigureFifo_four_writes_witness :
    writesOf (Lsm6dso32.ConfigureFifo scripted 300 (World.start (Script.ofRx []))).1.trace =
      [(0x07, [0x2C]), (0x08, [0x01]), (0x09, [0x44]), (0x0A, [0x06])] ∧
    writesOf (Lsm6dso32.DisableFifo scripted (World.start (Script.ofRx []))).trace =
      [(0x0A, [0x00])] :=
  have h := ConfigureFifo_four_writes scripted (World.start (Script.ofRx [])) 300 (by decide)
  ⟨h.2.1.trans (by decide), h.2.2.2.2.1⟩

theorem write_one (regs : Nat → Nat) (reg b : Nat) :
    RegFile.write regs reg [b] = SensorRead.setAt regs reg b := rfl

theorem ConfigureFifo_regDevice (watermark : Nat) (w : World RegFile) :
    (Lsm6dso32.ConfigureFifo regDevice watermark w).1.env =
      { regs := SensorRead.setAt (SensorRead.setAt (SensorRead.setAt (SensorRead.setAt
          w.env.regs 0x07 (u8 (Lsm6dso32.clampWatermark (u16 watermark) &&& 0xFF)))
          0x08 (u8 ((Lsm6dso32.clampWatermark (u16 watermark) >>> 8) &&& 0x01)))
          0x09 0x44) 0x0A 0x06
        pointer := w.env.pointer } := by
  simp only [Lsm6dso32.ConfigureFifo, Lsm6dso32.WriteRegister, World.call, regDevice,
    Register.kFifoCtrl1, Register.kFifoCtrl2, Register.kFifoCtrl3, Register.kFifoCtrl4,
    List.take, List.singleton_append]
  rfl

/-- C15: `ConfigureFifo` is idempotent.  For every watermark, on every environment the
second of two successive calls returns the same value and makes exactly the calls of
the first, with the same bytes; and on the register-file device, from every register
contents, two successive calls leave the device (registers 0x07, 0x08, 0x09, 0x0A and
all others) exactly as one call leaves it. -/
theorem ConfigureFifo_idempotent {η : Type} (e : Env η) (w : World η)
    (v : World RegFile) (watermark : Nat) :
    (Lsm6dso32.ConfigureFifo e watermark (Lsm6dso32.ConfigureFifo e watermark w).1).2 =
      (Lsm6dso32.ConfigureFifo e watermark w).2 ∧
    (∃ new : List Event,
      (Lsm6dso32.ConfigureFifo e watermark w).1.trace = w.trace ++ new ∧
      (Lsm6dso32.ConfigureFifo e watermark (Lsm6dso32.ConfigureFifo e watermark w).1).1.trace =
        (Lsm6dso32.ConfigureFifo e watermark w).1.trace ++ new) ∧
    (Lsm6dso32.ConfigureFifo regDevice watermark
        (Lsm6dso32.ConfigureFifo regDevice watermark v).1).1.env =
      (Lsm6dso32.ConfigureFifo regDevice watermark v).1.env ∧
    (Lsm6dso32.ConfigureFifo regDevice watermark
        (Lsm6dso32.ConfigureFifo regDevice watermark v).1).2 =
      (Lsm6dso32.ConfigureFifo regDevice watermark v).2 ∧
    ((Lsm6dso32.ConfigureFifo regDevice watermark v).1.env.regs 0x09 = 0x44 ∧
      (Lsm6dso32.ConfigureFifo regDevice watermark v).1.env.regs 0x0A = 0x06 ∧
      ∀ a : Nat, a ≠ 0x07 → a ≠ 0x08 → a ≠ 0x09 → a ≠ 0x0A →
        (Lsm6dso32.ConfigureFifo regDevice watermark v).1.env.regs a = v.env.regs a) := by
  refine ⟨rfl, ⟨_, ConfigureFifo_trace e watermark w, ConfigureFifo_trace e watermark _⟩,
    ?_, rfl, ?_, ?_, ?_⟩
  · rw [ConfigureFifo_regDevice, ConfigureFifo_regDevice]
    congr 1
    funext a
    simp only [SensorRead.setAt]
    by_cases h10 : a = 0x0A
    · simp [h10]
    · by_cases h9 : a = 0x09
      · simp [h9]
      · by_cases h8 : a = 0x08
        · simp [h8]
        · by_cases h7 : a = 0x07
          · simp [h7]
          · simp [h10, h9, h8, h7]
  · rw [ConfigureFifo_regDevice]
    simp [SensorRead.setAt]
  · rw [ConfigureFifo_regDevice]
    simp [SensorRead.setAt]
  · intro a h7 h8 h9 h10
    rw [ConfigureFifo_regDevice]
    simp [SensorRead.setAt, h7, h8, h9, h10]

/-- Witness for C15: on a register file holding zeros, two calls with watermark 300
leave 0x2C, 0x01, 0x44, 0x06 in registers 0x07 to 0x0A, as one call does, and register
0x10 untouched. -/
theorem ConfigureFifo_idempotent_witness :
    (Lsm6dso32.ConfigureFifo regDevice 300
        (Lsm6dso32.ConfigureFifo regDevice 300
          (World.start ⟨fun _ => 0, 0⟩)).1).1.env.regs 0x07 = 0x2C ∧
    (Lsm6dso32.ConfigureFifo regDevice 300
        (Lsm6dso32.ConfigureFifo regDevice 300
          (World.start ⟨fun _ => 0, 0⟩)).1).1.env.regs 0x08 = 0x01 ∧
    (Lsm6dso32.ConfigureFifo regDevice 300 (World.start ⟨fun _ => 0, 0⟩)).1.env.regs 0x09
      = 0x44 ∧
    (Lsm6dso32.ConfigureFifo regDevice 300 (World.start ⟨fun _ => 0, 0⟩)).1.env.regs 0x10
      = 0 :=
  have h := ConfigureFifo_idempotent scripted (World.start (Script.ofRx []))
    (World.start ⟨fun _ => 0, 0⟩) 300
  ⟨(congrArg (fun d => d.regs 0x07) h.2.2.1).trans (by decide),
   (congrArg (fun d => d.regs 0x08) h.2.2.1).trans (by decide),
   h.2.2.2.2.1,
   h.2.2.2.2.2.2 0x10 (by decide) (by decide) (by decide) (by decide)⟩

/-! ## Chip-select framing -/

theorem Init_trace_cases {η : Type} (e : Env η) (w : World η) :
    (Lsm6dso32.Init e w).1.trace =
      w.trace ++ [Event.SetLow, Event.Transfer [0x8F], Event.Receive 1, Event.SetHigh] ∨
    (Lsm6dso32.Init e w).1.trace =
      w.trace ++ [Event.SetLow, Event.Transfer [0x8F], Event.Receive 1, Event.SetHigh,
        Event.SetLow, Event.Transfer [0x10, 0x44], Event.SetHigh,
        Event.SetLow, Event.Transfer [0x11, 0x4C], Event.SetHigh] := by
  by_cases h : (Lsm6dso32.ReadRegister e Register.kWhoAmI [0] 1 w).2.getD 0 0 ≠ u8 0x6C
  · left
    simp only [Lsm6dso32.Init, if_pos h, ReadRegister_trace]
    rfl
  · right
    simp only [Lsm6dso32.Init, if_neg h, WriteRegister_trace, ReadRegister_trace,
      List.append_assoc]
    rfl

/-- C14: chip-select framing holds for every public operation of the driver, on every
environment (so whatever the transport returns).  The constructor leaves chip-select
high; from there the calls made by each of `Init`, `ConfigureFifo`, `DisableFifo`,
`GetFifoSampleCount`, `IsFifoOverrun`, `ReadFifoSample`, `ReadGyroRaw` and
`ReadAccelRaw` are windows of the form select low, the transfers of one register
access, select high; no transfer happens while chip-select is high, and chip-select
is high when the operation returns. -/
theorem driver_chip_select_framing {η : Type} (e : Env η) (w : World η) (watermark : Nat)
    (gyro acc : Vec3) :
    ((Lsm6dso32.new e w).trace = w.trace ++ [Event.SetHigh] ∧
      csLevel true [Event.SetHigh] = true ∧ csLevel false [Event.SetHigh] = true) ∧
    framedFrom w.trace (Lsm6dso32.Init e w).1.trace ∧
    framedFrom w.trace (Lsm6dso32.ConfigureFifo e watermark w).1.trace ∧
    framedFrom w.trace (Lsm6dso32.DisableFifo e w).trace ∧
    framedFrom w.trace (Lsm6dso32.GetFifoSampleCount e w).1.trace ∧
    framedFrom w.trace (Lsm6dso32.IsFifoOverrun e w).1.trace ∧
    framedFrom w.trace (Lsm6dso32.ReadFifoSample e w).1.trace ∧
    framedFrom w.trace (Lsm6dso32.ReadGyroRaw e gyro w).1.trace ∧
    framedFrom w.trace (Lsm6dso32.ReadAccelRaw e acc w).1.trace := by
  refine ⟨⟨rfl, rfl, rfl⟩, ?_, ?_, ?_, ?_, ?_, ?_, ?_, ?_⟩
  · rcases Init_trace_cases e w with h | h
    · exact ⟨_, h, rfl, rfl, rfl⟩
    · exact ⟨_, h, rfl, rfl, rfl⟩
  · exact ⟨_, ConfigureFifo_trace e watermark w, rfl, rfl, rfl⟩
  · exact ⟨[Event.SetLow, Event.Transfer [0x0A, 0x00], Event.SetHigh],
      by simp only [Lsm6dso32.DisableFifo, WriteRegister_trace]; rfl, rfl, rfl, rfl⟩
  · exact ⟨[Event.SetLow, Event.Transfer [0xBA], Event.Receive 2, Event.SetHigh],
      by simp only [Lsm6dso32.GetFifoSampleCount, ReadRegister_trace]; rfl, rfl, rfl, rfl⟩
  · exact ⟨[Event.SetLow, Event.Transfer [0xBB], Event.Receive 1, Event.SetHigh],
      by simp only [Lsm6dso32.IsFifoOverrun, ReadRegister_trace]; rfl, rfl, rfl, rfl⟩
  · exact ⟨_, ReadFifoSample_trace e w, rfl, rfl, rfl⟩
  · exact ⟨_, ReadGyroRaw_trace e gyro w, rfl, rfl, rfl⟩
  · exact ⟨_, ReadAccelRaw_trace e acc w, rfl, rfl, rfl⟩

/-! ## Transport status -/

/-- C10, the code at a failing transport: on a transport whose every `Transfer` fails,
`ConfigureFifo` returns `true`, and on a transport whose `Transfer` and `Receive` fail,
`ReadFifoSample` returns `true`, although the source documents their results as
`true on success` and `true if sample was read successfully` and their callers branch
on `false`; `Init` returns the same `false` for a failed transport as for a device
answering with the identity 0x00. -/
theorem transport_failure_not_reported :
    scripted.Transfer
      ((World.start { Script.ofRx [] with tx := [false, false, false, false] }).call scripted
        Event.SetLow).env [0x07, 0x01] = false ∧
    (Lsm6dso32.ConfigureFifo scripted 1
      (World.start { Script.ofRx [] with tx := [false, false, false, false] })).2 = true ∧
    (scripted.Receive
      (((World.start { Script.ofRx [] with tx := [false] }).call scripted Event.SetLow).call
        scripted (Event.Transfer [0xF8])).env 7).2 = false ∧
    (Lsm6dso32.ReadFifoSample scripted
      (World.start { Script.ofRx [] with tx := [false] })).2.1 = true ∧
    (Lsm6dso32.Init scripted (World.start { Script.ofRx [] with tx := [false] })).2 =
      (Lsm6dso32.Init scripted (World.start (Script.ofRx [([0x00], true)]))).2 := by
  decide

/-- No driver operation looks at the status the transport returns: replacing the
statuses of `Transfer` and `Receive` by arbitrary ones changes neither the result nor
the effects of `ConfigureFifo`, `ReadFifoSample` and `Init`.  `ConfigureFifo` and
`ReadFifoSample` return `true` on every transport, and `Init` returns `false` exactly
when the byte left in its identity buffer differs from 0x6C, whatever the transport
reported. -/
theorem driver_ignores_transport_status {η : Type} (e : Env η)
    (ts : η → List Nat → Bool) (rs : η → Nat → Bool) (w : World η) (watermark : Nat) :
    (Lsm6dso32.ConfigureFifo (e.withStatus ts rs) watermark w).2 =
      (Lsm6dso32.ConfigureFifo e watermark w).2 ∧
    (Lsm6dso32.ConfigureFifo (e.withStatus ts rs) watermark w).1.trace =
      (Lsm6dso32.ConfigureFifo e watermark w).1.trace ∧
    (Lsm6dso32.ConfigureFifo (e.withStatus ts rs) watermark w).1.env =
      (Lsm6dso32.ConfigureFifo e watermark w).1.env ∧
    (Lsm6dso32.ConfigureFifo e watermark w).2 = true ∧
    (Lsm6dso32.ReadFifoSample (e.withStatus ts rs) w).2 =
      (Lsm6dso32.ReadFifoSample e w).2 ∧
    (Lsm6dso32.ReadFifoSample (e.withStatus ts rs) w).1.trace =
      (Lsm6dso32.ReadFifoSample e w).1.trace ∧
    (Lsm6dso32.ReadFifoSample (e.withStatus ts rs) w).1.env =
      (Lsm6dso32.ReadFifoSample e w).1.env ∧
    (Lsm6dso32.ReadFifoSample e w).2.1 = true ∧
    (Lsm6dso32.Init (e.withStatus ts rs) w).2 = (Lsm6dso32.Init e w).2 ∧
    (Lsm6dso32.Init (e.withStatus ts rs) w).1.trace = (Lsm6dso32.Init e w).1.trace ∧
    (Lsm6dso32.Init (e.withStatus ts rs) w).1.env = (Lsm6dso32.Init e w).1.env ∧
    ((Lsm6dso32.Init e w).2 = false ↔
      (Lsm6dso32.ReadRegister e Register.kWhoAmI [0] 1 w).2.getD 0 0 ≠ 0x6C) := by
  refine ⟨rfl, rfl, rfl, rfl, rfl, rfl, rfl, rfl, rfl, rfl, rfl, ?_⟩
  by_cases h : (Lsm6dso32.ReadRegister e Register.kWhoAmI [0] 1 w).2.getD 0 0 = 0x6C
  · have hn : ¬ ((Lsm6dso32.ReadRegister e Register.kWhoAmI [0] 1 w).2.getD 0 0 ≠ u8 0x6C) :=
      fun hc => hc h
    simp only [Lsm6dso32.Init, if_neg hn]
    exact ⟨fun hc => absurd hc (by decide), fun hc => absurd h hc⟩
  · have hn : (Lsm6dso32.ReadRegister e Register.kWhoAmI [0] 1 w).2.getD 0 0 ≠ u8 0x6C := h
    simp only [Lsm6dso32.Init, if_pos hn]
    exact ⟨fun _ => h, fun _ => trivial⟩

/-! ## The fallback loop over the IMU instances -/

theorem replay_append {η : Type} (e : Env η) (env : η) (a b : List Event) :
    replay e env (a ++ b) = replay e (replay e env a) b := by
  simp [replay, List.foldl_append]

theorem call_env {η : Type} (e : Env η) (w : World η) (ev : Event) :
    (w.call e ev).env = replay e w.env [ev] := rfl

theorem vec3OfBytes_storeBytes (prev : Vec3) (got : List Nat) :
    Lsm6dso32.vec3OfBytes (storeBytes (Lsm6dso32.bytesOfVec3 prev) 6 got) =
      rawTriple prev got := by
  have hb : ∀ n : Nat, u8 n < 256 := fun n => Nat.mod_lt _ (by decide)
  have hs : storeBytes (Lsm6dso32.bytesOfVec3 prev) 6 got =
      [u8 (got.getD 0 ((Lsm6dso32.bytesOfVec3 prev).getD 0 0)),
       u8 (got.getD 1 ((Lsm6dso32.bytesOfVec3 prev).getD 1 0)),
       u8 (got.getD 2 ((Lsm6dso32.bytesOfVec3 prev).getD 2 0)),
       u8 (got.getD 3 ((Lsm6dso32.bytesOfVec3 prev).getD 3 0)),
       u8 (got.getD 4 ((Lsm6dso32.bytesOfVec3 prev).getD 4 0)),
       u8 (got.getD 5 ((Lsm6dso32.bytesOfVec3 prev).getD 5 0))] := rfl
  rw [hs]
  simp only [Lsm6dso32.vec3OfBytes, rawTriple, List.getD_cons_zero, List.getD_cons_succ,
    reinterpretInt16_eq _ _ (hb _) (hb _)]
  rfl

theorem ReadGyroRaw_value {η : Type} (e : Env η) (d : Vec3) (w : World η) :
    (Lsm6dso32.ReadGyroRaw e d w).2 =
      rawTriple d
        (e.Receive (replay e w.env [Event.SetLow, Event.Transfer [0xA2]]) 6).1 ∧
    (Lsm6dso32.ReadGyroRaw e d w).1.env =
      replay e w.env [Event.SetLow, Event.Transfer [0xA2], Event.Receive 6, Event.SetHigh] :=
  ⟨vec3OfBytes_storeBytes d _, rfl⟩

theorem ReadAccelRaw_value {η : Type} (e : Env η) (d : Vec3) (w : World η) :
    (Lsm6dso32.ReadAccelRaw e d w).2 =
      rawTriple d
        (e.Receive (replay e w.env [Event.SetLow, Event.Transfer [0xA8]]) 6).1 ∧
    (Lsm6dso32.ReadAccelRaw e d w).1.env =
      replay e w.env [Event.SetLow, Event.Transfer [0xA8], Event.Receive 6, Event.SetHigh] :=
  ⟨vec3OfBytes_storeBytes d _, rfl⟩

theorem imuFallbackBody_none_iff {η : Type} (e : Env η) (tick : Nat)
    (s : World η × SensorRead) (i : Nat) :
    SensorRead.imuFallbackBody e tick s i = none ↔
      (e.simulation_started s.1.env = false ∧ e.imu_initialized s.1.env i = true ∧
        s.2.m_imu = false) := by
  cases hsim : e.simulation_started s.1.env <;>
    cases hinit : e.imu_initialized s.1.env i <;>
    cases himu : s.2.m_imu <;>
    simp [SensorRead.imuFallbackBody, hsim, hinit, himu]

theorem imuFallbackBody_some {η : Type} (e : Env η) (tick : Nat)
    (s r : World η × SensorRead) (i : Nat)
    (h : SensorRead.imuFallbackBody e tick s i = some r) :
    r.1.trace = s.1.trace ++ instanceEvents e tick (s.2.m_imu_data i) i s.1.env ∧
    r.1.env = replay e s.1.env (instanceEvents e tick (s.2.m_imu_data i) i s.1.env) ∧
    s.2.sameBaroSide r.2 ∧
    (∀ j : Nat, j ≠ i → r.2.m_imu_data j = s.2.m_imu_data j) ∧
    recordsOf (instanceEvents e tick (s.2.m_imu_data i) i s.1.env) =
      [(tick, RecordType.IMU, i, Payload.imu (r.2.m_imu_data i))] := by
  cases hsim : e.simulation_started s.1.env
  · cases hinit : e.imu_initialized s.1.env i
    · simp only [SensorRead.imuFallbackBody, hsim, hinit, Bool.false_eq_true, if_false,
        Option.map_some', Option.some.injEq] at h
      subst h
      refine ⟨?_, ?_, sameBaroSide_refl _, fun _ _ => rfl, ?_⟩
      · simp [instanceEvents, hsim, hinit, World.call]
      · simp [instanceEvents, hsim, hinit, World.call, replay]
      · simp [instanceEvents, hsim, hinit, recordsOf]
    · cases himu : s.2.m_imu
      · simp [SensorRead.imuFallbackBody, hsim, hinit, himu] at h
      · simp only [SensorRead.imuFallbackBody, hsim, hinit, himu, Bool.false_eq_true,
          if_false, if_true, Option.map_some', Option.some.injEq] at h
        subst h
        have hg := ReadGyroRaw_value e (s.2.m_imu_data i).gyro s.1
        have ha := ReadAccelRaw_value e (s.2.m_imu_data i).acc
          (Lsm6dso32.ReadGyroRaw e (s.2.m_imu_data i).gyro s.1).1
        rw [hg.2] at ha
        refine ⟨?_, ?_, ⟨himu.symm, rfl, rfl, rfl⟩, ?_, ?_⟩
        · simp only [instanceEvents, hsim, hinit, Bool.false_eq_true, if_false, if_true,
            World.call, ReadAccelRaw_trace, ReadGyroRaw_trace, SensorRead.setAt,
            List.append_assoc, hg.1, ha.1]
          rfl
        · simp only [instanceEvents, hsim, hinit, Bool.false_eq_true, if_false, if_true,
            SensorRead.setAt, World.call, hg.1, ha.1, ha.2]
          rfl
        · intro j hj
          simp [SensorRead.setAt, hj]
        · simp only [instanceEvents, hsim, hinit, Bool.false_eq_true, if_false, if_true,
            SensorRead.setAt, hg.1, ha.1, recordsOf]
          rfl
  · simp only [SensorRead.imuFallbackBody, hsim, if_true, Option.map_some',
      Option.some.injEq] at h
    subst h
    refine ⟨?_, ?_, ⟨rfl, rfl, rfl, rfl⟩, ?_, ?_⟩
    · simp [instanceEvents, hsim, World.call, SensorRead.setAt]
    · simp [instanceEvents, hsim, World.call, replay, SensorRead.setAt]
    · intro j hj
      simp [SensorRead.setAt, hj]
    · simp [instanceEvents, hsim, recordsOf, SensorRead.setAt]

theorem imuFallbackLoop_succ {η : Type} (e : Env η) (tick n : Nat)
    (s : World η × SensorRead) :
    SensorRead.imuFallbackLoop e tick (n + 1) s =
      (SensorRead.imuFallbackLoop e tick n s).bind
        fun s' => SensorRead.imuFallbackBody e tick s' n := by
  simp [SensorRead.imuFallbackLoop, List.range_succ, List.foldl_append]

theorem imuFallbackLoop_some {η : Type} (e : Env η) (tick : Nat) (s : World η × SensorRead) :
    ∀ (num : Nat) (r : World η × SensorRead),
      SensorRead.imuFallbackLoop e tick num s = some r →
      r.1.trace = s.1.trace ++ fallbackEvents e tick s.2.m_imu_data s.1.env num ∧
      r.1.env = replay e s.1.env (fallbackEvents e tick s.2.m_imu_data s.1.env num) ∧
      s.2.sameBaroSide r.2 ∧
      (∀ j : Nat, num ≤ j → r.2.m_imu_data j = s.2.m_imu_data j) ∧
      recordsOf (fallbackEvents e tick s.2.m_imu_data s.1.env num) =
        (List.range num).map
          (fun i => (tick, RecordType.IMU, i, Payload.imu (r.2.m_imu_data i))) := by
  intro num
  induction num with
  | zero =>
    intro r h
    simp only [SensorRead.imuFallbackLoop, List.range_zero, List.foldl_nil,
      Option.some.injEq] at h
    subst h
    exact ⟨by simp [fallbackEvents], rfl, sameBaroSide_refl _, fun _ _ => rfl, rfl⟩
  | succ n ih =>
    intro r h
    rw [imuFallbackLoop_succ] at h
    obtain ⟨s', hs', hb⟩ := Option.bind_eq_some.mp h
    obtain ⟨i1, i2, i3, i4, i5⟩ := ih s' hs'
    obtain ⟨b1, b2, b3, b4, b5⟩ := imuFallbackBody_some e tick s' r n hb
    have hd : s'.2.m_imu_data n = s.2.m_imu_data n := i4 n (Nat.le_refl n)
    rw [hd, i2] at b1 b2 b5
    refine ⟨?_, ?_, sameBaroSide_trans i3 b3, ?_, ?_⟩
    · rw [b1, i1, List.append_assoc]
      rfl
    · rw [b2]
      simp only [fallbackEvents, replay_append]
    · intro j hj
      rw [b4 j (by omega), i4 j (by omega)]
    · simp only [fallbackEvents, recordsOf_append, i5, b5, List.range_succ, List.map_append,
        List.map_cons, List.map_nil]
      congr 1
      apply List.map_congr_left
      intro i hi
      have hne : i ≠ n := Nat.ne_of_lt (List.mem_range.mp hi)
      rw [b4 i hne]

theorem imuFallbackLoop_none_iff {η : Type} (e : Env η) (tick : Nat)
    (s : World η × SensorRead) :
    ∀ num : Nat,
      (SensorRead.imuFallbackLoop e tick num s = none ↔
        s.2.m_imu = false ∧
          ∃ i : Nat, i < num ∧ readsSensorAt e tick s.2.m_imu_data s.1.env i) := by
  intro num
  induction num with
  | zero =>
    constructor
    · intro h
      exact absurd h (by simp [SensorRead.imuFallbackLoop])
    · rintro ⟨_, i, hi, _⟩
      exact absurd hi (Nat.not_lt_zero i)
  | succ n ih =>
    rw [imuFallbackLoop_succ]
    cases hl : SensorRead.imuFallbackLoop e tick n s with
    | none =>
      obtain ⟨hm, i, hi, hr⟩ := ih.mp hl
      simp only [Option.none_bind, true_iff]
      exact ⟨hm, i, by omega, hr⟩
    | some s' =>
      obtain ⟨_, i2, i3, i4, _⟩ := imuFallbackLoop_some e tick s n s' hl
      have hd : s'.2.m_imu_data n = s.2.m_imu_data n := i4 n (Nat.le_refl n)
      have hnone : ¬ (s.2.m_imu = false ∧
          ∃ i : Nat, i < n ∧ readsSensorAt e tick s.2.m_imu_data s.1.env i) := by
        intro hc
        have := ih.mpr hc
        rw [hl] at this
        exact absurd this (by simp)
      simp only [Option.some_bind, imuFallbackBody_none_iff, i2, i3.1]
      constructor
      · rintro ⟨h1, h2, h3⟩
        exact ⟨h3, n, Nat.lt_succ_self n, h1, h2⟩
      · rintro ⟨hm, i, hi, hr⟩
        by_cases hin : i = n
        · subst hin
          exact ⟨hr.1, hr.2, hm⟩
        · exact absurd ⟨hm, i, by omega, hr⟩ hnone

theorem imuFallbackLoop_defined {η : Type} (e : Env η) (tick : Nat)
    (s : World η × SensorRead) (hdef : SensorRead.readsDefined e s.2) (num : Nat) :
    ∃ r, SensorRead.imuFallbackLoop e tick num s = some r := by
  cases h : SensorRead.imuFallbackLoop e tick num s with
  | some r => exact ⟨r, rfl⟩
  | none =>
    obtain ⟨hm, i, _, hr⟩ := (imuFallbackLoop_none_iff e tick s num).mp h
    rcases hdef with hd | hd
    · rw [hm] at hd
      exact absurd hd (by decide)
    · have := hd _ i hr.1
      rw [hr.2] at this
      exact absurd this (by decide)

theorem instanceEvents_imuSide {η : Type} (e : Env η) (tick : Nat) (d : imu_data_t) (i : Nat)
    (env : η) : ∀ ev ∈ instanceEvents e tick d i env, ev.isImuSide = true := by
  intro ev hev
  cases hsim : e.simulation_started env <;> cases hinit : e.imu_initialized env i <;>
    simp only [instanceEvents, hsim, hinit, Bool.false_eq_true, if_false, if_true,
      List.mem_cons, List.mem_singleton, List.not_mem_nil, or_false] at hev
  · rw [hev]; rfl
  · rcases hev with h | h | h | h | h | h | h | h | h <;> rw [h] <;> rfl
  · rw [hev]; rfl
  · rw [hev]; rfl

theorem fallbackEvents_imuSide {η : Type} (e : Env η) (tick : Nat) (data : Nat → imu_data_t)
    (env : η) : ∀ (num : Nat), ∀ ev ∈ fallbackEvents e tick data env num,
      ev.isImuSide = true := by
  intro num
  induction num with
  | zero => intro ev hev; simp [fallbackEvents] at hev
  | succ n ih =>
    intro ev hev
    simp only [fallbackEvents] at hev
    rcases List.mem_append.mp hev with h | h
    · exact ih ev h
    · exact instanceEvents_imuSide e tick _ _ _ ev h


/-! ## The readout branch of the loop of `Run` -/

theorem recordBaroLoop_env {η : Type} (e : Env η) (tick : Nat) (t : SensorRead)
    (w : World η) :
    ∀ num : Nat,
      (SensorRead.recordBaroLoop e tick num t w).env =
        replay e w.env
          ((List.range num).map
            (fun i => Event.record tick RecordType.BARO i (Payload.baro (t.m_baro_data 0)))) := by
  intro num
  induction num with
  | zero => rfl
  | succ n ih =>
    have hstep : SensorRead.recordBaroLoop e tick (n + 1) t w =
        (SensorRead.recordBaroLoop e tick n t w).call e
          (Event.record tick RecordType.BARO n (Payload.baro (t.m_baro_data 0))) := by
      simp [SensorRead.recordBaroLoop, List.range_succ, List.foldl_append]
    rw [hstep, call_env, ih, List.range_succ, List.map_append, replay_append]
    rfl

theorem simBaroLoop_frame {η : Type} (e : Env η) (w : World η) (t : SensorRead) :
    ∀ num : Nat,
      (SensorRead.simBaroLoop e w num t).m_fifo_enabled = t.m_fifo_enabled ∧
      (SensorRead.simBaroLoop e w num t).m_current_readout = t.m_current_readout ∧
      (SensorRead.simBaroLoop e w num t).m_imu = t.m_imu ∧
      (SensorRead.simBaroLoop e w num t).m_imu_data = t.m_imu_data := by
  intro num
  induction num with
  | zero => exact ⟨rfl, rfl, rfl, rfl⟩
  | succ n ih =>
    have hstep : SensorRead.simBaroLoop e w (n + 1) t =
        { SensorRead.simBaroLoop e w n t with
          m_baro_data := SensorRead.setAt (SensorRead.simBaroLoop e w n t).m_baro_data n
            { (SensorRead.simBaroLoop e w n t).m_baro_data n with
              pressure := (e.global_baro_sim w.env n).pressure } } := by
      simp [SensorRead.simBaroLoop, List.range_succ, List.foldl_append]
    rw [hstep]
    exact ih

theorem simBaroLoop_data {η : Type} (e : Env η) (w : World η) (t : SensorRead) :
    ∀ num : Nat, ∀ j : Nat, (SensorRead.simBaroLoop e w num t).m_baro_data j =
        (if j < num then
          { t.m_baro_data j with pressure := (e.global_baro_sim w.env j).pressure }
         else t.m_baro_data j) := by
  intro num
  induction num with
  | zero => intro j; simp [SensorRead.simBaroLoop]
  | succ n ih =>
    have hstep : SensorRead.simBaroLoop e w (n + 1) t =
        { SensorRead.simBaroLoop e w n t with
          m_baro_data := SensorRead.setAt (SensorRead.simBaroLoop e w n t).m_baro_data n
            { (SensorRead.simBaroLoop e w n t).m_baro_data n with
              pressure := (e.global_baro_sim w.env n).pressure } } := by
      simp [SensorRead.simBaroLoop, List.range_succ, List.foldl_append]
    rw [hstep]
    intro j
    simp only [SensorRead.setAt]
    by_cases hj : j = n
    · subst hj
      have h1 := ih j
      simp only [Nat.lt_irrefl, if_false] at h1
      simp [h1]
    · have h1 := ih j
      simp only [hj, if_false, h1]
      by_cases hlt : j < n
      · have : j < n + 1 := by omega
        simp [hlt, this]
      · have : ¬ j < n + 1 := by omega
        simp [hlt, this]

theorem fetchBaro_frame {η : Type} (c : Config) (e : Env η) (s : World η × SensorRead) :
    (SensorRead.fetchBaro c e s).1.trace =
      s.1.trace ++ (if e.simulation_started s.1.env then [] else [Event.GetMeasurement]) ∧
    (SensorRead.fetchBaro c e s).1.env =
      replay e s.1.env
        (if e.simulation_started s.1.env then [] else [Event.GetMeasurement]) ∧
    (SensorRead.fetchBaro c e s).2.m_fifo_enabled = s.2.m_fifo_enabled ∧
    (SensorRead.fetchBaro c e s).2.m_current_readout = s.2.m_current_readout ∧
    (SensorRead.fetchBaro c e s).2.m_imu = s.2.m_imu ∧
    (SensorRead.fetchBaro c e s).2.m_imu_data = s.2.m_imu_data := by
  cases hsim : e.simulation_started s.1.env
  · simp only [SensorRead.fetchBaro, hsim, Bool.false_eq_true, if_false]
    exact ⟨rfl, rfl, trivial, trivial, trivial, trivial⟩
  · obtain ⟨g1, g2, g3, g4⟩ := simBaroLoop_frame e s.1 s.2 c.NUM_BARO
    simp only [SensorRead.fetchBaro, hsim, if_true]
    exact ⟨by simp, rfl, g1, g2, g3, g4⟩

theorem saveReadout_some {η : Type} (c : Config) (e : Env η) (tick : Nat)
    (s r : World η × SensorRead) (h : SensorRead.saveReadout c e tick s = some r) :
    (∃ f : List Event,
      r.1.trace =
        s.1.trace ++ (if e.simulation_started s.1.env then [] else [Event.GetMeasurement]) ++
          (List.range c.NUM_BARO).map (fun i => Event.record tick RecordType.BARO i
            (Payload.baro (r.2.m_baro_data 0))) ++ f ∧
      (∀ ev ∈ f, ev.isImuSide = true) ∧
      (s.2.m_fifo_enabled = false →
        f = fallbackEvents e tick s.2.m_imu_data
            (replay e s.1.env
              ((if e.simulation_started s.1.env then [] else [Event.GetMeasurement]) ++
                (List.range c.NUM_BARO).map (fun i => Event.record tick RecordType.BARO i
                  (Payload.baro (r.2.m_baro_data 0))))) c.NUM_IMU ∧
        recordsOf f = (List.range c.NUM_IMU).map
          (fun i => (tick, RecordType.IMU, i, Payload.imu (r.2.m_imu_data i))))) ∧
    r.2.m_baro_data = (SensorRead.fetchBaro c e s).2.m_baro_data ∧
    r.2.m_current_readout = s.2.m_current_readout ∧
    r.2.m_fifo_enabled = s.2.m_fifo_enabled ∧
    r.2.m_imu = s.2.m_imu := by
  obtain ⟨q1, q2, q3, q4, q5, q6⟩ := fetchBaro_frame c e s
  cases hf : (SensorRead.fetchBaro c e s).2.m_fifo_enabled
  · have hsave : SensorRead.saveReadout c e tick s =
        SensorRead.imuFallbackLoop e tick c.NUM_IMU
          (SensorRead.recordBaroLoop e tick c.NUM_BARO (SensorRead.fetchBaro c e s).2
            (SensorRead.fetchBaro c e s).1, (SensorRead.fetchBaro c e s).2) := by
      simp only [SensorRead.saveReadout, hf, Bool.not_false, if_true]
    rw [hsave] at h
    obtain ⟨l1, l2, l3, l4, l5⟩ := imuFallbackLoop_some e tick _ c.NUM_IMU r h
    simp only [recordBaroLoop_trace, recordBaroLoop_env, q1, q2, q6, ← replay_append] at l1 l5
    have hb : r.2.m_baro_data = (SensorRead.fetchBaro c e s).2.m_baro_data := l3.2.1
    refine ⟨⟨_, ?_, fallbackEvents_imuSide e tick _ _ c.NUM_IMU, fun _ => ⟨rfl, ?_⟩⟩, hb,
      l3.2.2.1.trans q4, l3.2.2.2.trans q3, l3.1.trans q5⟩
    · rw [l1, hb]
    · rw [hb]
      exact l5
  · have hsave : SensorRead.saveReadout c e tick s =
        some (SensorRead.recordBaroLoop e tick c.NUM_BARO (SensorRead.fetchBaro c e s).2
          (SensorRead.fetchBaro c e s).1, (SensorRead.fetchBaro c e s).2) := by
      simp only [SensorRead.saveReadout, hf, Bool.not_true, Bool.false_eq_true, if_false]
    rw [hsave, Option.some.injEq] at h
    subst h
    have hne : ¬ (s.2.m_fifo_enabled = false) := by
      rw [← q3, hf]; decide
    refine ⟨⟨[], ?_, by simp, fun hc => absurd hc hne⟩, rfl, q4, q3, q5⟩
    rw [recordBaroLoop_trace, q1, List.append_nil]

theorem saveReadout_defined {η : Type} (c : Config) (e : Env η) (tick : Nat)
    (s : World η × SensorRead) (hdef : SensorRead.readsDefined e s.2) :
    ∃ r, SensorRead.saveReadout c e tick s = some r := by
  obtain ⟨_, _, _, _, q5, _⟩ := fetchBaro_frame c e s
  cases hf : (SensorRead.fetchBaro c e s).2.m_fifo_enabled
  · have hsave : SensorRead.saveReadout c e tick s =
        SensorRead.imuFallbackLoop e tick c.NUM_IMU
          (SensorRead.recordBaroLoop e tick c.NUM_BARO (SensorRead.fetchBaro c e s).2
            (SensorRead.fetchBaro c e s).1, (SensorRead.fetchBaro c e s).2) := by
      simp only [SensorRead.saveReadout, hf, Bool.not_false, if_true]
    rw [hsave]
    refine imuFallbackLoop_defined e tick _ ?_ c.NUM_IMU
    rcases hdef with hd | hd
    · exact Or.inl (q5.trans hd)
    · exact Or.inr hd
  · refine ⟨(SensorRead.recordBaroLoop e tick c.NUM_BARO (SensorRead.fetchBaro c e s).2
      (SensorRead.fetchBaro c e s).1, (SensorRead.fetchBaro c e s).2), ?_⟩
    simp only [SensorRead.saveReadout, hf, Bool.not_true, Bool.false_eq_true, if_false]

theorem RunIter_eq {η : Type} (c : Config) (e : Env η) (s : SensorRead.RunState η) :
    SensorRead.RunIter c e s =
      (if (SensorRead.afterDrain e s).2.m_current_readout =
            BaroReadoutType.kReadBaroPressure then
          some ((SensorRead.afterDrain e s).1.call e (Event.Prepare Request.kPressure),
           { (SensorRead.afterDrain e s).2 with
             m_current_readout := BaroReadoutType.kReadBaroTemperature })
        else
          SensorRead.saveReadout c e s.tick_count
            ((SensorRead.afterDrain e s).1.call e (Event.Prepare Request.kTemperature),
             { (SensorRead.afterDrain e s).2 with
               m_current_readout := BaroReadoutType.kReadBaroPressure })).map
        fun s2 =>
          { w := s2.1.call e (Event.osDelayUntil (u32 (s.tick_count + SensorRead.tick_update c)))
            t := s2.2
            tick_count := u32 (s.tick_count + SensorRead.tick_update c) } := rfl

theorem RunIter_pressure {η : Type} (c : Config) (e : Env η) (s : SensorRead.RunState η)
    (hphase : s.t.m_current_readout = BaroReadoutType.kReadBaroPressure) :
    ∃ s' : SensorRead.RunState η, SensorRead.RunIter c e s = some s' ∧
      s'.w.trace =
        (SensorRead.afterDrain e s).1.trace ++
          [Event.Prepare Request.kPressure,
           Event.osDelayUntil (u32 (s.tick_count + SensorRead.tick_update c))] ∧
      s'.t.m_current_readout = BaroReadoutType.kReadBaroTemperature ∧
      s'.t.m_fifo_enabled = s.t.m_fifo_enabled ∧
      s'.t.m_imu = s.t.m_imu ∧
      s'.t.m_baro_data = s.t.m_baro_data ∧
      s'.tick_count = u32 (s.tick_count + SensorRead.tick_update c) := by
  obtain ⟨_, sd⟩ := afterDrain_events e s
  have hp : (SensorRead.afterDrain e s).2.m_current_readout =
      BaroReadoutType.kReadBaroPressure := sd.2.2.1.trans hphase
  refine ⟨_, by rw [RunIter_eq, if_pos hp]; rfl, ?_, rfl, sd.2.2.2, sd.1, sd.2.1, rfl⟩
  simp [World.call]

theorem RunIter_temperature {η : Type} (c : Config) (e : Env η) (s s' : SensorRead.RunState η)
    (hphase : s.t.m_current_readout = BaroReadoutType.kReadBaroTemperature)
    (h : SensorRead.RunIter c e s = some s') :
    (∃ f : List Event,
      s'.w.trace =
        (SensorRead.afterDrain e s).1.trace ++ [Event.Prepare Request.kTemperature] ++
          (if SensorRead.simAtReadout e s then [] else [Event.GetMeasurement]) ++
          (List.range c.NUM_BARO).map (fun i => Event.record s.tick_count RecordType.BARO i
            (Payload.baro (s'.t.m_baro_data 0))) ++ f ++
          [Event.osDelayUntil (u32 (s.tick_count + SensorRead.tick_update c))] ∧
      (∀ ev ∈ f, ev.isImuSide = true) ∧
      (s.t.m_fifo_enabled = false →
        f = fallbackEvents e s.tick_count s.t.m_imu_data
            (replay e s.w.env
              (readoutEvents c s.tick_count (SensorRead.simAtReadout e s)
                (s'.t.m_baro_data 0))) c.NUM_IMU ∧
        recordsOf f = (List.range c.NUM_IMU).map
          (fun i => (s.tick_count, RecordType.IMU, i, Payload.imu (s'.t.m_imu_data i))))) ∧
    s'.t.m_current_readout = BaroReadoutType.kReadBaroPressure ∧
    s'.t.m_fifo_enabled = s.t.m_fifo_enabled ∧
    s'.t.m_imu = s.t.m_imu ∧
    s'.t.m_baro_data =
      (SensorRead.fetchBaro c e
        ((SensorRead.afterDrain e s).1.call e (Event.Prepare Request.kTemperature),
         { (SensorRead.afterDrain e s).2 with
           m_current_readout := BaroReadoutType.kReadBaroPressure })).2.m_baro_data ∧
    s'.tick_count = u32 (s.tick_count + SensorRead.tick_update c) := by
  obtain ⟨_, sd⟩ := afterDrain_events e s
  have hp : ¬ ((SensorRead.afterDrain e s).2.m_current_readout =
      BaroReadoutType.kReadBaroPressure) := by
    rw [sd.2.2.1, hphase]; decide
  rw [RunIter_eq, if_neg hp] at h
  obtain ⟨r, hr, hmk⟩ := Option.map_eq_some'.mp h
  subst hmk
  obtain ⟨⟨f, tf, cf, ff⟩, v1, v2, v3, v4⟩ := saveReadout_some c e s.tick_count _ r hr
  refine ⟨⟨f, ?_, cf, ?_⟩, v2, v3.trans sd.2.2.2, v4.trans sd.1, v1, rfl⟩
  · show r.1.trace ++ [Event.osDelayUntil (u32 (s.tick_count + SensorRead.tick_update c))] = _
    rw [tf]
    simp only [World.call, SensorRead.simAtReadout, List.append_assoc]
  · intro hfifo
    have hfd : (SensorRead.afterDrain e s).2.m_fifo_enabled = false := sd.2.2.2.trans hfifo
    obtain ⟨f1, f2⟩ := ff hfd
    have had : SensorRead.afterDrain e s = (s.w.call e Event.Read, s.t) := by
      simp only [SensorRead.afterDrain, hfifo, Bool.false_eq_true, if_false]
    refine ⟨?_, f2⟩
    rw [f1]
    simp only [had, SensorRead.simAtReadout, readoutEvents, replay_append, List.append_assoc]
    rfl

theorem RunIter_defined {η : Type} (c : Config) (e : Env η) (s : SensorRead.RunState η)
    (hdef : SensorRead.readsDefined e s.t) :
    ∃ s' : SensorRead.RunState η, SensorRead.RunIter c e s = some s' := by
  obtain ⟨_, sd⟩ := afterDrain_events e s
  cases hp : s.t.m_current_readout
  · have hp' : ¬ ((SensorRead.afterDrain e s).2.m_current_readout =
        BaroReadoutType.kReadBaroPressure) := by
      rw [sd.2.2.1, hp]; decide
    have hd : SensorRead.readsDefined e
        ({ (SensorRead.afterDrain e s).2 with
          m_current_readout := BaroReadoutType.kReadBaroPressure } : SensorRead) := by
      rcases hdef with hd | hd
      · exact Or.inl (sd.1.trans hd)
      · exact Or.inr hd
    obtain ⟨r, hr⟩ := saveReadout_defined c e s.tick_count
      ((SensorRead.afterDrain e s).1.call e (Event.Prepare Request.kTemperature),
       { (SensorRead.afterDrain e s).2 with
         m_current_readout := BaroReadoutType.kReadBaroPressure }) hd
    exact ⟨_, by rw [RunIter_eq, if_neg hp', hr]; rfl⟩
  · obtain ⟨s', hs', _⟩ := RunIter_pressure c e s hp
    exact ⟨s', hs'⟩

theorem RunIter_frame {η : Type} (c : Config) (e : Env η) (s s' : SensorRead.RunState η)
    (h : SensorRead.RunIter c e s = some s') :
    s'.t.m_current_readout = s.t.m_current_readout.other ∧
    s'.t.m_fifo_enabled = s.t.m_fifo_enabled ∧
    s'.t.m_imu = s.t.m_imu ∧
    s'.tick_count = u32 (s.tick_count + SensorRead.tick_update c) := by
  cases hp : s.t.m_current_readout
  · obtain ⟨_, a1, a2, a3, _, a5⟩ := RunIter_temperature c e s s' hp h
    exact ⟨a1, a2, a3, a5⟩
  · obtain ⟨s2, hs2, _, a1, a2, a3, _, a5⟩ := RunIter_pressure c e s hp
    rw [h, Option.some.injEq] at hs2
    subst hs2
    exact ⟨a1, a2, a3, a5⟩

/-! ## Runs of the loop -/

theorem Run_succ_some {η : Type} (c : Config) (e : Env η) (w : World η) (t : SensorRead)
    (n : Nat) (s' : SensorRead.RunState η)
    (h : SensorRead.Run c e w t (n + 1) = some s') :
    ∃ s : SensorRead.RunState η,
      SensorRead.Run c e w t n = some s ∧ SensorRead.RunIter c e s = some s' :=
  Option.bind_eq_some.mp h

theorem Run_step {η : Type} (c : Config) (e : Env η) (w : World η) (t : SensorRead)
    (n : Nat) (s s' : SensorRead.RunState η)
    (hs : SensorRead.Run c e w t n = some s) (hs' : SensorRead.Run c e w t (n + 1) = some s') :
    SensorRead.RunIter c e s = some s' := by
  obtain ⟨s2, h2, hi⟩ := Run_succ_some c e w t n s' hs'
  rw [hs, Option.some.injEq] at h2
  subst h2
  exact hi

theorem RunStartup_imu {η : Type} (e : Env η) (w : World η) (t : SensorRead) :
    (SensorRead.RunStartup e w t).t.m_imu = t.m_imu := by
  cases hc : (t.m_imu && e.imu_initialized
      ((w.call e (Event.Prepare Request.kTemperature)).call e (Event.osDelay 5)).env 0)
  · simp only [SensorRead.RunStartup, hc, Bool.false_eq_true, if_false]
  · simp only [SensorRead.RunStartup, hc, if_true]
    rfl

theorem Run_frame {η : Type} (c : Config) (e : Env η) (w : World η) (t : SensorRead) :
    ∀ (n : Nat) (s : SensorRead.RunState η), SensorRead.Run c e w t n = some s →
      s.t.m_imu = t.m_imu ∧
      s.t.m_current_readout =
        (if n % 2 = 0 then t.m_current_readout else t.m_current_readout.other) ∧
      s.tick_count =
        u32 ((SensorRead.RunStartup e w t).tick_count + n * SensorRead.tick_update c) := by
  intro n
  induction n with
  | zero =>
    intro s h
    have h0 : SensorRead.RunStartup e w t = s := Option.some.inj h
    subst h0
    refine ⟨RunStartup_imu e w t, (RunStartup_trace e w t).2, ?_⟩
    simp only [Nat.zero_mul, Nat.add_zero]
    simp only [SensorRead.RunStartup, u32, Nat.mod_mod]
  | succ k ih =>
    intro s' h
    obtain ⟨s, hs, hi⟩ := Run_succ_some c e w t k s' h
    obtain ⟨i1, i2, i3⟩ := ih s hs
    obtain ⟨f1, _, f3, f4⟩ := RunIter_frame c e s s' hi
    refine ⟨f3.trans i1, ?_, ?_⟩
    · rw [f1, i2]
      by_cases hk : k % 2 = 0
      · have hk' : ¬ ((k + 1) % 2 = 0) := by omega
        rw [if_pos hk, if_neg hk']
      · have hk' : (k + 1) % 2 = 0 := by omega
        rw [if_neg hk, if_pos hk']
        cases t.m_current_readout <;> rfl
    · rw [f4, i3]
      unfold u32
      rw [Nat.succ_mul, ← Nat.add_assoc]
      omega

theorem Run_defined {η : Type} (c : Config) (e : Env η) (w : World η) (t : SensorRead)
    (hdef : SensorRead.readsDefined e t) :
    ∀ n : Nat, ∃ s : SensorRead.RunState η, SensorRead.Run c e w t n = some s := by
  intro n
  induction n with
  | zero => exact ⟨_, rfl⟩
  | succ k ih =>
    obtain ⟨s, hs⟩ := ih
    have hd : SensorRead.readsDefined e s.t := by
      rcases hdef with hd | hd
      · exact Or.inl (((Run_frame c e w t k s hs).1).trans hd)
      · exact Or.inr hd
    obtain ⟨s', hs'⟩ := RunIter_defined c e s hd
    exact ⟨s', by show (SensorRead.Run c e w t k).bind (SensorRead.RunIter c e) = some s'
                  rw [hs]; exact hs'⟩

/-! ## The loop of `Run` without FIFO -/

theorem fetchBaro_baro0 {η : Type} (c : Config) (e : Env η) (s : World η × SensorRead) :
    (SensorRead.fetchBaro c e s).2.m_baro_data 0 =
      (if e.simulation_started s.1.env then
        (if 0 < c.NUM_BARO then
          { s.2.m_baro_data 0 with pressure := (e.global_baro_sim s.1.env 0).pressure }
         else s.2.m_baro_data 0)
       else ⟨(e.GetMeasurement s.1.env).1, (e.GetMeasurement s.1.env).2⟩) := by
  cases hsim : e.simulation_started s.1.env
  · simp [SensorRead.fetchBaro, hsim, SensorRead.setAt]
  · simp only [SensorRead.fetchBaro, hsim, if_true]
    exact simBaroLoop_data e s.1 s.2 c.NUM_BARO 0

theorem saveReadout_none_iff {η : Type} (c : Config) (e : Env η) (tick : Nat)
    (s : World η × SensorRead) :
    SensorRead.saveReadout c e tick s = none ↔
      s.2.m_fifo_enabled = false ∧ s.2.m_imu = false ∧
        ∃ i : Nat, i < c.NUM_IMU ∧
          readsSensorAt e tick s.2.m_imu_data
            (replay e s.1.env
              ((if e.simulation_started s.1.env then [] else [Event.GetMeasurement]) ++
                (List.range c.NUM_BARO).map (fun i => Event.record tick RecordType.BARO i
                  (Payload.baro ((SensorRead.fetchBaro c e s).2.m_baro_data 0))))) i := by
  obtain ⟨_, q2, q3, _, q5, q6⟩ := fetchBaro_frame c e s
  cases hf : (SensorRead.fetchBaro c e s).2.m_fifo_enabled
  · have hsave : SensorRead.saveReadout c e tick s =
        SensorRead.imuFallbackLoop e tick c.NUM_IMU
          (SensorRead.recordBaroLoop e tick c.NUM_BARO (SensorRead.fetchBaro c e s).2
            (SensorRead.fetchBaro c e s).1, (SensorRead.fetchBaro c e s).2) := by
      simp only [SensorRead.saveReadout, hf, Bool.not_false, if_true]
    rw [hsave, imuFallbackLoop_none_iff]
    simp only [recordBaroLoop_env, q2, q5, q6, ← replay_append]
    have hfs : s.2.m_fifo_enabled = false := q3.symm.trans hf
    simp only [hfs, true_and]
  · have hsave : SensorRead.saveReadout c e tick s =
        some (SensorRead.recordBaroLoop e tick c.NUM_BARO (SensorRead.fetchBaro c e s).2
          (SensorRead.fetchBaro c e s).1, (SensorRead.fetchBaro c e s).2) := by
      simp only [SensorRead.saveReadout, hf, Bool.not_true, Bool.false_eq_true, if_false]
    have hfs : s.2.m_fifo_enabled = true := q3.symm.trans hf
    rw [hsave]
    simp [hfs]

theorem RunIter_nofifo_temperature {η : Type} (c : Config) (e : Env η)
    (s : SensorRead.RunState η)
    (hfifo : s.t.m_fifo_enabled = false)
    (hphase : s.t.m_current_readout = BaroReadoutType.kReadBaroTemperature) :
    (SensorRead.RunIter c e s = none ↔
      s.t.m_imu = false ∧
        ∃ i : Nat, i < c.NUM_IMU ∧
          readsSensorAt e s.tick_count s.t.m_imu_data
            (replay e s.w.env (SensorRead.readoutCalls c e s)) i) ∧
    (∀ s' : SensorRead.RunState η, SensorRead.RunIter c e s = some s' →
      s'.w.trace =
        s.w.trace ++ SensorRead.readoutCalls c e s ++ SensorRead.fallbackCalls c e s ++
          [Event.osDelayUntil (u32 (s.tick_count + SensorRead.tick_update c))] ∧
      recordsOf (SensorRead.fallbackCalls c e s) =
        (List.range c.NUM_IMU).map
          (fun i => (s.tick_count, RecordType.IMU, i, Payload.imu (s'.t.m_imu_data i)))) := by
  have had : SensorRead.afterDrain e s = (s.w.call e Event.Read, s.t) := by
    simp only [SensorRead.afterDrain, hfifo, Bool.false_eq_true, if_false]
  have hb0 : (SensorRead.fetchBaro c e
      ((s.w.call e Event.Read).call e (Event.Prepare Request.kTemperature),
       { s.t with m_current_readout := BaroReadoutType.kReadBaroPressure })).2.m_baro_data 0 =
      SensorRead.baroFetched c e s := fetchBaro_baro0 c e _
  have hp : ¬ ((SensorRead.afterDrain e s).2.m_current_readout =
      BaroReadoutType.kReadBaroPressure) := by
    rw [had]
    show ¬ (s.t.m_current_readout = BaroReadoutType.kReadBaroPressure)
    rw [hphase]; decide
  constructor
  · have key := saveReadout_none_iff c e s.tick_count
      ((s.w.call e Event.Read).call e (Event.Prepare Request.kTemperature),
       { s.t with m_current_readout := BaroReadoutType.kReadBaroPressure })
    rw [hb0] at key
    have henv : replay e
        ((s.w.call e Event.Read).call e (Event.Prepare Request.kTemperature)).env
        ((if e.simulation_started
            ((s.w.call e Event.Read).call e (Event.Prepare Request.kTemperature)).env then []
          else [Event.GetMeasurement]) ++
          (List.range c.NUM_BARO).map (fun i => Event.record s.tick_count RecordType.BARO i
            (Payload.baro (SensorRead.baroFetched c e s)))) =
        replay e s.w.env (SensorRead.readoutCalls c e s) := by
      simp only [SensorRead.readoutCalls, readoutEvents, replay_append, List.append_assoc]
      rfl
    have hsr : SensorRead.saveReadout c e s.tick_count
        ((SensorRead.afterDrain e s).1.call e (Event.Prepare Request.kTemperature),
         { (SensorRead.afterDrain e s).2 with
           m_current_readout := BaroReadoutType.kReadBaroPressure }) =
        SensorRead.saveReadout c e s.tick_count
          ((s.w.call e Event.Read).call e (Event.Prepare Request.kTemperature),
           { s.t with m_current_readout := BaroReadoutType.kReadBaroPressure }) := by
      rw [had]
    rw [RunIter_eq, if_neg hp, Option.map_eq_none', hsr, key]
    change (s.t.m_fifo_enabled = false ∧ s.t.m_imu = false ∧
      ∃ i : Nat, i < c.NUM_IMU ∧ readsSensorAt e s.tick_count s.t.m_imu_data _ i) ↔ _
    rw [henv]
    exact ⟨fun h => h.2, fun h => ⟨hfifo, h⟩⟩
  · intro s' h
    obtain ⟨⟨f, tf, _, ff⟩, _, _, _, hb, _⟩ := RunIter_temperature c e s s' hphase h
    obtain ⟨f1, f2⟩ := ff hfifo
    have hb' : s'.t.m_baro_data 0 = SensorRead.baroFetched c e s := by
      rw [hb, had]
      exact hb0
    have hsim : SensorRead.simAtReadout e s =
        e.simulation_started
          (replay e s.w.env [Event.Read, Event.Prepare Request.kTemperature]) := by
      simp only [SensorRead.simAtReadout, had]
      rfl
    rw [hb', hsim] at f1 tf
    have hf : f = SensorRead.fallbackCalls c e s := f1
    rw [hf] at tf f2
    refine ⟨?_, f2⟩
    rw [tf, had]
    simp only [SensorRead.readoutCalls, readoutEvents, World.call, List.append_assoc,
      List.singleton_append, List.cons_append, List.nil_append]

theorem RunIter_nofifo_pressure {η : Type} (c : Config) (e : Env η)
    (s : SensorRead.RunState η)
    (hfifo : s.t.m_fifo_enabled = false)
    (hphase : s.t.m_current_readout = BaroReadoutType.kReadBaroPressure) :
    ∃ s' : SensorRead.RunState η, SensorRead.RunIter c e s = some s' ∧
      s'.w.trace =
        s.w.trace ++ [Event.Read, Event.Prepare Request.kPressure,
          Event.osDelayUntil (u32 (s.tick_count + SensorRead.tick_update c))] := by
  obtain ⟨s', hs', tr, _⟩ := RunIter_pressure c e s hphase
  have had : SensorRead.afterDrain e s = (s.w.call e Event.Read, s.t) := by
    simp only [SensorRead.afterDrain, hfifo, Bool.false_eq_true, if_false]
  refine ⟨s', hs', ?_⟩
  rw [tr, had]
  simp [World.call]

theorem RunStartup_noconfig {η : Type} (e : Env η) (w : World η) (t : SensorRead)
    (hnocfg : (t.m_imu && e.imu_initialized
      (replay e w.env [Event.Prepare Request.kTemperature, Event.osDelay 5]) 0) = false) :
    (SensorRead.RunStartup e w t).t = t := by
  have h : (t.m_imu && e.imu_initialized
      ((w.call e (Event.Prepare Request.kTemperature)).call e (Event.osDelay 5)).env 0)
        = false := hnocfg
  simp only [SensorRead.RunStartup, h, Bool.false_eq_true, if_false]

theorem Run_nofifo {η : Type} (c : Config) (e : Env η) (w : World η) (t : SensorRead)
    (hfifo : t.m_fifo_enabled = false)
    (hnocfg : (t.m_imu && e.imu_initialized
      (replay e w.env [Event.Prepare Request.kTemperature, Event.osDelay 5]) 0) = false) :
    ∀ (n : Nat) (s : SensorRead.RunState η), SensorRead.Run c e w t n = some s →
      s.t.m_fifo_enabled = false := by
  intro n
  induction n with
  | zero =>
    intro s h
    have h0 : SensorRead.RunStartup e w t = s := Option.some.inj h
    subst h0
    rw [RunStartup_noconfig e w t hnocfg]
    exact hfifo
  | succ k ih =>
    intro s' h
    obtain ⟨s, hs, hi⟩ := Run_succ_some c e w t k s' h
    exact ((RunIter_frame c e s s' hi).2.1).trans (ih s hs)

theorem imuRecords_baroMap (tick num : Nat) (p : Payload) :
    imuRecords ((List.range num).map (fun i => (tick, RecordType.BARO, i, p))) = [] := by
  unfold imuRecords
  rw [List.filter_eq_nil_iff]
  intro r hr
  obtain ⟨i, _, rfl⟩ := List.mem_map.mp hr
  simp

theorem imuRecords_imuMap (tick num : Nat) (ps : Nat → imu_data_t) :
    imuRecords ((List.range num).map
      (fun i => (tick, RecordType.IMU, i, Payload.imu (ps i)))) =
      (List.range num).map (fun i => (tick, RecordType.IMU, i, Payload.imu (ps i))) := by
  unfold imuRecords
  rw [List.filter_eq_self]
  intro r hr
  obtain ⟨i, _, rfl⟩ := List.mem_map.mp hr
  simp

theorem recordsOf_baroMap (tick num : Nat) (p : Payload) :
    recordsOf ((List.range num).map (fun i => Event.record tick RecordType.BARO i p)) =
      (List.range num).map (fun i => (tick, RecordType.BARO, i, p)) := by
  induction num with
  | zero => rfl
  | succ n ih =>
    rw [List.range_succ, List.map_append, List.map_append, recordsOf_append, ih]
    rfl

theorem recordsOf_readoutEvents (c : Config) (tick : Nat) (sim : Bool) (b : baro_data_t) :
    recordsOf (readoutEvents c tick sim b) =
      (List.range c.NUM_BARO).map (fun i => (tick, RecordType.BARO, i, Payload.baro b)) := by
  cases sim <;>
    simp [readoutEvents, recordsOf_append, recordsOf_baroMap, recordsOf]

theorem iterRecords_eq {η : Type} (c : Config) (e : Env η) (w : World η) (t : SensorRead)
    (n : Nat) (s s' : SensorRead.RunState η) (new : List Event)
    (hs : SensorRead.Run c e w t n = some s) (hs' : SensorRead.Run c e w t (n + 1) = some s')
    (htr : s'.w.trace = s.w.trace ++ new) :
    iterRecords c e w t n = recordsOf new := by
  unfold iterRecords
  rw [hs, hs']
  simp only [htr, recordsOf_append, List.drop_left]

/-- Counterexample to C9 as stated: two IMU instances, the IMU attached, instance 0 not
initialized (so FIFO configuration is never performed: no register is written and FIFO
mode stays off) and instance 1 initialized, no simulation.  The run is defined through
two iterations of the loop; the first iteration emits the two IMU records, the second
iteration emits no IMU record at all. -/
theorem Run_fallback_not_every_tick :
    (⟨2, 1, 1000, 100⟩ : Config).NUM_IMU = 2 ∧
    (SensorRead.Run ⟨2, 1, 1000, 100⟩ scripted
      (World.start { Script.ofRx [([1, 0, 2, 0, 3, 0], true), ([4, 0, 5, 0, 6, 0], true)]
        with initialized := [false, true] })
      (SensorRead.new true) 2).map (fun s => s.t.m_fifo_enabled) = some false ∧
    (SensorRead.Run ⟨2, 1, 1000, 100⟩ scripted
      (World.start { Script.ofRx [([1, 0, 2, 0, 3, 0], true), ([4, 0, 5, 0, 6, 0], true)]
        with initialized := [false, true] })
      (SensorRead.new true) 2).map (fun s => writesOf s.w.trace) = some [] ∧
    imuRecords (iterRecords ⟨2, 1, 1000, 100⟩ scripted
      (World.start { Script.ofRx [([1, 0, 2, 0, 3, 0], true), ([4, 0, 5, 0, 6, 0], true)]
        with initialized := [false, true] })
      (SensorRead.new true) 0) =
      [(0, RecordType.IMU, 0, Payload.imu ⟨⟨0, 0, 0⟩, ⟨0, 0, 0⟩⟩),
       (0, RecordType.IMU, 1, Payload.imu ⟨⟨4, 5, 6⟩, ⟨1, 2, 3⟩⟩)] ∧
    imuRecords (iterRecords ⟨2, 1, 1000, 100⟩ scripted
      (World.start { Script.ofRx [([1, 0, 2, 0, 3, 0], true), ([4, 0, 5, 0, 6, 0], true)]
        with initialized := [false, true] })
      (SensorRead.new true) 1) = [] := by
  decide

/-- C9 (amended): if FIFO configuration was never performed, the loop of `Run` emits
IMU records on every second iteration only.

An iteration entered in the temperature phase (iterations 1, 3, 5, ... from the initial
state) makes exactly these calls: the barometer read, the temperature request, the
measurement and the barometer records, then the fallback calls for the instances
`0 .. NUM_IMU - 1` in this order, then the delay-until.  The fallback emits exactly one
composite IMU record per instance, on channel (IMU, `i`) at the tick count of the
iteration, carrying the composite record of the instance as the task holds it
afterwards.  For an instance reached with simulation off and its initialized flag set
the record is preceded by the six-byte reads of the registers 0x22 and 0x28 and carries
the two triples decoded from the bytes the device answered; under simulation it carries
the simulated accelerometer triple; otherwise the record of the instance is emitted
unchanged, without any read.

An iteration entered in the pressure phase (iterations 2, 4, 6, ...) makes the
barometer read, the pressure request and the delay-until, and emits no record.

The next iteration has no defined behaviour exactly when it is entered in the
temperature phase with a null `m_imu` and the fallback reaches an instance with
simulation off and its initialized flag set; it is defined whenever the IMU is
attached.  As the FIFO is left unconfigured only with a null `m_imu` or with instance 0
not initialized after the startup delay, no defined iteration reads the sensor for
instance 0 unless the initialized flag of instance 0 changes. -/
theorem Run_fallback_imu_records {η : Type} (c : Config) (e : Env η) (w : World η)
    (t : SensorRead) (n : Nat)
    (hfifo : t.m_fifo_enabled = false)
    (hphase : t.m_current_readout = BaroReadoutType.kReadBaroTemperature)
    (hnocfg : (t.m_imu && e.imu_initialized
      (replay e w.env [Event.Prepare Request.kTemperature, Event.osDelay 5]) 0) = false) :
    (∀ s s' : SensorRead.RunState η,
      SensorRead.Run c e w t n = some s → SensorRead.Run c e w t (n + 1) = some s' →
      (n % 2 = 0 →
        s'.w.trace =
          s.w.trace ++ SensorRead.readoutCalls c e s ++ SensorRead.fallbackCalls c e s ++
            [Event.osDelayUntil (u32 (s.tick_count + SensorRead.tick_update c))] ∧
        recordsOf (SensorRead.fallbackCalls c e s) =
          (List.range c.NUM_IMU).map
            (fun i => (s.tick_count, RecordType.IMU, i, Payload.imu (s'.t.m_imu_data i))) ∧
        imuRecords (iterRecords c e w t n) =
          (List.range c.NUM_IMU).map
            (fun i => (s.tick_count, RecordType.IMU, i, Payload.imu (s'.t.m_imu_data i)))) ∧
      (n % 2 = 1 →
        s'.w.trace =
          s.w.trace ++ [Event.Read, Event.Prepare Request.kPressure,
            Event.osDelayUntil (u32 (s.tick_count + SensorRead.tick_update c))] ∧
        iterRecords c e w t n = [])) ∧
    (∀ s : SensorRead.RunState η, SensorRead.Run c e w t n = some s →
      (SensorRead.Run c e w t (n + 1) = none ↔
        n % 2 = 0 ∧ t.m_imu = false ∧
          ∃ i : Nat, i < c.NUM_IMU ∧
            readsSensorAt e s.tick_count s.t.m_imu_data
              (replay e s.w.env (SensorRead.readoutCalls c e s)) i)) ∧
    (t.m_imu = true → ∃ s' : SensorRead.RunState η,
      SensorRead.Run c e w t (n + 1) = some s') ∧
    ((∀ env env' : η, e.imu_initialized env 0 = e.imu_initialized env' 0) →
      ∀ s s' : SensorRead.RunState η,
        SensorRead.Run c e w t n = some s → SensorRead.Run c e w t (n + 1) = some s' →
        n % 2 = 0 → 0 < c.NUM_IMU →
        ¬ readsSensorAt e s.tick_count s.t.m_imu_data
            (replay e s.w.env (SensorRead.readoutCalls c e s)) 0) := by
  have hstate : ∀ s : SensorRead.RunState η, SensorRead.Run c e w t n = some s →
      s.t.m_fifo_enabled = false ∧ s.t.m_imu = t.m_imu ∧
      s.t.m_current_readout =
        (if n % 2 = 0 then BaroReadoutType.kReadBaroTemperature
         else BaroReadoutType.kReadBaroPressure) := by
    intro s hs
    obtain ⟨f1, f2, _⟩ := Run_frame c e w t n s hs
    refine ⟨Run_nofifo c e w t hfifo hnocfg n s hs, f1, ?_⟩
    rw [f2, hphase]
    rfl
  have hnone : ∀ s : SensorRead.RunState η, SensorRead.Run c e w t n = some s →
      (SensorRead.Run c e w t (n + 1) = none ↔
        n % 2 = 0 ∧ t.m_imu = false ∧
          ∃ i : Nat, i < c.NUM_IMU ∧
            readsSensorAt e s.tick_count s.t.m_imu_data
              (replay e s.w.env (SensorRead.readoutCalls c e s)) i) := by
    intro s hs
    obtain ⟨i1, i2, i3⟩ := hstate s hs
    have hrun : SensorRead.Run c e w t (n + 1) = SensorRead.RunIter c e s := by
      show (SensorRead.Run c e w t n).bind (SensorRead.RunIter c e) = _
      rw [hs]
      rfl
    rw [hrun]
    by_cases hn : n % 2 = 0
    · rw [if_pos hn] at i3
      rw [(RunIter_nofifo_temperature c e s i1 i3).1, i2]
      exact ⟨fun h => ⟨hn, h⟩, fun h => h.2⟩
    · rw [if_neg hn] at i3
      obtain ⟨s2, hs2, _⟩ := RunIter_nofifo_pressure c e s i1 i3
      rw [hs2]
      exact ⟨fun h => absurd h (by simp), fun h => absurd h.1 hn⟩
  refine ⟨?_, hnone, fun himu => Run_defined c e w t (Or.inl himu) (n + 1), ?_⟩
  · intro s s' hs hs'
    obtain ⟨i1, _, i3⟩ := hstate s hs
    have hi := Run_step c e w t n s s' hs hs'
    constructor
    · intro hn
      rw [if_pos hn] at i3
      obtain ⟨tr, rec⟩ := (RunIter_nofifo_temperature c e s i1 i3).2 s' hi
      refine ⟨tr, rec, ?_⟩
      have htr : s'.w.trace = s.w.trace ++
          (SensorRead.readoutCalls c e s ++ SensorRead.fallbackCalls c e s ++
            [Event.osDelayUntil (u32 (s.tick_count + SensorRead.tick_update c))]) := by
        rw [tr]
        simp only [List.append_assoc]
      rw [iterRecords_eq c e w t n s s' _ hs hs' htr]
      simp only [recordsOf_append, rec, SensorRead.readoutCalls, recordsOf_readoutEvents]
      simp only [imuRecords, List.filter_append]
      have h1 := imuRecords_baroMap s.tick_count c.NUM_BARO
        (Payload.baro (SensorRead.baroFetched c e s))
      have h2 := imuRecords_imuMap s.tick_count c.NUM_IMU s'.t.m_imu_data
      unfold imuRecords at h1 h2
      rw [h1, h2]
      simp [recordsOf]
    · intro hn
      have hn' : ¬ (n % 2 = 0) := by omega
      rw [if_neg hn'] at i3
      obtain ⟨s2, hs2, tr⟩ := RunIter_nofifo_pressure c e s i1 i3
      rw [hi, Option.some.injEq] at hs2
      subst hs2
      refine ⟨tr, ?_⟩
      rw [iterRecords_eq c e w t n s s' _ hs hs' tr]
      rfl
  · intro hstatic s s' hs hs' hn hpos hr
    have hinit : e.imu_initialized
        (replay e w.env [Event.Prepare Request.kTemperature, Event.osDelay 5]) 0 = true :=
      (hstatic _ _).trans hr.2
    have himu : t.m_imu = false := by
      rw [hinit, Bool.and_true] at hnocfg
      exact hnocfg
    have hcrash := (hnone s hs).mpr ⟨hn, himu, 0, hpos, hr⟩
    rw [hs'] at hcrash
    exact absurd hcrash (by simp)

/-- Witness for C9 (amended): the scripted device with two IMU instances, the IMU
attached, instance 0 not initialized (so the FIFO is not configured) and instance 1
initialized, the tick count 1000 and a tick update of 5.  The first iteration records
the untouched record of instance 0 without a read, then reads the registers 0x22 and
0x28 (the device answers the bytes 1,0,2,0,3,0 and 0xFF,0xFF,5,0,6,0) and records the
gyroscope triple (1, 2, 3) and the accelerometer triple (-1, 5, 6) for instance 1; the
second iteration emits nothing.  With no IMU attached and instance 0 initialized the
first iteration has no defined behaviour. -/
theorem Run_fallback_imu_records_witness :
    (∃ s0 s1 s2 : SensorRead.RunState Script,
      SensorRead.Run ⟨2, 1, 1000, 100⟩ scripted
        (World.start { Script.ofRx [([1, 0, 2, 0, 3, 0], true), ([0xFF, 0xFF, 5, 0, 6, 0], true)]
          with measurement := (7, 8), now := 1000, initialized := [false, true] })
        (SensorRead.new true) 0 = some s0 ∧
      SensorRead.Run ⟨2, 1, 1000, 100⟩ scripted
        (World.start { Script.ofRx [([1, 0, 2, 0, 3, 0], true), ([0xFF, 0xFF, 5, 0, 6, 0], true)]
          with measurement := (7, 8), now := 1000, initialized := [false, true] })
        (SensorRead.new true) 1 = some s1 ∧
      SensorRead.Run ⟨2, 1, 1000, 100⟩ scripted
        (World.start { Script.ofRx [([1, 0, 2, 0, 3, 0], true), ([0xFF, 0xFF, 5, 0, 6, 0], true)]
          with measurement := (7, 8), now := 1000, initialized := [false, true] })
        (SensorRead.new true) 2 = some s2 ∧
      s1.w.trace =
        [Event.Prepare Request.kTemperature, Event.osDelay 5, Event.osKernelGetTickCount,
         Event.Read, Event.Prepare Request.kTemperature, Event.GetMeasurement,
         Event.record 1000 RecordType.BARO 0 (Payload.baro ⟨7, 8⟩),
         Event.record 1000 RecordType.IMU 0 (Payload.imu ⟨⟨0, 0, 0⟩, ⟨0, 0, 0⟩⟩),
         Event.SetLow, Event.Transfer [0xA2], Event.Receive 6, Event.SetHigh,
         Event.SetLow, Event.Transfer [0xA8], Event.Receive 6, Event.SetHigh,
         Event.record 1000 RecordType.IMU 1 (Payload.imu ⟨⟨-1, 5, 6⟩, ⟨1, 2, 3⟩⟩),
         Event.osDelayUntil 1005] ∧
      s2.w.trace =
        s1.w.trace ++ [Event.Read, Event.Prepare Request.kPressure, Event.osDelayUntil 1010]) ∧
    iterRecords ⟨2, 1, 1000, 100⟩ scripted
      (World.start { Script.ofRx [([1, 0, 2, 0, 3, 0], true), ([0xFF, 0xFF, 5, 0, 6, 0], true)]
        with measurement := (7, 8), now := 1000, initialized := [false, true] })
      (SensorRead.new true) 1 = [] ∧
    SensorRead.Run ⟨1, 1, 1000, 100⟩ scripted
      (World.start { Script.ofRx [] with initialized := [true] }) (SensorRead.new false) 1
        = none :=
  have h0 := Run_fallback_imu_records ⟨2, 1, 1000, 100⟩ scripted
    (World.start { Script.ofRx [([1, 0, 2, 0, 3, 0], true), ([0xFF, 0xFF, 5, 0, 6, 0], true)]
      with measurement := (7, 8), now := 1000, initialized := [false, true] })
    (SensorRead.new true) 0 rfl rfl rfl
  have h1 := Run_fallback_imu_records ⟨2, 1, 1000, 100⟩ scripted
    (World.start { Script.ofRx [([1, 0, 2, 0, 3, 0], true), ([0xFF, 0xFF, 5, 0, 6, 0], true)]
      with measurement := (7, 8), now := 1000, initialized := [false, true] })
    (SensorRead.new true) 1 rfl rfl rfl
  have h2 := Run_fallback_imu_records ⟨1, 1, 1000, 100⟩ scripted
    (World.start { Script.ofRx [] with initialized := [true] }) (SensorRead.new false) 0
    rfl rfl rfl
  ⟨⟨_, _, _, rfl, rfl, rfl,
      (((h0.1 _ _ rfl rfl).1 (by decide)).1).trans (by decide),
      (((h1.1 _ _ rfl rfl).2 (by decide)).1).trans (by decide)⟩,
    ((h1.1 _ _ rfl rfl).2 (by decide)).2,
    ((h2.2.1 _ rfl).mpr ⟨by decide, rfl, 0, by decide, rfl, rfl⟩)⟩

/-! ## Phase and deadline of the loop of `Run` -/

/-- C12: the readout phase starts in the temperature-awaiting state (the constructor's
value, which the startup of `Run` keeps) and alternates on every iteration of the loop:
each iteration switches it to the other phase, and after `n` iterations it equals the
initial phase iff `n` is even.  This holds for every environment and every task state,
whatever the FIFO-enabled flag, the FIFO contents, the sample count, the overrun flag
and the simulation flag are, on every run whose fallback reads have defined behaviour;
the run is defined through any number of iterations when the IMU is attached, or when
no instance is ever initialized while simulation is off. -/
theorem Run_phase_alternates {η : Type} (c : Config) (e : Env η) (w : World η)
    (t : SensorRead) (imu : Bool) (n : Nat) :
    (SensorRead.new imu).m_current_readout = BaroReadoutType.kReadBaroTemperature ∧
    (∃ s0 : SensorRead.RunState η, SensorRead.Run c e w t 0 = some s0 ∧
      s0.t.m_current_readout = t.m_current_readout) ∧
    (∀ s s' : SensorRead.RunState η,
      SensorRead.Run c e w t n = some s → SensorRead.Run c e w t (n + 1) = some s' →
      s'.t.m_current_readout = s.t.m_current_readout.other) ∧
    (∀ s : SensorRead.RunState η, SensorRead.Run c e w t n = some s →
      (s.t.m_current_readout = t.m_current_readout ↔ n % 2 = 0)) ∧
    (SensorRead.readsDefined e t →
      ∃ s : SensorRead.RunState η, SensorRead.Run c e w t n = some s) := by
  refine ⟨rfl, ⟨_, rfl, (RunStartup_trace e w t).2⟩, ?_, ?_,
    fun hdef => Run_defined c e w t hdef n⟩
  · intro s s' hs hs'
    exact (RunIter_frame c e s s' (Run_step c e w t n s s' hs hs')).1
  · intro s hs
    rw [(Run_frame c e w t n s hs).2.1]
    by_cases hn : n % 2 = 0
    · simp [hn]
    · rw [if_neg hn]
      constructor
      · intro h
        cases hp : t.m_current_readout <;> rw [hp] at h <;> exact absurd h (by decide)
      · intro h
        exact absurd h hn

/-- Witness for C12: on the scripted device with the IMU attached and instance 0
initialized (FIFO mode active), the phase is the temperature phase after the startup,
the pressure phase after one iteration and the temperature phase again after two. -/
theorem Run_phase_alternates_witness :
    ∃ s0 s1 s2 : SensorRead.RunState Script,
      SensorRead.Run ⟨1, 1, 1000, 100⟩ scripted
        (World.start { Script.ofRx [] with initialized := [true] }) (SensorRead.new true) 0
          = some s0 ∧
      SensorRead.Run ⟨1, 1, 1000, 100⟩ scripted
        (World.start { Script.ofRx [] with initialized := [true] }) (SensorRead.new true) 1
          = some s1 ∧
      SensorRead.Run ⟨1, 1, 1000, 100⟩ scripted
        (World.start { Script.ofRx [] with initialized := [true] }) (SensorRead.new true) 2
          = some s2 ∧
      s0.t.m_fifo_enabled = true ∧
      s0.t.m_current_readout = BaroReadoutType.kReadBaroTemperature ∧
      s1.t.m_current_readout = BaroReadoutType.kReadBaroPressure ∧
      s2.t.m_current_readout = BaroReadoutType.kReadBaroTemperature :=
  have h0 := Run_phase_alternates ⟨1, 1, 1000, 100⟩ scripted
    (World.start { Script.ofRx [] with initialized := [true] }) (SensorRead.new true) true 0
  have h1 := Run_phase_alternates ⟨1, 1, 1000, 100⟩ scripted
    (World.start { Script.ofRx [] with initialized := [true] }) (SensorRead.new true) true 1
  have h2 := Run_phase_alternates ⟨1, 1, 1000, 100⟩ scripted
    (World.start { Script.ofRx [] with initialized := [true] }) (SensorRead.new true) true 2
  ⟨_, _, _, rfl, rfl, rfl, rfl,
    ((h0.2.2.2.1 _ rfl).mpr (by decide)).trans h0.1,
    (h0.2.2.1 _ _ rfl rfl).trans rfl,
    ((h2.2.2.2.1 _ rfl).mpr (by decide)).trans h1.1⟩

theorem filter_baroRecords_rtos (tick num : Nat) (p : Payload) :
    ((List.range num).map (fun i => Event.record tick RecordType.BARO i p)).filter
      Event.isRtos = [] := by
  rw [List.filter_eq_nil_iff]
  intro ev hev
  obtain ⟨i, _, rfl⟩ := List.mem_map.mp hev
  simp [Event.isRtos]

theorem RunIter_rtos {η : Type} (c : Config) (e : Env η) (s s' : SensorRead.RunState η)
    (h : SensorRead.RunIter c e s = some s') :
    s'.w.trace.filter Event.isRtos =
      s.w.trace.filter Event.isRtos ++
        [Event.osDelayUntil (u32 (s.tick_count + SensorRead.tick_update c))] ∧
    s'.w.trace.getLast? =
      some (Event.osDelayUntil (u32 (s.tick_count + SensorRead.tick_update c))) := by
  obtain ⟨⟨d, td, cd⟩, _⟩ := afterDrain_events e s
  have hd := filter_imuSide_rtos d cd
  cases hp : s.t.m_current_readout
  · obtain ⟨⟨f, tf, cf, _⟩, _⟩ := RunIter_temperature c e s s' hp h
    have hf := filter_imuSide_rtos f cf
    refine ⟨?_, ?_⟩
    · rw [tf, td]
      simp only [List.filter_append, hd, hf, filter_baroRecords_rtos, List.append_nil]
      cases SensorRead.simAtReadout e s <;> simp [Event.isRtos]
    · rw [tf, List.getLast?_append]
      rfl
  · obtain ⟨s2, hs2, tp, _⟩ := RunIter_pressure c e s hp
    rw [h, Option.some.injEq] at hs2
    subst hs2
    refine ⟨?_, ?_⟩
    · rw [tp, td]
      simp only [List.filter_append, hd, List.append_nil]
      simp [Event.isRtos]
    · rw [tp, List.getLast?_append]
      rfl

theorem RunStartup_sampled {η : Type} (e : Env η) (w : World η) (t : SensorRead) :
    (SensorRead.RunStartup e w t).w.trace =
      w.trace ++ SensorRead.startupEvents e w t ++ [Event.osKernelGetTickCount] ∧
    (SensorRead.RunStartup e w t).tick_count = SensorRead.sampledTick e w t ∧
    (SensorRead.startupEvents e w t).filter Event.isRtos = [Event.osDelay 5] := by
  cases hc : (t.m_imu && e.imu_initialized
      (replay e w.env [Event.Prepare Request.kTemperature, Event.osDelay 5]) 0)
  · have hc' : (t.m_imu && e.imu_initialized
        ((w.call e (Event.Prepare Request.kTemperature)).call e (Event.osDelay 5)).env 0)
          = false := hc
    have hs : SensorRead.RunStartup e w t =
        { w := ((w.call e (Event.Prepare Request.kTemperature)).call e
            (Event.osDelay 5)).call e Event.osKernelGetTickCount
          t := t
          tick_count := u32 (e.osKernelGetTickCount
            ((w.call e (Event.Prepare Request.kTemperature)).call e (Event.osDelay 5)).env) } := by
      simp only [SensorRead.RunStartup, hc', Bool.false_eq_true, if_false]
    have he : SensorRead.startupEvents e w t =
        [Event.Prepare Request.kTemperature, Event.osDelay 5] := by
      simp only [SensorRead.startupEvents, hc, Bool.false_eq_true, if_false, List.append_nil]
    unfold SensorRead.sampledTick
    rw [hs, he]
    exact ⟨by simp [World.call], rfl, rfl⟩
  · have hc' : (t.m_imu && e.imu_initialized
        ((w.call e (Event.Prepare Request.kTemperature)).call e (Event.osDelay 5)).env 0)
          = true := hc
    have hr : (Lsm6dso32.ConfigureFifo e 1
        ((w.call e (Event.Prepare Request.kTemperature)).call e (Event.osDelay 5))).2
        = true := rfl
    have hs : SensorRead.RunStartup e w t =
        { w := ((Lsm6dso32.ConfigureFifo e 1
            ((w.call e (Event.Prepare Request.kTemperature)).call e (Event.osDelay 5))).1.call e
              (Event.log_info LogMsg.fifoEnabled)).call e Event.osKernelGetTickCount
          t := { t with m_fifo_enabled := true }
          tick_count := u32 (e.osKernelGetTickCount
            ((Lsm6dso32.ConfigureFifo e 1
              ((w.call e (Event.Prepare Request.kTemperature)).call e
                (Event.osDelay 5))).1.call e (Event.log_info LogMsg.fifoEnabled)).env) } := by
      simp only [SensorRead.RunStartup, hc', if_true, hr]
    have he : SensorRead.startupEvents e w t =
        [Event.Prepare Request.kTemperature, Event.osDelay 5,
         Event.SetLow, Event.Transfer [0x07, 0x01], Event.SetHigh,
         Event.SetLow, Event.Transfer [0x08, 0x00], Event.SetHigh,
         Event.SetLow, Event.Transfer [0x09, 0x44], Event.SetHigh,
         Event.SetLow, Event.Transfer [0x0A, 0x06], Event.SetHigh,
         Event.log_info LogMsg.fifoEnabled] := by
      simp only [SensorRead.startupEvents, hc, if_true]
      rfl
    unfold SensorRead.sampledTick
    rw [hs, he]
    refine ⟨?_, rfl, rfl⟩
    show ((Lsm6dso32.ConfigureFifo e 1
            ((w.call e (Event.Prepare Request.kTemperature)).call e (Event.osDelay 5))).1.trace
            ++ [Event.log_info LogMsg.fifoEnabled]) ++ [Event.osKernelGetTickCount] = _
    rw [ConfigureFifo_trace]
    simp only [World.call, List.append_assoc]
    rfl

theorem Run_rtos {η : Type} (c : Config) (e : Env η) (w : World η) (t : SensorRead) :
    ∀ (n : Nat) (s : SensorRead.RunState η), SensorRead.Run c e w t n = some s →
      s.tick_count = u32 (SensorRead.sampledTick e w t + n * SensorRead.tick_update c) ∧
      s.w.trace.filter Event.isRtos =
        w.trace.filter Event.isRtos ++ [Event.osDelay 5, Event.osKernelGetTickCount] ++
          (List.range n).map (fun k => Event.osDelayUntil
            (u32 (SensorRead.sampledTick e w t + (k + 1) * SensorRead.tick_update c))) := by
  obtain ⟨st, sk, sf⟩ := RunStartup_sampled e w t
  have htick : ∀ (n : Nat) (s : SensorRead.RunState η), SensorRead.Run c e w t n = some s →
      s.tick_count = u32 (SensorRead.sampledTick e w t + n * SensorRead.tick_update c) := by
    intro n s hs
    rw [(Run_frame c e w t n s hs).2.2, sk]
  intro n
  induction n with
  | zero =>
    intro s hs
    refine ⟨htick 0 s hs, ?_⟩
    have h0 : SensorRead.RunStartup e w t = s := Option.some.inj hs
    subst h0
    rw [st]
    simp only [List.filter_append, sf, List.range_zero, List.map_nil, List.append_nil,
      List.append_assoc]
    rfl
  | succ k ih =>
    intro s' hs'
    refine ⟨htick (k + 1) s' hs', ?_⟩
    obtain ⟨s, hs, hi⟩ := Run_succ_some c e w t k s' hs'
    obtain ⟨i1, i2⟩ := ih s hs
    have hnext : u32 (s.tick_count + SensorRead.tick_update c) =
        u32 (SensorRead.sampledTick e w t + (k + 1) * SensorRead.tick_update c) := by
      rw [← htick (k + 1) s' hs']
      exact ((RunIter_frame c e s s' hi).2.2.2).symm
    rw [(RunIter_rtos c e s s' hi).1, i2, hnext, List.range_succ, List.map_append,
      List.append_assoc]
    rfl

/-- C13: the wake deadline never drifts.  With `t0` the value `osKernelGetTickCount`
returns when `Run` samples it once before the loop (in the outside state reached by the
calls of the startup) and `tick_update` the tick frequency divided by twice the
control-loop frequency, the RTOS time calls of `Run` up to the end of iteration `n` are
the startup delay, the single read of the tick count, and one delay-until call per
iteration whose deadline is `(t0 + k * tick_update) mod 2^32` for the `k`-th iteration:
the deadline is the last call of each iteration, and the tick count is never read
inside the loop.  This holds on every run whose fallback reads have defined behaviour;
the run is defined through any number of iterations when the IMU is attached, or when
no instance is ever initialized while simulation is off. -/
theorem Run_deadline_exact {η : Type} (c : Config) (e : Env η) (w : World η)
    (t : SensorRead) (n : Nat) :
    SensorRead.tick_update c = u32 c.sysGetTickFreq / u32 (2 * c.CONTROL_SAMPLING_FREQ) ∧
    (∃ s0 : SensorRead.RunState η, SensorRead.Run c e w t 0 = some s0 ∧
      s0.w.trace =
        w.trace ++ SensorRead.startupEvents e w t ++ [Event.osKernelGetTickCount] ∧
      s0.tick_count =
        u32 (e.osKernelGetTickCount (replay e w.env (SensorRead.startupEvents e w t)))) ∧
    (∀ s : SensorRead.RunState η, SensorRead.Run c e w t n = some s →
      s.tick_count = u32 (SensorRead.sampledTick e w t + n * SensorRead.tick_update c) ∧
      s.w.trace.filter Event.isRtos =
        w.trace.filter Event.isRtos ++ [Event.osDelay 5, Event.osKernelGetTickCount] ++
          (List.range n).map (fun k => Event.osDelayUntil
            (u32 (SensorRead.sampledTick e w t + (k + 1) * SensorRead.tick_update c)))) ∧
    (∀ s' : SensorRead.RunState η, SensorRead.Run c e w t (n + 1) = some s' →
      s'.w.trace.getLast? =
        some (Event.osDelayUntil
          (u32 (SensorRead.sampledTick e w t + (n + 1) * SensorRead.tick_update c)))) ∧
    (SensorRead.readsDefined e t →
      ∃ s : SensorRead.RunState η, SensorRead.Run c e w t n = some s) := by
  obtain ⟨st, sk, _⟩ := RunStartup_sampled e w t
  refine ⟨rfl, ⟨_, rfl, st, sk⟩, Run_rtos c e w t n, ?_,
    fun hdef => Run_defined c e w t hdef n⟩
  intro s' hs'
  obtain ⟨s, hs, hi⟩ := Run_succ_some c e w t n s' hs'
  rw [(RunIter_rtos c e s s' hi).2, ← (Run_rtos c e w t (n + 1) s' hs').1,
    (RunIter_frame c e s s' hi).2.2.2]

/-- Witness for C13: on the scripted device whose RTOS reports the tick count 1000, a
tick frequency of 1000 and a control-loop frequency of 100 (a tick update of 5), with
the IMU attached and instance 0 initialized: the tick count is sampled after the FIFO
configuration, and the RTOS time calls through two iterations are the startup delay,
the read of the tick count and the deadlines 1005 and 1010. -/
theorem Run_deadline_exact_witness :
    ∃ s0 s2 : SensorRead.RunState Script,
      SensorRead.Run ⟨1, 1, 1000, 100⟩ scripted
        (World.start { Script.ofRx [] with now := 1000, initialized := [true] })
        (SensorRead.new true) 0 = some s0 ∧
      SensorRead.Run ⟨1, 1, 1000, 100⟩ scripted
        (World.start { Script.ofRx [] with now := 1000, initialized := [true] })
        (SensorRead.new true) 2 = some s2 ∧
      s0.w.trace =
        [Event.Prepare Request.kTemperature, Event.osDelay 5,
         Event.SetLow, Event.Transfer [0x07, 0x01], Event.SetHigh,
         Event.SetLow, Event.Transfer [0x08, 0x00], Event.SetHigh,
         Event.SetLow, Event.Transfer [0x09, 0x44], Event.SetHigh,
         Event.SetLow, Event.Transfer [0x0A, 0x06], Event.SetHigh,
         Event.log_info LogMsg.fifoEnabled, Event.osKernelGetTickCount] ∧
      s0.tick_count = 1000 ∧
      s2.tick_count = 1010 ∧
      s2.w.trace.filter Event.isRtos =
        [Event.osDelay 5, Event.osKernelGetTickCount,
         Event.osDelayUntil 1005, Event.osDelayUntil 1010] ∧
      s2.w.trace.getLast? = some (Event.osDelayUntil 1010) :=
  have h0 := Run_deadline_exact ⟨1, 1, 1000, 100⟩ scripted
    (World.start { Script.ofRx [] with now := 1000, initialized := [true] })
    (SensorRead.new true) 0
  have h1 := Run_deadline_exact ⟨1, 1, 1000, 100⟩ scripted
    (World.start { Script.ofRx [] with now := 1000, initialized := [true] })
    (SensorRead.new true) 1
  have h2 := Run_deadline_exact ⟨1, 1, 1000, 100⟩ scripted
    (World.start { Script.ofRx [] with now := 1000, initialized := [true] })
    (SensorRead.new true) 2
  ⟨_, _, rfl, rfl,
    (h0.2.1.elim fun s hs =>
      ((Option.some.inj (hs.1.symm.trans rfl)) ▸ hs.2.1).trans (by decide)),
    ((h0.2.2.1 _ rfl).1).trans (by decide),
    ((h2.2.2.1 _ rfl).1).trans (by decide),
    ((h2.2.2.1 _ rfl).2).trans (by decide),
    (h1.2.2.2.1 _ rfl).trans (by decide)⟩

/-! ## Barometer records -/

theorem baroRecords_imuSide (l : List Event) (h : ∀ ev ∈ l, ev.isImuSide = true) :
    baroRecords (recordsOf l) = [] := by
  induction l with
  | nil => rfl
  | cons ev rest ih =>
    have hrest := ih (fun x hx => h x (List.mem_cons_of_mem _ hx))
    have hev := h ev (List.mem_cons_self _ _)
    cases ev with
    | record tick ty id p =>
      cases ty
      · simp only [recordsOf, baroRecords, List.filter_cons] at hrest ⊢
        simp [hrest]
      · exact absurd hev (by simp [Event.isImuSide])
    | _ => simpa [recordsOf] using hrest

theorem baroRecords_baroMap (tick num : Nat) (p : Payload) :
    baroRecords ((List.range num).map (fun i => (tick, RecordType.BARO, i, p))) =
      (List.range num).map (fun i => (tick, RecordType.BARO, i, p)) := by
  unfold baroRecords
  rw [List.filter_eq_self]
  intro r hr
  obtain ⟨i, _, rfl⟩ := List.mem_map.mp hr
  simp

theorem baroRecords_append (a b : List (Nat × RecordType × Nat × Payload)) :
    baroRecords (a ++ b) = baroRecords a ++ baroRecords b := by
  simp [baroRecords]

theorem RunIter_baroRecords {η : Type} (c : Config) (e : Env η) (s s' : SensorRead.RunState η)
    (h : SensorRead.RunIter c e s = some s') :
    ∃ new : List (Nat × RecordType × Nat × Payload),
      recordsOf s'.w.trace = recordsOf s.w.trace ++ new ∧
      baroRecords new =
        (if s.t.m_current_readout = BaroReadoutType.kReadBaroTemperature then
          (List.range c.NUM_BARO).map (fun i => (s.tick_count, RecordType.BARO, i,
            Payload.baro (s'.t.m_baro_data 0)))
         else []) := by
  obtain ⟨⟨d, td, cd⟩, _⟩ := afterDrain_events e s
  have hd := baroRecords_imuSide d cd
  cases hp : s.t.m_current_readout
  · obtain ⟨⟨f, tf, cf, _⟩, _⟩ := RunIter_temperature c e s s' hp h
    have hf := baroRecords_imuSide f cf
    refine ⟨recordsOf ([Event.Read] ++ d ++ [Event.Prepare Request.kTemperature] ++
      (if SensorRead.simAtReadout e s then [] else [Event.GetMeasurement]) ++
      (List.range c.NUM_BARO).map (fun i => Event.record s.tick_count RecordType.BARO i
        (Payload.baro (s'.t.m_baro_data 0))) ++ f ++
      [Event.osDelayUntil (u32 (s.tick_count + SensorRead.tick_update c))]), ?_, ?_⟩
    · rw [tf, td, ← recordsOf_append]
      simp only [List.append_assoc]
    · simp only [recordsOf_append, baroRecords_append, hd, hf, recordsOf_baroMap,
        baroRecords_baroMap, if_true]
      cases SensorRead.simAtReadout e s <;> simp [recordsOf, baroRecords]
  · obtain ⟨s2, hs2, tp, _⟩ := RunIter_pressure c e s hp
    rw [h, Option.some.injEq] at hs2
    subst hs2
    refine ⟨recordsOf ([Event.Read] ++ d ++ [Event.Prepare Request.kPressure,
      Event.osDelayUntil (u32 (s.tick_count + SensorRead.tick_update c))]), ?_, ?_⟩
    · rw [tp, td, ← recordsOf_append]
      simp only [List.append_assoc]
    · have hne : ¬ (BaroReadoutType.kReadBaroPressure =
          BaroReadoutType.kReadBaroTemperature) := by decide
      simp only [recordsOf_append, baroRecords_append, hd, hne, if_false]
      simp [recordsOf, baroRecords]

theorem RunIter_baro_data {η : Type} (c : Config) (e : Env η) (s s' : SensorRead.RunState η)
    (hp : s.t.m_current_readout = BaroReadoutType.kReadBaroTemperature)
    (h : SensorRead.RunIter c e s = some s') :
    (SensorRead.simAtReadout e s = true →
      ∀ j : Nat, s'.t.m_baro_data j =
        (if j < c.NUM_BARO then
          { s.t.m_baro_data j with
            pressure := (e.global_baro_sim (SensorRead.readoutEnv e s) j).pressure }
         else s.t.m_baro_data j)) ∧
    (SensorRead.simAtReadout e s = false →
      s'.t.m_baro_data 0 =
        ⟨(e.GetMeasurement (SensorRead.readoutEnv e s)).1,
         (e.GetMeasurement (SensorRead.readoutEnv e s)).2⟩) := by
  obtain ⟨_, sd⟩ := afterDrain_events e s
  obtain ⟨_, _, _, _, hb, _⟩ := RunIter_temperature c e s s' hp h
  constructor
  · intro hsim j
    have hsim' : e.simulation_started
        ((SensorRead.afterDrain e s).1.call e (Event.Prepare Request.kTemperature)).env
        = true := hsim
    rw [hb]
    simp only [SensorRead.fetchBaro, hsim', if_true]
    rw [simBaroLoop_data e _ _ c.NUM_BARO j]
    simp only [sd.2.1]
    rfl
  · intro hsim
    have hsim' : e.simulation_started
        ((SensorRead.afterDrain e s).1.call e (Event.Prepare Request.kTemperature)).env
        = false := hsim
    rw [hb]
    simp only [SensorRead.fetchBaro, hsim', Bool.false_eq_true, if_false, SensorRead.setAt,
      if_true]
    rfl

/-- C17: an iteration of the loop entered in the temperature phase (the only ones that
emit barometer records) emits one barometer record per index `i` in [0, NUM_BARO), in
order, on channel (BARO, `i`), and the payload of every one of them is the record of
barometer instance 0 as the task holds it, `m_baro_data[0]`.  Under simulation the
simulated pressure of every instance `j` is stored into `m_baro_data[j]`, yet every
emitted payload carries the simulated pressure of instance 0.  An iteration entered in
the pressure phase emits no barometer record.  This holds for every iteration whose
fallback reads have defined behaviour, which is the case when the IMU is attached, or
when no instance is ever initialized while simulation is off. -/
theorem RunIter_baro_records_instance0 {η : Type} (c : Config) (e : Env η)
    (s : SensorRead.RunState η) :
    (∀ s' : SensorRead.RunState η, SensorRead.RunIter c e s = some s' →
      ∃ new : List (Nat × RecordType × Nat × Payload),
        recordsOf s'.w.trace = recordsOf s.w.trace ++ new ∧
        (s.t.m_current_readout = BaroReadoutType.kReadBaroPressure → baroRecords new = []) ∧
        (s.t.m_current_readout = BaroReadoutType.kReadBaroTemperature →
          baroRecords new =
            (List.range c.NUM_BARO).map (fun i => (s.tick_count, RecordType.BARO, i,
              Payload.baro (s'.t.m_baro_data 0))) ∧
          (SensorRead.simAtReadout e s = true →
            (∀ j : Nat, j < c.NUM_BARO →
              s'.t.m_baro_data j =
                { s.t.m_baro_data j with
                  pressure := (e.global_baro_sim (SensorRead.readoutEnv e s) j).pressure }) ∧
            (∀ r ∈ baroRecords new, r.2.2.2 =
              Payload.baro
                ⟨(e.global_baro_sim (SensorRead.readoutEnv e s) 0).pressure,
                 (s.t.m_baro_data 0).temperature⟩)))) ∧
    (SensorRead.readsDefined e s.t →
      ∃ s' : SensorRead.RunState η, SensorRead.RunIter c e s = some s') := by
  refine ⟨?_, fun hdef => RunIter_defined c e s hdef⟩
  intro s' h
  obtain ⟨new, h1, h2⟩ := RunIter_baroRecords c e s s' h
  refine ⟨new, h1, ?_, ?_⟩
  · intro hp
    have hne : ¬ (BaroReadoutType.kReadBaroPressure =
        BaroReadoutType.kReadBaroTemperature) := by decide
    rw [h2, hp, if_neg hne]
  · intro hp
    rw [hp, if_pos rfl] at h2
    refine ⟨h2, fun hsim => ⟨?_, ?_⟩⟩
    · intro j hj
      rw [(RunIter_baro_data c e s s' hp h).1 hsim j, if_pos hj]
    · intro r hr
      rw [h2] at hr
      obtain ⟨i, hi, rfl⟩ := List.mem_map.mp hr
      have hpos : 0 < c.NUM_BARO := by
        have := List.mem_range.mp hi
        omega
      show Payload.baro (s'.t.m_baro_data 0) = _
      rw [(RunIter_baro_data c e s s' hp h).1 hsim 0, if_pos hpos]

/-- Witness for C17: two barometer instances under simulation with simulated pressures
100 and 200.  Both emitted records carry the pressure 100 of instance 0, although the
pressure 200 was stored into instance 1. -/
theorem RunIter_baro_records_instance0_witness :
    ∃ (s' : SensorRead.RunState Script) (new : List (Nat × RecordType × Nat × Payload)),
      SensorRead.RunIter ⟨1, 2, 1000, 100⟩ scripted
        { w := World.start { Script.ofRx [] with sim := true, baro_sim := [⟨100, 0⟩, ⟨200, 0⟩] }
          t := SensorRead.new false
          tick_count := 0 } = some s' ∧
      recordsOf s'.w.trace = [] ++ new ∧
      baroRecords new =
        [(0, RecordType.BARO, 0, Payload.baro ⟨100, 0⟩),
         (0, RecordType.BARO, 1, Payload.baro ⟨100, 0⟩)] ∧
      s'.t.m_baro_data 1 = ⟨200, 0⟩ :=
  ((RunIter_baro_records_instance0 ⟨1, 2, 1000, 100⟩ scripted
    { w := World.start { Script.ofRx [] with sim := true, baro_sim := [⟨100, 0⟩, ⟨200, 0⟩] }
      t := SensorRead.new false
      tick_count := 0 }).1 _ rfl).elim
    fun new h => ⟨_, new, rfl, h.1, (h.2.2 rfl).1.trans (by decide),
      (((h.2.2 rfl).2 rfl).1 1 (by decide)).trans (by decide)⟩

theorem filter_baroMap_baro (tick num : Nat) (p : Payload) :
    ((List.range num).map (fun i => Event.record tick RecordType.BARO i p)).filter
      Event.isBaro =
      (List.range num).map (fun i => Event.record tick RecordType.BARO i p) := by
  rw [List.filter_eq_self]
  intro ev hev
  obtain ⟨i, _, rfl⟩ := List.mem_map.mp hev
  rfl

/-- C18: in the trace of barometer-driver calls and barometer records of `Run` started
in the temperature phase, with at least one barometer instance and simulation off when
the first iteration tests it, the first barometer records are emitted during the first
iteration of the loop and the calls before them are exactly `Prepare(kTemperature)`,
`Read`, `Prepare(kTemperature)`, `GetMeasurement`: no `Prepare(kPressure)` precedes
them.  Barometer records are emitted on exactly every second iteration: iterations
1, 3, 5, ... emit `NUM_BARO` of them, iterations 2, 4, 6, ... none.  This holds on every
run whose fallback reads have defined behaviour; the run is defined through any number
of iterations when the IMU is attached, or when no instance is ever initialized while
simulation is off. -/
theorem Run_first_baro_record {η : Type} (c : Config) (e : Env η) (w : World η)
    (t : SensorRead)
    (hphase : t.m_current_readout = BaroReadoutType.kReadBaroTemperature)
    (hbaro : 0 < c.NUM_BARO)
    (hsim : SensorRead.simAtReadout e (SensorRead.RunStartup e w t) = false) :
    (∃ s0 : SensorRead.RunState η, SensorRead.Run c e w t 0 = some s0 ∧
      s0.w.trace.filter Event.isBaro =
        w.trace.filter Event.isBaro ++ [Event.Prepare Request.kTemperature]) ∧
    (∀ s0 s1 : SensorRead.RunState η,
      SensorRead.Run c e w t 0 = some s0 → SensorRead.Run c e w t 1 = some s1 →
      s1.w.trace.filter Event.isBaro =
        w.trace.filter Event.isBaro ++
          [Event.Prepare Request.kTemperature, Event.Read,
           Event.Prepare Request.kTemperature, Event.GetMeasurement] ++
          (List.range c.NUM_BARO).map
            (fun i => Event.record s0.tick_count RecordType.BARO i
              (Payload.baro (s1.t.m_baro_data 0)))) ∧
    (∀ (n : Nat) (s s' : SensorRead.RunState η), n % 2 = 0 →
      SensorRead.Run c e w t n = some s → SensorRead.Run c e w t (n + 1) = some s' →
      baroRecords (iterRecords c e w t n) =
        (List.range c.NUM_BARO).map
          (fun i => (s.tick_count, RecordType.BARO, i, Payload.baro (s'.t.m_baro_data 0))) ∧
      baroRecords (iterRecords c e w t n) ≠ []) ∧
    (∀ n : Nat, n % 2 = 1 → baroRecords (iterRecords c e w t n) = []) ∧
    (SensorRead.readsDefined e t →
      ∀ n : Nat, ∃ s : SensorRead.RunState η, SensorRead.Run c e w t n = some s) := by
  obtain ⟨⟨cfg, tc, cc⟩, hp0⟩ := RunStartup_trace e w t
  have hcfg : cfg.filter Event.isBaro = [] := by
    rw [List.filter_eq_nil_iff]
    intro ev hev
    rw [(cc ev hev).2]
    decide
  have h0 : (SensorRead.RunStartup e w t).w.trace.filter Event.isBaro =
      w.trace.filter Event.isBaro ++ [Event.Prepare Request.kTemperature] := by
    rw [tc]
    simp only [List.filter_append, hcfg, List.append_nil]
    simp [Event.isBaro]
  have hiter : ∀ (n : Nat) (s s' : SensorRead.RunState η),
      SensorRead.Run c e w t n = some s → SensorRead.Run c e w t (n + 1) = some s' →
      baroRecords (iterRecords c e w t n) =
        (if n % 2 = 0 then
          (List.range c.NUM_BARO).map
            (fun i => (s.tick_count, RecordType.BARO, i, Payload.baro (s'.t.m_baro_data 0)))
         else []) := by
    intro n s s' hs hs'
    obtain ⟨new, r1, r2⟩ := RunIter_baroRecords c e s s' (Run_step c e w t n s s' hs hs')
    unfold iterRecords
    rw [hs, hs']
    simp only [r1, List.drop_left]
    rw [r2, (Run_frame c e w t n s hs).2.1, hphase]
    by_cases hn : n % 2 = 0
    · simp only [hn, if_true]
    · have hne : ¬ (BaroReadoutType.kReadBaroTemperature.other =
          BaroReadoutType.kReadBaroTemperature) := by decide
      simp only [hn, if_false, hne]
  refine ⟨⟨_, rfl, h0⟩, ?_, ?_, ?_, fun hdef => Run_defined c e w t hdef⟩
  · intro s0 s1 hs0 hs1
    have hs : SensorRead.RunStartup e w t = s0 := Option.some.inj hs0
    subst hs
    have hp : (SensorRead.RunStartup e w t).t.m_current_readout =
        BaroReadoutType.kReadBaroTemperature := hp0.trans hphase
    obtain ⟨⟨d, td, cd⟩, _⟩ := afterDrain_events e (SensorRead.RunStartup e w t)
    obtain ⟨⟨f, tf, cf, _⟩, _⟩ := RunIter_temperature c e _ s1 hp
      (Run_step c e w t 0 _ s1 hs0 hs1)
    have hd := filter_imuSide_baro d cd
    have hf := filter_imuSide_baro f cf
    rw [tf, td, hsim]
    simp only [List.filter_append, hd, hf, h0, filter_baroMap_baro, List.append_nil,
      Bool.false_eq_true, if_false]
    simp [Event.isBaro]
  · intro n s s' hn hs hs'
    have h := hiter n s s' hs hs'
    rw [if_pos hn] at h
    refine ⟨h, ?_⟩
    rw [h]
    intro hnil
    have hlen := congrArg List.length hnil
    simp at hlen
    omega
  · intro n hn
    have hn' : ¬ (n % 2 = 0) := by omega
    cases hs : SensorRead.Run c e w t n with
    | none => simp [iterRecords, hs, baroRecords]
    | some s =>
      cases hs' : SensorRead.Run c e w t (n + 1) with
      | none => simp [iterRecords, hs, hs', baroRecords]
      | some s' =>
        have h := hiter n s s' hs hs'
        rw [if_neg hn'] at h
        exact h

/-- Witness for C18: on the scripted environment with one barometer instance, the
barometer calls and records up to the end of the first iteration are `Prepare`,
`Read`, `Prepare`, `GetMeasurement` and one record; the second iteration emits none. -/
theorem Run_first_baro_record_witness :
    (∃ s1 s2 : SensorRead.RunState Script,
      SensorRead.Run ⟨1, 1, 1000, 100⟩ scripted (World.start (Script.ofRx []))
        (SensorRead.new false) 1 = some s1 ∧
      SensorRead.Run ⟨1, 1, 1000, 100⟩ scripted (World.start (Script.ofRx []))
        (SensorRead.new false) 2 = some s2 ∧
      s1.w.trace.filter Event.isBaro =
        [Event.Prepare Request.kTemperature, Event.Read,
         Event.Prepare Request.kTemperature, Event.GetMeasurement,
         Event.record 0 RecordType.BARO 0 (Payload.baro ⟨0, 0⟩)]) ∧
    baroRecords (iterRecords ⟨1, 1, 1000, 100⟩ scripted (World.start (Script.ofRx []))
      (SensorRead.new false) 1) = [] :=
  have h := Run_first_baro_record ⟨1, 1, 1000, 100⟩ scripted (World.start (Script.ofRx []))
    (SensorRead.new false) rfl (by decide) rfl
  ⟨⟨_, _, rfl, rfl, (h.2.1 _ _ rfl rfl).trans (by decide)⟩, h.2.2.2.1 1 (by decide)⟩

end Cats
